import Mathlib

/-!
Verification development for the "Enhanced PBR Packed Material Setup" addon
(`PackedMaterial/Packed_Channel_Material.py`).

The Python module is shallowly embedded here:

* the scene property group `EPM_SceneProperties` becomes the record `EPMProps`
  (image references become `Option Nat` image handles; float properties are
  carried as rationals, since the program only stores them, never computes);
* `apply_preset`, `EPM_OT_ClearAllImages.execute` and
  `EPM_OT_CreateMaterial.poll` become pure functions on `EPMProps`;
* the node graph under construction becomes the record `Material`: a list of
  nodes, a list of links, recorded attribute / socket-default assignments and
  the handful of material-level flags the operator mutates.  Node positions
  (pure layout data) are not modelled.  Blender assigns each new node a name
  derived from its type's label, suffixing `.001`, `.002`, ... on collision;
  this is modelled by storing the collision index `nameIdx` next to the kind,
  with index `0` denoting the bare name, which is what `nodes.get("...")`
  looks up;
* `EPM_OT_CreateMaterial.execute` becomes `execute`, split into one function
  per commented section of the Python source (coordinate stage, colour map,
  normal map, emission map, packed map, displacement map, material settings),
  and `_handle_channel_usage` becomes `handleChannelUsage`.

Host-version dependent behaviour (`is_blender_3_4_plus`, the set of input
sockets present on the Principled BSDF node) is abstracted into a `Host`
record, mirroring the version-compatibility helpers of the source.
-/

namespace PackedMaterial

/-- Channel usage options (`CHANNEL_ITEMS`). -/
inductive Usage where
  | none
  | metallic
  | roughness
  | ao
  | emission
  | alpha
  | specular
  | displacement
  | subsurface
deriving DecidableEq, Repr

/-- Preset identifiers (`PRESET_ITEMS`). -/
inductive Preset where
  | custom
  | unityHDRP
  | unityURP
  | unreal
  | substance
  | gltf
  | source
  | godot
deriving DecidableEq, Repr

/-- Texture coordinate options (`TEXCOORD_ITEMS`). -/
inductive TexCoordType where
  | uv
  | generated
  | object
  | camera
deriving DecidableEq, Repr

/-- Python's `str.capitalize` applied to the texture-coordinate enum
identifier, as used for `coord_output` in the builder.  (Note
`'UV'.capitalize() = 'Uv'`; that branch is unreachable in the builder because
the UV case always goes through the UV-map node instead.) -/
def TexCoordType.capitalize : TexCoordType → String
  | .uv => "Uv"
  | .generated => "Generated"
  | .object => "Object"
  | .camera => "Camera"

/-- Settings of one packed channel (`EPM_ChannelSettings`). -/
structure ChannelSettings where
  channel_usage : Usage
  channel_invert : Bool
deriving DecidableEq, Repr

/-- The addon's scene property group (`EPM_SceneProperties`).  Image pointer
properties are modelled as optional image handles. -/
structure EPMProps where
  material_name : String
  col_image : Option Nat
  normal_image : Option Nat
  emission_image : Option Nat
  packed_image : Option Nat
  displacement_image : Option Nat
  normal_invert_green : Bool
  normal_strength : Rat
  displacement_strength : Rat
  displacement_midlevel : Rat
  use_displacement : Bool
  texcoord_type : TexCoordType
  uv_map_name : String
  preset : Preset
  channel_r : ChannelSettings
  channel_g : ChannelSettings
  channel_b : ChannelSettings
  channel_a : ChannelSettings
  use_alpha_blend : Bool
  apply_to_all_selected : Bool
deriving DecidableEq, Repr

/-- Reset of the four channel slots performed at the top of `apply_preset`. -/
def resetChannels (props : EPMProps) : EPMProps :=
  { props with
    channel_r := ⟨Usage.none, false⟩
    channel_g := ⟨Usage.none, false⟩
    channel_b := ⟨Usage.none, false⟩
    channel_a := ⟨Usage.none, false⟩ }

/-- Embedding of `apply_preset` (the `preset` property's update callback):
`CUSTOM` is a no-op, every other preset resets all four slots and then writes
its fixed assignment. -/
def applyPreset (props : EPMProps) : EPMProps :=
  if props.preset = Preset.custom then props
  else
    let base := resetChannels props
    if props.preset = Preset.unityHDRP then
      { base with
        channel_r := ⟨Usage.metallic, false⟩
        channel_g := ⟨Usage.ao, false⟩
        channel_a := ⟨Usage.roughness, true⟩ }
    else if props.preset = Preset.unityURP then
      { base with
        channel_r := ⟨Usage.metallic, false⟩
        channel_g := ⟨Usage.ao, false⟩
        channel_a := ⟨Usage.roughness, true⟩ }
    else if props.preset = Preset.unreal ∨ props.preset = Preset.substance ∨
        props.preset = Preset.gltf ∨ props.preset = Preset.godot then
      { base with
        channel_r := ⟨Usage.ao, false⟩
        channel_g := ⟨Usage.roughness, false⟩
        channel_b := ⟨Usage.metallic, false⟩ }
    else if props.preset = Preset.source then
      { base with
        channel_g := ⟨Usage.metallic, false⟩
        channel_a := ⟨Usage.specular, false⟩ }
    else base

/-- Embedding of `EPM_OT_ClearAllImages.execute`: clears the five image
references and the material name, sets the preset back to `CUSTOM` (which
fires the `apply_preset` update callback, a no-op for `CUSTOM`), and resets
the four channel slots.  All other properties are untouched. -/
def clearAllImages (props : EPMProps) : EPMProps :=
  let p := { props with
    col_image := Option.none
    normal_image := Option.none
    emission_image := Option.none
    packed_image := Option.none
    displacement_image := Option.none
    material_name := "" }
  let p := applyPreset { p with preset := Preset.custom }
  { p with
    channel_r := ⟨Usage.none, false⟩
    channel_g := ⟨Usage.none, false⟩
    channel_b := ⟨Usage.none, false⟩
    channel_a := ⟨Usage.none, false⟩ }

/-- Embedding of `EPM_OT_CreateMaterial.poll`: the operator is available iff
at least one of the five image slots holds an image. -/
def poll (props : EPMProps) : Bool :=
  props.col_image.isSome || props.normal_image.isSome ||
  props.emission_image.isSome || props.packed_image.isSome ||
  props.displacement_image.isSome

/-- Embedding of `get_principled_socket`: try the candidate socket names in
order and return the first that exists among the BSDF's input sockets
(`inputs`), or `none` when no candidate matches.  (The Python wrapper that
promotes a single string to a one-element list is represented by callers
passing one-element lists.) -/
def get_principled_socket (inputs : List String) (socket_names : List String) :
    Option String :=
  match socket_names with
  | [] => Option.none
  | n :: rest =>
    if n ∈ inputs then some n else get_principled_socket inputs rest

/-- Slot assignment a preset writes, as the specification's preset table
states it (channel order R, G, B, A).  This is the specification-side
definition to be compared with the behaviour of `applyPreset`; for `Custom`
(where the table does not apply) it returns the all-clear assignment. -/
def presetTableSpec :
    Preset → ChannelSettings × ChannelSettings × ChannelSettings × ChannelSettings
  | Preset.custom =>
    (⟨Usage.none, false⟩, ⟨Usage.none, false⟩, ⟨Usage.none, false⟩, ⟨Usage.none, false⟩)
  | Preset.unityHDRP =>
    (⟨Usage.metallic, false⟩, ⟨Usage.ao, false⟩, ⟨Usage.none, false⟩, ⟨Usage.roughness, true⟩)
  | Preset.unityURP =>
    (⟨Usage.metallic, false⟩, ⟨Usage.ao, false⟩, ⟨Usage.none, false⟩, ⟨Usage.roughness, true⟩)
  | Preset.unreal =>
    (⟨Usage.ao, false⟩, ⟨Usage.roughness, false⟩, ⟨Usage.metallic, false⟩, ⟨Usage.none, false⟩)
  | Preset.substance =>
    (⟨Usage.ao, false⟩, ⟨Usage.roughness, false⟩, ⟨Usage.metallic, false⟩, ⟨Usage.none, false⟩)
  | Preset.gltf =>
    (⟨Usage.ao, false⟩, ⟨Usage.roughness, false⟩, ⟨Usage.metallic, false⟩, ⟨Usage.none, false⟩)
  | Preset.source =>
    (⟨Usage.none, false⟩, ⟨Usage.metallic, false⟩, ⟨Usage.none, false⟩, ⟨Usage.specular, false⟩)
  | Preset.godot =>
    (⟨Usage.ao, false⟩, ⟨Usage.roughness, false⟩, ⟨Usage.metallic, false⟩, ⟨Usage.none, false⟩)

/-- Replacement of the four channel slots of a property state by a given
assignment, leaving every other field unchanged. -/
def setChannels (props : EPMProps)
    (s : ChannelSettings × ChannelSettings × ChannelSettings × ChannelSettings) :
    EPMProps :=
  { props with
    channel_r := s.1
    channel_g := s.2.1
    channel_b := s.2.2.1
    channel_a := s.2.2.2 }

/-- C4: applying a preset is a no-op for `Custom` and otherwise replaces
exactly the four channel slots by the preset's fixed table entry
(Unity HDRP / URP: R=Metallic, G=AmbientOcclusion, A=Roughness inverted;
Unreal / Substance / glTF / Godot: R=AmbientOcclusion, G=Roughness,
B=Metallic; Source: G=Metallic, A=Specular), independent of the prior slot
state and leaving every other field unchanged; in particular applying the
same preset twice equals applying it once. -/
theorem apply_preset_matches_table (props : EPMProps) :
    applyPreset props =
      (if props.preset = Preset.custom then props
       else setChannels props (presetTableSpec props.preset)) ∧
    applyPreset (applyPreset props) = applyPreset props := by
  constructor
  · cases h : props.preset <;>
      simp [applyPreset, h, resetChannels, setChannels, presetTableSpec]
  · cases h : props.preset <;>
      simp [applyPreset, h, resetChannels]

/-- C10: the clear-all operation resets exactly the five image references,
the material name, the preset and the four channel slots; every other
configuration field is taken unchanged from the prior state. -/
theorem clear_all_resets_exactly (props : EPMProps) :
    clearAllImages props =
      { props with
        col_image := Option.none
        normal_image := Option.none
        emission_image := Option.none
        packed_image := Option.none
        displacement_image := Option.none
        material_name := ""
        preset := Preset.custom
        channel_r := ⟨Usage.none, false⟩
        channel_g := ⟨Usage.none, false⟩
        channel_b := ⟨Usage.none, false⟩
        channel_a := ⟨Usage.none, false⟩ } := by
  simp [clearAllImages, applyPreset]

/-- C8: material creation is available exactly when at least one of the five
image slots (colour, normal, emission, packed, displacement) holds an image;
with all five empty the availability check returns `false` and the operator
is refused before any node is created. -/
theorem poll_iff_some_image (props : EPMProps) :
    poll props = true ↔
      (props.col_image.isSome = true ∨ props.normal_image.isSome = true ∨
       props.emission_image.isSome = true ∨ props.packed_image.isSome = true ∨
       props.displacement_image.isSome = true) := by
  simp [poll, Bool.or_eq_true, or_assoc]

/-- C5: the candidate socket lookup returns the first candidate name (in
sequence order) that exists among the node's input sockets, and `none`
exactly when no candidate exists there — for every set of available input
socket names, i.e. independent of the host capability level. -/
theorem get_principled_socket_first_match (inputs socket_names : List String) :
    (get_principled_socket inputs socket_names = Option.none ↔
      ∀ n ∈ socket_names, n ∉ inputs) ∧
    (∀ s, get_principled_socket inputs socket_names = some s →
      ∃ i : Nat, socket_names.get? i = some s ∧ s ∈ inputs ∧
        ∀ j < i, ∀ m, socket_names.get? j = some m → m ∉ inputs) := by
  induction socket_names with
  | nil => simp [get_principled_socket]
  | cons n rest ih =>
    constructor
    · by_cases hn : n ∈ inputs
      · simp [get_principled_socket, hn]
      · simp only [get_principled_socket, if_neg hn]
        rw [ih.1]
        constructor
        · intro h m hm
          rcases List.mem_cons.mp hm with rfl | hm
          · exact hn
          · exact h m hm
        · intro h m hm
          exact h m (List.mem_cons_of_mem _ hm)
    · intro s hs
      by_cases hn : n ∈ inputs
      · simp only [get_principled_socket, if_pos hn, Option.some.injEq] at hs
        subst hs
        exact ⟨0, rfl, hn, by omega⟩
      · simp only [get_principled_socket, if_neg hn] at hs
        obtain ⟨i, hi, hmem, hfirst⟩ := ih.2 s hs
        refine ⟨i + 1, by simpa using hi, hmem, ?_⟩
        intro j hj m hm
        cases j with
        | zero =>
          simp only [List.get?] at hm
          cases hm
          exact hn
        | succ j' =>
          exact hfirst j' (by omega) m (by simpa using hm)

/-- Witness for C5 at a concrete candidate list: on a Blender-4 socket set,
the lookup over `Specular IOR Level, Specular` hits the first candidate. -/
theorem get_principled_socket_first_match_witness :
    ∃ i : Nat, (["Specular IOR Level", "Specular"] : List String).get? i =
        some "Specular IOR Level" ∧
      "Specular IOR Level" ∈ ["Base Color", "Specular IOR Level"] ∧
      ∀ j < i, ∀ m,
        (["Specular IOR Level", "Specular"] : List String).get? j = some m →
          m ∉ ["Base Color", "Specular IOR Level"] :=
  (get_principled_socket_first_match ["Base Color", "Specular IOR Level"]
    ["Specular IOR Level", "Specular"]).2 "Specular IOR Level" (by decide)

/-- Concrete node kinds created by the builder (the `ShaderNode...` type
strings passed to `nodes.new`). -/
inductive NodeKind where
  | bsdfPrincipled
  | outputMaterial
  | texCoord
  | mapping
  | uvMap
  | texImage
  | normalMap
  | separateColor
  | separateRGB
  | combineColor
  | combineRGB
  | invert
  | mix
  | mixRGB
  | displacement
deriving DecidableEq, Repr

/-- Default name stem Blender gives a freshly created node of each kind (its
label); the first node of a stem gets the bare stem as its name, later ones
get `.001`, `.002`, ... suffixes. -/
def NodeKind.baseName : NodeKind → String
  | .bsdfPrincipled => "Principled BSDF"
  | .outputMaterial => "Material Output"
  | .texCoord => "Texture Coordinate"
  | .mapping => "Mapping"
  | .uvMap => "UV Map"
  | .texImage => "Image Texture"
  | .normalMap => "Normal Map"
  | .separateColor => "Separate Color"
  | .separateRGB => "Separate RGB"
  | .combineColor => "Combine Color"
  | .combineRGB => "Combine RGB"
  | .invert => "Invert"
  | .mix => "Mix"
  | .mixRGB => "Mix"
  | .displacement => "Displacement"

/-- Node of the graph under construction.  `id` is the creation index;
`nameIdx` is the name-collision index: the node's Blender name is its kind's
`baseName` for `nameIdx = 0` and `baseName ++ ".00k"` otherwise. -/
structure GNode where
  id : Nat
  kind : NodeKind
  nameIdx : Nat
deriving DecidableEq, Repr

/-- Directed link between an output socket and an input socket. -/
structure Link where
  fromNode : Nat
  fromSocket : String
  toNode : Nat
  toSocket : String
deriving DecidableEq, Repr

/-- Value written by a node attribute assignment or a socket
`default_value` assignment. -/
inductive AttrVal where
  | str (s : String)
  | img (i : Nat)
  | rat (q : Rat)
  | color (r g b a : Rat)
  | boolVal (b : Bool)
deriving DecidableEq, Repr

/-- The material (and its node tree) under construction: nodes, links,
recorded node-attribute assignments, recorded input-socket `default_value`
assignments, image colour-space assignments, and the material-level flags
the operator mutates. -/
structure Material where
  matName : String
  nodes : List GNode
  links : List Link
  attrs : List (Nat × String × AttrVal)
  defaults : List (Nat × String × AttrVal)
  imageColorspaces : List (Nat × String)
  dispMethodBoth : Bool
  blendMethod : String
  shadowMethod : String
deriving DecidableEq, Repr

/-- Material right after `nodes.clear()`: empty tree, default render
settings. -/
def emptyMaterial (nm : String) : Material :=
  ⟨nm, [], [], [], [], [], false, "OPAQUE", "OPAQUE"⟩

/-- Record a node attribute assignment (`node.label = ...`,
`node.image = ...`, `node.mode = ...`, `node.uv_map = ...`, ...). -/
def Material.setAttr (st : Material) (node : Nat) (attr : String) (v : AttrVal) :
    Material :=
  { st with attrs := st.attrs ++ [(node, attr, v)] }

/-- Record an input socket `default_value` assignment. -/
def Material.setDefault (st : Material) (node : Nat) (socket : String)
    (v : AttrVal) : Material :=
  { st with defaults := st.defaults ++ [(node, socket, v)] }

/-- Record `image.colorspace_settings.name = ...` for an image handle. -/
def Material.setImageColorspace (st : Material) (img : Nat) (cs : String) :
    Material :=
  { st with imageColorspaces := st.imageColorspaces ++ [(img, cs)] }

/-- Embedding of `mat.cycles.displacement_method = 'BOTH'`. -/
def Material.setDispMethodBoth (st : Material) : Material :=
  { st with dispMethodBoth := true }

/-- Embedding of `create_node` / `nodes.new`: append a node of the given
kind, with the next creation index as id and the number of previously
created nodes of the same name stem as collision index, and record the label
assignment when a non-empty label is given. -/
def Material.newNode (st : Material) (kind : NodeKind) (label : String) :
    GNode × Material :=
  let node : GNode :=
    ⟨st.nodes.length, kind,
      (st.nodes.filter (fun n => n.kind.baseName == kind.baseName)).length⟩
  let st' := { st with nodes := st.nodes ++ [node] }
  let st' := if label = "" then st' else st'.setAttr node.id "label" (.str label)
  (node, st')

/-- Embedding of `links.new(output, input)`: shader input sockets hold at
most one link, so linking into an input first drops any existing link into
that input, then appends the new link. -/
def Material.linksNew (st : Material) (fromNode : Nat) (fromSocket : String)
    (toNode : Nat) (toSocket : String) : Material :=
  { st with
    links :=
      st.links.filter (fun l => !(l.toNode == toNode && l.toSocket == toSocket))
        ++ [⟨fromNode, fromSocket, toNode, toSocket⟩] }

/-- Embedding of `links.remove(link)`. -/
def Material.linksRemove (st : Material) (l : Link) : Material :=
  { st with links := st.links.filter (fun x => !(x == l)) }

/-- First link into an input socket (`socket.links[0]` when it exists). -/
def Material.linkInto (st : Material) (toNode : Nat) (toSocket : String) :
    Option Link :=
  st.links.find? (fun l => l.toNode == toNode && l.toSocket == toSocket)

/-- Embedding of `socket.is_linked` for an input socket. -/
def Material.isLinked (st : Material) (toNode : Nat) (toSocket : String) : Bool :=
  (st.linkInto toNode toSocket).isSome

/-- Embedding of `nodes.get(name)` for a bare (suffix-free) name: finds the
node whose name stem equals `nm` with collision index 0. -/
def Material.nodesGet (st : Material) (nm : String) : Option GNode :=
  st.nodes.find? (fun n => n.kind.baseName == nm && n.nameIdx == 0)

/-- Node stored at a creation index (creation indices are positions in the
node list). -/
def Material.nodeAt (st : Material) (i : Nat) : Option GNode :=
  st.nodes.get? i

/-- Number of nodes of a given kind in the tree. -/
def Material.countKind (st : Material) (k : NodeKind) : Nat :=
  (st.nodes.filter (fun n => n.kind == k)).length

/-- Number of displacement-construction (`ShaderNodeDisplacement`) nodes. -/
def dispCount (st : Material) : Nat := st.countKind NodeKind.displacement

/-- Number of mix nodes (modern `ShaderNodeMix` or legacy
`ShaderNodeMixRGB`). -/
def mixCount (st : Material) : Nat :=
  st.countKind NodeKind.mix + st.countKind NodeKind.mixRGB

/-- Host abstraction: whether the running Blender is 3.4+ (which node
vocabulary `create_separate_color_node` and friends use), and which input
sockets exist on the Principled BSDF node in this host version. -/
structure Host where
  v34plus : Bool
  bsdfInputs : List String
deriving DecidableEq, Repr

/-- Embedding of `create_separate_color_node`: `ShaderNodeSeparateColor` in
RGB mode on 3.4+, `ShaderNodeSeparateRGB` before. -/
def create_separate_color_node (host : Host) (st : Material) :
    GNode × Material :=
  if host.v34plus then
    let (n, st') := st.newNode NodeKind.separateColor ""
    (n, st'.setAttr n.id "mode" (.str "RGB"))
  else
    st.newNode NodeKind.separateRGB ""

/-- Embedding of `create_combine_color_node`. -/
def create_combine_color_node (host : Host) (st : Material) :
    GNode × Material :=
  if host.v34plus then
    let (n, st') := st.newNode NodeKind.combineColor ""
    (n, st'.setAttr n.id "mode" (.str "RGB"))
  else
    st.newNode NodeKind.combineRGB ""

/-- Embedding of `get_separate_color_outputs`: R, G, B output socket names
per host version. -/
def get_separate_color_outputs (host : Host) : String × String × String :=
  if host.v34plus then ("Red", "Green", "Blue") else ("R", "G", "B")

/-- Embedding of `get_combine_color_inputs`. -/
def get_combine_color_inputs (host : Host) : String × String × String :=
  if host.v34plus then ("Red", "Green", "Blue") else ("R", "G", "B")

/-- Name of input socket 0 of the separate-colour node (`sep_node.inputs[0]`):
`Color` on the 3.4+ node, `Image` on the legacy RGB node. -/
def separateColorInput0 (host : Host) : String :=
  if host.v34plus then "Color" else "Image"

/-- Name of output socket 0 of the combine-colour node
(`comb_node.outputs[0]`). -/
def combineColorOutput0 (host : Host) : String :=
  if host.v34plus then "Color" else "Image"

/-- Embedding of `create_mix_node`: `ShaderNodeMix` configured for RGBA data
with clamped factor on 3.4+, `ShaderNodeMixRGB` before; both get the
requested blend type. -/
def create_mix_node (host : Host) (blend_type : String) (st : Material) :
    GNode × Material :=
  if host.v34plus then
    let (n, st') := st.newNode NodeKind.mix ""
    let st' := st'.setAttr n.id "data_type" (.str "RGBA")
    let st' := st'.setAttr n.id "blend_type" (.str blend_type)
    let st' := st'.setAttr n.id "clamp_factor" (.boolVal true)
    (n, st')
  else
    let (n, st') := st.newNode NodeKind.mixRGB ""
    (n, st'.setAttr n.id "blend_type" (.str blend_type))

/-- Embedding of `get_mix_node_sockets`: (factor input, first colour input,
second colour input, result output) socket names per host version. -/
def get_mix_node_sockets (host : Host) : String × String × String × String :=
  if host.v34plus then ("Factor", "A", "B", "Result")
  else ("Fac", "Color1", "Color2", "Color")

/-- Embedding of `set_mix_node_factor`. -/
def set_mix_node_factor (host : Host) (node : Nat) (v : Rat) (st : Material) :
    Material :=
  if host.v34plus then st.setDefault node "Factor" (.rat v)
  else st.setDefault node "Fac" (.rat v)

/-- Embedding of `EPM_OT_CreateMaterial._handle_channel_usage`: route one
packed channel's signal (`channelOutput`, an output socket given as node id
and socket name) to its destination according to the usage tag.  `bsdf` is
the Principled BSDF node id.  The Python method also threads an `ao_outputs`
list that is never read; it is omitted. -/
def handleChannelUsage (host : Host) (props : EPMProps) (bsdf : Nat)
    (usage : Usage) (channelOutput : Nat × String) (channelName : String)
    (st : Material) : Material :=
  match usage with
  | Usage.metallic =>
    match get_principled_socket host.bsdfInputs ["Metallic"] with
    | some s => st.linksNew channelOutput.1 channelOutput.2 bsdf s
    | Option.none => st
  | Usage.roughness =>
    match get_principled_socket host.bsdfInputs ["Roughness"] with
    | some s => st.linksNew channelOutput.1 channelOutput.2 bsdf s
    | Option.none => st
  | Usage.specular =>
    match get_principled_socket host.bsdfInputs ["Specular IOR Level", "Specular"] with
    | some s => st.linksNew channelOutput.1 channelOutput.2 bsdf s
    | Option.none => st
  | Usage.ao =>
    -- `bsdf.inputs.get('Base Color')` exists and `.is_linked`
    if "Base Color" ∈ host.bsdfInputs then
      if st.isLinked bsdf "Base Color" then
        let (aoMix, t1) := create_mix_node host "MULTIPLY" st
        let t1 := t1.setAttr aoMix.id "label"
          (.str ("AO Multiply (" ++ channelName ++ ")"))
        let socks := get_mix_node_sockets host
        let t1 := set_mix_node_factor host aoMix.id 1 t1
        match t1.linkInto bsdf "Base Color" with
        | some existing =>
          let t2 := t1.linksRemove existing
          let t3 := t2.linksNew existing.fromNode existing.fromSocket aoMix.id socks.2.1
          let t4 := t3.linksNew channelOutput.1 channelOutput.2 aoMix.id socks.2.2.1
          t4.linksNew aoMix.id socks.2.2.2 bsdf "Base Color"
        | Option.none => st  -- unreachable: `is_linked` guarantees a link
      else st
    else st
  | Usage.emission =>
    match get_principled_socket host.bsdfInputs ["Emission Strength"] with
    | some s =>
      let t1 := st.linksNew channelOutput.1 channelOutput.2 bsdf s
      match get_principled_socket host.bsdfInputs ["Emission Color", "Emission"] with
      | some es => t1.setDefault bsdf es (.color 1 1 1 1)
      | Option.none => t1
    | Option.none => st
  | Usage.alpha =>
    match get_principled_socket host.bsdfInputs ["Alpha"] with
    | some s => st.linksNew channelOutput.1 channelOutput.2 bsdf s
    | Option.none => st
  | Usage.subsurface =>
    match get_principled_socket host.bsdfInputs ["Subsurface Weight", "Subsurface"] with
    | some s => st.linksNew channelOutput.1 channelOutput.2 bsdf s
    | Option.none => st
  | Usage.displacement =>
    match st.nodesGet "Displacement" with
    | some dn => st.linksNew channelOutput.1 channelOutput.2 dn.id "Height"
    | Option.none =>
      let (dn, t1) := st.newNode NodeKind.displacement "Displacement"
      let t1 := t1.setDefault dn.id "Scale" (.rat props.displacement_strength)
      let t1 := t1.setDefault dn.id "Midlevel" (.rat props.displacement_midlevel)
      let t2 :=
        match t1.nodesGet "Material Output" with
        | some outN =>
          (t1.linksNew dn.id "Displacement" outN.id "Displacement").setDispMethodBoth
        | Option.none => t1
      t2.linksNew channelOutput.1 channelOutput.2 dn.id "Height"
  | Usage.none => st

/-- Per-channel body of the packed-map loop in `execute`: skip a `NONE`
usage, otherwise optionally insert an invert node between the channel's raw
output and its destination and dispatch to `handleChannelUsage`. -/
def routeChannel (host : Host) (props : EPMProps) (bsdf : Nat)
    (channelName : String) (channelOutput : Nat × String)
    (settings : ChannelSettings) (st : Material) : Material :=
  if settings.channel_usage = Usage.none then st
  else
    let step :=
      if settings.channel_invert then
        let (invN, s1) := st.newNode NodeKind.invert ("Invert " ++ channelName)
        let s1 := s1.linksNew channelOutput.1 channelOutput.2 invN.id "Color"
        ((invN.id, "Color"), s1)
      else (channelOutput, st)
    handleChannelUsage host props bsdf settings.channel_usage step.1 channelName
      step.2

/-- Coordinate / mapping stage of `execute`: when the coordinate mode is not
UV or a UV-map name is set, create a texture-coordinate node and a mapping
node, feeding the mapping node either from a UV-map node (UV mode with a
named map) or from the coordinate node's output; returns the mapping node id
to be used as the shared vector feed.  Otherwise creates nothing. -/
def coordStage (props : EPMProps) (st : Material) : Option Nat × Material :=
  if props.texcoord_type ≠ TexCoordType.uv ∨ props.uv_map_name ≠ "" then
    let (texcoordN, t1) := st.newNode NodeKind.texCoord "Texture Coordinate"
    let (mappingN, t2) := t1.newNode NodeKind.mapping "Mapping"
    let coordOutput := props.texcoord_type.capitalize
    if props.texcoord_type = TexCoordType.uv ∧ props.uv_map_name ≠ "" then
      let (uvN, t3) := t2.newNode NodeKind.uvMap "UV Map"
      let t3 := t3.setAttr uvN.id "uv_map" (.str props.uv_map_name)
      (some mappingN.id, t3.linksNew uvN.id "UV" mappingN.id "Vector")
    else
      (some mappingN.id, t2.linksNew texcoordN.id coordOutput mappingN.id "Vector")
  else (Option.none, st)

/-- Base colour map stage of `execute` (section 1). -/
def colorStage (host : Host) (props : EPMProps) (bsdf : Nat)
    (mapOpt : Option Nat) (st : Material) : Material :=
  match props.col_image with
  | Option.none => st
  | some img =>
    let (colN, t1) := st.newNode NodeKind.texImage "Base Color"
    let t1 := t1.setAttr colN.id "image" (.img img)
    let t1 := t1.setImageColorspace img "sRGB"
    let t1 :=
      match mapOpt with
      | some m => t1.linksNew m "Vector" colN.id "Vector"
      | Option.none => t1
    let t1 := t1.linksNew colN.id "Color" bsdf "Base Color"
    match get_principled_socket host.bsdfInputs ["Alpha"] with
    | some s => t1.linksNew colN.id "Alpha" bsdf s
    | Option.none => t1

/-- Normal map stage of `execute` (section 2), including the
separate→invert-green→combine chain when the green-flip option is set. -/
def normalStage (host : Host) (props : EPMProps) (bsdf : Nat)
    (mapOpt : Option Nat) (st : Material) : Material :=
  match props.normal_image with
  | Option.none => st
  | some img =>
    let (texN, t1) := st.newNode NodeKind.texImage "Normal Map"
    let t1 := t1.setAttr texN.id "image" (.img img)
    let t1 := t1.setImageColorspace img "Non-Color"
    let t1 :=
      match mapOpt with
      | some m => t1.linksNew m "Vector" texN.id "Vector"
      | Option.none => t1
    let (nmN, t2) := t1.newNode NodeKind.normalMap "Normal Map Node"
    let t2 := t2.setDefault nmN.id "Strength" (.rat props.normal_strength)
    let t6 :=
      if props.normal_invert_green then
        let (sepN, t3) := create_separate_color_node host t2
        let t3 := t3.setAttr sepN.id "label" (.str "Separate Normal")
        let (invN, t4) := t3.newNode NodeKind.invert "Invert Green"
        let (combN, t5) := create_combine_color_node host t4
        let t5 := t5.setAttr combN.id "label" (.str "Combine Normal")
        let t5 := t5.linksNew texN.id "Color" sepN.id (separateColorInput0 host)
        let outs := get_separate_color_outputs host
        let ins := get_combine_color_inputs host
        let t5 := t5.linksNew sepN.id outs.2.1 invN.id "Color"
        let t5 := t5.linksNew sepN.id outs.1 combN.id ins.1
        let t5 := t5.linksNew invN.id "Color" combN.id ins.2.1
        let t5 := t5.linksNew sepN.id outs.2.2 combN.id ins.2.2
        t5.linksNew combN.id (combineColorOutput0 host) nmN.id "Color"
      else
        t2.linksNew texN.id "Color" nmN.id "Color"
    match get_principled_socket host.bsdfInputs ["Normal"] with
    | some s => t6.linksNew nmN.id "Normal" bsdf s
    | Option.none => t6

/-- Emission map stage of `execute` (section 3). -/
def emissionStage (host : Host) (props : EPMProps) (bsdf : Nat)
    (mapOpt : Option Nat) (st : Material) : Material :=
  match props.emission_image with
  | Option.none => st
  | some img =>
    let (emN, t1) := st.newNode NodeKind.texImage "Emission Map"
    let t1 := t1.setAttr emN.id "image" (.img img)
    let t1 := t1.setImageColorspace img "sRGB"
    let t1 :=
      match mapOpt with
      | some m => t1.linksNew m "Vector" emN.id "Vector"
      | Option.none => t1
    let t2 :=
      match get_principled_socket host.bsdfInputs ["Emission Color", "Emission"] with
      | some s => t1.linksNew emN.id "Color" bsdf s
      | Option.none => t1
    match get_principled_socket host.bsdfInputs ["Emission Strength"] with
    | some s => t2.setDefault bsdf s (.rat 1)
    | Option.none => t2

/-- Packed map stage of `execute` (section 4): sample the packed image, feed
it into a separate-colour node, and route each of the four channels in order
R, G, B, A (slot A takes the sampler's alpha output). -/
def packedStage (host : Host) (props : EPMProps) (bsdf : Nat)
    (mapOpt : Option Nat) (st : Material) : Material :=
  match props.packed_image with
  | Option.none => st
  | some img =>
    let (packN, t1) := st.newNode NodeKind.texImage "Packed Map"
    let t1 := t1.setAttr packN.id "image" (.img img)
    let t1 := t1.setImageColorspace img "Non-Color"
    let t1 :=
      match mapOpt with
      | some m => t1.linksNew m "Vector" packN.id "Vector"
      | Option.none => t1
    let (sepN, t2) := create_separate_color_node host t1
    let t2 := t2.setAttr sepN.id "label" (.str "Separate Packed Channels")
    let t2 := t2.linksNew packN.id "Color" sepN.id (separateColorInput0 host)
    let outs := get_separate_color_outputs host
    let t3 := routeChannel host props bsdf "R" (sepN.id, outs.1) props.channel_r t2
    let t4 := routeChannel host props bsdf "G" (sepN.id, outs.2.1) props.channel_g t3
    let t5 := routeChannel host props bsdf "B" (sepN.id, outs.2.2) props.channel_b t4
    routeChannel host props bsdf "A" (packN.id, "Alpha") props.channel_a t5

/-- Dedicated displacement map stage of `execute` (section 5): when
displacement is enabled and a displacement image is present, sample it and
create a displacement node (unconditionally — no lookup of an existing
one), wire sample→height and displacement→output, and set the displacement
method to BOTH. -/
def displacementStage (props : EPMProps) (outputId : Nat) (mapOpt : Option Nat)
    (st : Material) : Material :=
  if props.use_displacement then
    match props.displacement_image with
    | some img =>
      let (dTex, t1) := st.newNode NodeKind.texImage "Displacement Map"
      let t1 := t1.setAttr dTex.id "image" (.img img)
      let t1 := t1.setImageColorspace img "Non-Color"
      let t1 :=
        match mapOpt with
        | some m => t1.linksNew m "Vector" dTex.id "Vector"
        | Option.none => t1
      let (dN, t2) := t1.newNode NodeKind.displacement "Displacement"
      let t2 := t2.setDefault dN.id "Scale" (.rat props.displacement_strength)
      let t2 := t2.setDefault dN.id "Midlevel" (.rat props.displacement_midlevel)
      let t2 := t2.linksNew dTex.id "Color" dN.id "Height"
      let t2 := t2.linksNew dN.id "Displacement" outputId "Displacement"
      t2.setDispMethodBoth
    | Option.none => st
  else st

/-- Material settings stage of `execute` (section 6): alpha blend mode. -/
def settingsStage (props : EPMProps) (st : Material) : Material :=
  if props.use_alpha_blend then
    { st with blendMethod := "BLEND", shadowMethod := "HASHED" }
  else st

/-- Embedding of `EPM_OT_CreateMaterial.execute` up to and including the
material settings (the final apply-to-objects step only appends material
slots on scene objects and does not alter the node tree, so it is not part
of the graph state).  The Principled BSDF node always has id 0 and the
Material Output node id 1. -/
def execute (host : Host) (props : EPMProps) : Material :=
  let stripped := props.material_name.trim
  let matName := if stripped = "" then "Enhanced_Packed_Material" else stripped
  let st0 := emptyMaterial matName
  let (bsdf, st1) := st0.newNode NodeKind.bsdfPrincipled "Principled BSDF"
  let (outN, st2) := st1.newNode NodeKind.outputMaterial "Material Output"
  let st3 := st2.linksNew bsdf.id "BSDF" outN.id "Surface"
  let (mapOpt, st4) := coordStage props st3
  let st5 := colorStage host props bsdf.id mapOpt st4
  let st6 := normalStage host props bsdf.id mapOpt st5
  let st7 := emissionStage host props bsdf.id mapOpt st6
  let st8 := packedStage host props bsdf.id mapOpt st7
  let st9 := displacementStage props outN.id mapOpt st8
  settingsStage props st9

/-- Whether any packed channel slot is assigned the displacement usage. -/
def anyDisp (props : EPMProps) : Bool :=
  decide (props.channel_r.channel_usage = Usage.displacement) ||
  decide (props.channel_g.channel_usage = Usage.displacement) ||
  decide (props.channel_b.channel_usage = Usage.displacement) ||
  decide (props.channel_a.channel_usage = Usage.displacement)

/-- Number of packed channel slots assigned the ambient-occlusion usage. -/
def aoCount (props : EPMProps) : Nat :=
  (if props.channel_r.channel_usage = Usage.ao then 1 else 0) +
  (if props.channel_g.channel_usage = Usage.ao then 1 else 0) +
  (if props.channel_b.channel_usage = Usage.ao then 1 else 0) +
  (if props.channel_a.channel_usage = Usage.ao then 1 else 0)

/-- Kind of the node stored at a creation index. -/
def Material.kindAt (st : Material) (i : Nat) : Option NodeKind :=
  (st.nodes.get? i).map (fun n => n.kind)

@[simp]
theorem Material.setAttr_nodes (st : Material) (n : Nat) (a : String)
    (v : AttrVal) : (st.setAttr n a v).nodes = st.nodes := rfl

@[simp]
theorem Material.setAttr_links (st : Material) (n : Nat) (a : String)
    (v : AttrVal) : (st.setAttr n a v).links = st.links := rfl

@[simp]
theorem Material.setDefault_nodes (st : Material) (n : Nat) (s : String)
    (v : AttrVal) : (st.setDefault n s v).nodes = st.nodes := rfl

@[simp]
theorem Material.setDefault_links (st : Material) (n : Nat) (s : String)
    (v : AttrVal) : (st.setDefault n s v).links = st.links := rfl

@[simp]
theorem Material.setImageColorspace_nodes (st : Material) (img : Nat)
    (cs : String) : (st.setImageColorspace img cs).nodes = st.nodes := rfl

@[simp]
theorem Material.setImageColorspace_links (st : Material) (img : Nat)
    (cs : String) : (st.setImageColorspace img cs).links = st.links := rfl

@[simp]
theorem Material.linksNew_nodes (st : Material) (f fs t ts) :
    (st.linksNew f fs t ts).nodes = st.nodes := rfl

@[simp]
theorem Material.linksRemove_nodes (st : Material) (l : Link) :
    (st.linksRemove l).nodes = st.nodes := rfl

@[simp]
theorem Material.newNode_fst (st : Material) (k : NodeKind) (lbl : String) :
    (st.newNode k lbl).1 =
      ⟨st.nodes.length, k,
        (st.nodes.filter (fun n => n.kind.baseName == k.baseName)).length⟩ := by
  simp only [Material.newNode]

@[simp]
theorem Material.newNode_snd_nodes (st : Material) (k : NodeKind) (lbl : String) :
    (st.newNode k lbl).2.nodes = st.nodes ++ [(st.newNode k lbl).1] := by
  simp only [Material.newNode]
  split <;> rfl

@[simp]
theorem Material.newNode_snd_links (st : Material) (k : NodeKind) (lbl : String) :
    (st.newNode k lbl).2.links = st.links := by
  simp only [Material.newNode]
  split <;> rfl

theorem Material.mem_linksNew {l : Link} {st : Material} {f t : Nat} {fs ts : String} :
    l ∈ (st.linksNew f fs t ts).links ↔
      (l ∈ st.links ∧ ¬(l.toNode = t ∧ l.toSocket = ts)) ∨ l = ⟨f, fs, t, ts⟩ := by
  simp only [Material.linksNew, List.mem_filter, List.mem_append, List.mem_singleton,
    Bool.not_eq_true', Bool.and_eq_false_iff, beq_eq_false_iff_ne]
  tauto

theorem Material.mem_linksRemove {l x : Link} {st : Material} :
    l ∈ (st.linksRemove x).links ↔ l ∈ st.links ∧ l ≠ x := by
  simp [Material.linksRemove, List.mem_filter, Bool.not_eq_true', beq_eq_false_iff_ne]

/-- Generic commutation of `find?` with a filter that keeps every possible
match. -/
theorem find?_filter_of_imp {α : Type} (p q : α → Bool) (l : List α)
    (h : ∀ a, q a = true → p a = true) :
    (l.filter p).find? q = l.find? q := by
  induction l with
  | nil => rfl
  | cons a l ih =>
    by_cases hq : q a = true
    · rw [List.filter_cons, if_pos (h a hq)]
      simp [List.find?_cons, hq, ih]
    · rw [List.filter_cons]
      by_cases hp : p a = true
      · rw [if_pos hp]
        simp only [List.find?_cons]
        rw [Bool.not_eq_true] at hq
        simp [hq, ih]
      · rw [if_neg hp]
        rw [Bool.not_eq_true] at hq
        simp [List.find?_cons, hq, ih]

/-- Linking into an input socket makes the new link the (unique) incoming
link of that socket. -/
theorem Material.linkInto_linksNew_self (st : Material) (f t : Nat) (fs ts : String) :
    (st.linksNew f fs t ts).linkInto t ts = some ⟨f, fs, t, ts⟩ := by
  simp only [Material.linkInto, Material.linksNew, List.find?_append]
  have h1 : (st.links.filter
      (fun l => !(l.toNode == t && l.toSocket == ts))).find?
        (fun l => l.toNode == t && l.toSocket == ts) = Option.none := by
    rw [List.find?_eq_none]
    intro x hx
    rcases List.mem_filter.mp hx with ⟨-, hpx⟩
    rw [Bool.not_eq_true'] at hpx
    simp [hpx]
  rw [h1]
  simp [List.find?_cons]

/-- Linking into one input socket leaves the incoming link of every other
input socket unchanged. -/
theorem Material.linkInto_linksNew_ne (st : Material) (f t t' : Nat)
    (fs ts ts' : String) (h : ¬(t' = t ∧ ts' = ts)) :
    (st.linksNew f fs t ts).linkInto t' ts' = st.linkInto t' ts' := by
  simp only [Material.linkInto, Material.linksNew, List.find?_append]
  have h1 : (st.links.filter
      (fun l => !(l.toNode == t && l.toSocket == ts))).find?
        (fun l => l.toNode == t' && l.toSocket == ts') =
      st.links.find? (fun l => l.toNode == t' && l.toSocket == ts') := by
    apply find?_filter_of_imp
    intro a ha
    simp only [Bool.and_eq_true, beq_iff_eq] at ha
    obtain ⟨ha1, ha2⟩ := ha
    subst ha1
    subst ha2
    simp only [Bool.not_eq_true', Bool.and_eq_false_iff, beq_eq_false_iff_ne]
    by_cases hn : a.toNode = t
    · right
      intro hcontra
      exact h ⟨hn, hcontra⟩
    · left
      exact hn
  rw [h1]
  cases hf : st.links.find? (fun l => l.toNode == t' && l.toSocket == ts') with
  | none =>
    have : ¬((Link.mk f fs t ts).toNode == t' &&
        (Link.mk f fs t ts).toSocket == ts') = true := by
      simp only [Bool.and_eq_true, beq_iff_eq]
      intro hcontra
      exact h ⟨hcontra.1.symm, hcontra.2.symm⟩
    simp [List.find?_cons, this]
  | some l => simp

@[simp]
theorem Material.linkInto_setAttr (st : Material) (n : Nat) (a : String)
    (v : AttrVal) (t : Nat) (ts : String) :
    (st.setAttr n a v).linkInto t ts = st.linkInto t ts := rfl

@[simp]
theorem Material.linkInto_setDefault (st : Material) (n : Nat) (s : String)
    (v : AttrVal) (t : Nat) (ts : String) :
    (st.setDefault n s v).linkInto t ts = st.linkInto t ts := rfl

@[simp]
theorem Material.linkInto_newNode (st : Material) (k : NodeKind) (lbl : String)
    (t : Nat) (ts : String) :
    (st.newNode k lbl).2.linkInto t ts = st.linkInto t ts := by
  simp only [Material.linkInto]
  rw [Material.newNode_snd_links]

/-- Membership of a link found by `linkInto`. -/
theorem Material.linkInto_mem {st : Material} {t : Nat} {ts : String} {l : Link}
    (h : st.linkInto t ts = some l) : l ∈ st.links ∧ l.toNode = t ∧ l.toSocket = ts := by
  refine ⟨List.mem_of_find?_eq_some h, ?_⟩
  have := List.find?_some h
  simpa using this

theorem Material.countKind_eq (st : Material) (k : NodeKind) :
    st.countKind k = (st.nodes.filter (fun n => n.kind == k)).length := rfl

@[simp]
theorem Material.countKind_newNode (st : Material) (k k' : NodeKind) (lbl : String) :
    (st.newNode k lbl).2.countKind k' =
      st.countKind k' + (if k = k' then 1 else 0) := by
  simp only [Material.countKind, Material.newNode_snd_nodes, List.filter_append,
    List.length_append]
  by_cases h : k = k' <;> simp [List.filter_cons, h]

@[simp]
theorem Material.setAttr_attrs (st : Material) (n : Nat) (a : String) (v : AttrVal) :
    (st.setAttr n a v).attrs = st.attrs ++ [(n, a, v)] := rfl

@[simp]
theorem Material.setDefault_attrs (st : Material) (n : Nat) (s : String) (v : AttrVal) :
    (st.setDefault n s v).attrs = st.attrs := rfl

@[simp]
theorem Material.linksNew_attrs (st : Material) (f fs t ts) :
    (st.linksNew f fs t ts).attrs = st.attrs := rfl

@[simp]
theorem Material.linksRemove_attrs (st : Material) (l : Link) :
    (st.linksRemove l).attrs = st.attrs := rfl

@[simp]
theorem Material.setImageColorspace_attrs (st : Material) (img : Nat) (cs : String) :
    (st.setImageColorspace img cs).attrs = st.attrs := rfl

@[simp]
theorem Material.newNode_snd_attrs (st : Material) (k : NodeKind) (lbl : String) :
    (st.newNode k lbl).2.attrs =
      (if lbl = "" then st.attrs
       else st.attrs ++ [(st.nodes.length, "label", AttrVal.str lbl)]) := by
  simp only [Material.newNode]
  split <;> rfl

@[simp]
theorem Material.setDefault_defaults (st : Material) (n : Nat) (s : String) (v : AttrVal) :
    (st.setDefault n s v).defaults = st.defaults ++ [(n, s, v)] := rfl

@[simp]
theorem Material.setAttr_defaults (st : Material) (n : Nat) (a : String) (v : AttrVal) :
    (st.setAttr n a v).defaults = st.defaults := rfl

@[simp]
theorem Material.linksNew_defaults (st : Material) (f fs t ts) :
    (st.linksNew f fs t ts).defaults = st.defaults := rfl

@[simp]
theorem Material.linksRemove_defaults (st : Material) (l : Link) :
    (st.linksRemove l).defaults = st.defaults := rfl

@[simp]
theorem Material.setImageColorspace_defaults (st : Material) (img : Nat) (cs : String) :
    (st.setImageColorspace img cs).defaults = st.defaults := rfl

@[simp]
theorem Material.newNode_snd_defaults (st : Material) (k : NodeKind) (lbl : String) :
    (st.newNode k lbl).2.defaults = st.defaults := by
  simp only [Material.newNode]
  split <;> rfl

@[simp]
theorem Material.countKind_setAttr (st : Material) (n : Nat) (a : String)
    (v : AttrVal) (k : NodeKind) : (st.setAttr n a v).countKind k = st.countKind k := rfl

@[simp]
theorem Material.countKind_setDefault (st : Material) (n : Nat) (s : String)
    (v : AttrVal) (k : NodeKind) : (st.setDefault n s v).countKind k = st.countKind k := rfl

@[simp]
theorem Material.countKind_setImageColorspace (st : Material) (img : Nat)
    (cs : String) (k : NodeKind) :
    (st.setImageColorspace img cs).countKind k = st.countKind k := rfl

@[simp]
theorem Material.countKind_linksNew (st : Material) (f fs t ts) (k : NodeKind) :
    (st.linksNew f fs t ts).countKind k = st.countKind k := rfl

@[simp]
theorem Material.countKind_linksRemove (st : Material) (l : Link) (k : NodeKind) :
    (st.linksRemove l).countKind k = st.countKind k := rfl

@[simp]
theorem Material.kindAt_setAttr (st : Material) (n : Nat) (a : String)
    (v : AttrVal) (i : Nat) : (st.setAttr n a v).kindAt i = st.kindAt i := rfl

@[simp]
theorem Material.kindAt_setDefault (st : Material) (n : Nat) (s : String)
    (v : AttrVal) (i : Nat) : (st.setDefault n s v).kindAt i = st.kindAt i := rfl

@[simp]
theorem Material.kindAt_linksNew (st : Material) (f fs t ts) (i : Nat) :
    (st.linksNew f fs t ts).kindAt i = st.kindAt i := rfl

@[simp]
theorem Material.kindAt_linksRemove (st : Material) (l : Link) (i : Nat) :
    (st.linksRemove l).kindAt i = st.kindAt i := rfl

@[simp]
theorem Material.kindAt_newNode_self (st : Material) (k : NodeKind) (lbl : String) :
    (st.newNode k lbl).2.kindAt st.nodes.length = some k := by
  simp only [Material.kindAt, Material.newNode_snd_nodes]
  rw [List.get?_concat_length]
  rfl

/-- C2: routing an `AmbientOcclusion` channel when the Base Color input has
an incoming link `L` splices a multiply-blend mix node: a new mix node (of
the host's mix kind) is created with blend type MULTIPLY and factor 1, the
previous source feeds its first colour input, the AO signal its second, its
result is the new (unique) incoming link of Base Color, and the old direct
link is gone; when Base Color has no incoming link, the routing is a no-op
returning the state unchanged. -/
theorem ao_routing_splices_multiply (host : Host) (props : EPMProps)
    (bsdf : Nat) (chOut : Nat × String) (chName : String) (st : Material)
    (L : Link)
    (hmem : "Base Color" ∈ host.bsdfInputs)
    (hL : st.linkInto bsdf "Base Color" = some L)
    (hb : bsdf < st.nodes.length)
    (hfrom : L.fromNode < st.nodes.length) :
    mixCount (handleChannelUsage host props bsdf Usage.ao chOut chName st) =
      mixCount st + 1 ∧
    (handleChannelUsage host props bsdf Usage.ao chOut chName st).kindAt
        st.nodes.length =
      some (if host.v34plus then NodeKind.mix else NodeKind.mixRGB) ∧
    (st.nodes.length, "blend_type", AttrVal.str "MULTIPLY") ∈
      (handleChannelUsage host props bsdf Usage.ao chOut chName st).attrs ∧
    (st.nodes.length, (get_mix_node_sockets host).1, AttrVal.rat 1) ∈
      (handleChannelUsage host props bsdf Usage.ao chOut chName st).defaults ∧
    (Link.mk L.fromNode L.fromSocket st.nodes.length
        (get_mix_node_sockets host).2.1) ∈
      (handleChannelUsage host props bsdf Usage.ao chOut chName st).links ∧
    (Link.mk chOut.1 chOut.2 st.nodes.length
        (get_mix_node_sockets host).2.2.1) ∈
      (handleChannelUsage host props bsdf Usage.ao chOut chName st).links ∧
    (handleChannelUsage host props bsdf Usage.ao chOut chName st).linkInto
        bsdf "Base Color" =
      some (Link.mk st.nodes.length (get_mix_node_sockets host).2.2.2 bsdf
        "Base Color") ∧
    L ∉ (handleChannelUsage host props bsdf Usage.ao chOut chName st).links ∧
    (∀ st2 : Material, st2.isLinked bsdf "Base Color" = false →
      handleChannelUsage host props bsdf Usage.ao chOut chName st2 = st2) := by
  obtain ⟨hLmem, hLto, hLts⟩ := Material.linkInto_mem hL
  have hlinked : st.isLinked bsdf "Base Color" = true := by
    simp [Material.isLinked, hL]
  have hnoop : ∀ st2 : Material, st2.isLinked bsdf "Base Color" = false →
      handleChannelUsage host props bsdf Usage.ao chOut chName st2 = st2 := by
    intro st2 h2
    simp [handleChannelUsage, h2]
  have hbm : ¬(bsdf = st.nodes.length) := by omega
  have hfm : ¬(L.fromNode = st.nodes.length) := by omega
  cases hv : host.v34plus with
  | true =>
    simp only [handleChannelUsage, if_pos hmem, hlinked, if_true,
      create_mix_node, hv, set_mix_node_factor, get_mix_node_sockets,
      Material.newNode_fst, Material.linkInto_setDefault,
      Material.linkInto_setAttr, Material.linkInto_newNode, hL,
      if_pos rfl, ite_true]
    refine ⟨?_, ?_, ?_, ?_, ?_, ?_, ?_, ?_, ?_⟩
    · simp [mixCount] <;> omega
    · simp
    · simp
    · simp
    · simp only [Material.mem_linksNew]
      refine Or.inl ⟨Or.inl ⟨Or.inr trivial, ?_⟩, ?_⟩
      · intro hcon
        exact absurd hcon.2 (by decide)
      · intro hcon
        exact hbm hcon.1.symm
    · simp only [Material.mem_linksNew]
      refine Or.inl ⟨Or.inr trivial, ?_⟩
      intro hcon
      exact hbm hcon.1.symm
    · rw [Material.linkInto_linksNew_self]
    · simp only [Material.mem_linksNew]
      intro hcon
      rcases hcon with ⟨-, hno⟩ | heq
      · exact hno ⟨hLto, hLts⟩
      · exact hfm (by rw [heq])
    · intro st2 h2
      simp [h2]
  | false =>
    simp only [handleChannelUsage, if_pos hmem, hlinked, if_true,
      create_mix_node, hv, set_mix_node_factor, get_mix_node_sockets,
      Material.newNode_fst, Material.linkInto_setDefault,
      Material.linkInto_setAttr, Material.linkInto_newNode, hL,
      Bool.false_eq_true, if_false, ite_false]
    refine ⟨?_, ?_, ?_, ?_, ?_, ?_, ?_, ?_, ?_⟩
    · simp [mixCount] <;> omega
    · simp
    · simp
    · simp
    · simp only [Material.mem_linksNew]
      refine Or.inl ⟨Or.inl ⟨Or.inr trivial, ?_⟩, ?_⟩
      · intro hcon
        exact absurd hcon.2 (by decide)
      · intro hcon
        exact hbm hcon.1.symm
    · simp only [Material.mem_linksNew]
      refine Or.inl ⟨Or.inr trivial, ?_⟩
      intro hcon
      exact hbm hcon.1.symm
    · rw [Material.linkInto_linksNew_self]
    · simp only [Material.mem_linksNew]
      intro hcon
      rcases hcon with ⟨-, hno⟩ | heq
      · exact hno ⟨hLto, hLts⟩
      · exact hfm (by rw [heq])
    · intro st2 h2
      simp [h2]

/-- Successful candidate lookup returns one of the candidates. -/
theorem get_principled_socket_mem {inputs socket_names : List String} {s : String}
    (h : get_principled_socket inputs socket_names = some s) : s ∈ socket_names := by
  induction socket_names with
  | nil => simp [get_principled_socket] at h
  | cons n rest ih =>
    by_cases hn : n ∈ inputs
    · simp only [get_principled_socket, if_pos hn, Option.some.injEq] at h
      subst h
      exact List.mem_cons_self n rest
    · simp only [get_principled_socket, if_neg hn] at h
      exact List.mem_cons_of_mem n (ih h)

@[simp]
theorem Material.nodesGet_setAttr (st : Material) (n : Nat) (a : String)
    (v : AttrVal) (nm : String) : (st.setAttr n a v).nodesGet nm = st.nodesGet nm := rfl

@[simp]
theorem Material.nodesGet_setDefault (st : Material) (n : Nat) (s : String)
    (v : AttrVal) (nm : String) : (st.setDefault n s v).nodesGet nm = st.nodesGet nm := rfl

@[simp]
theorem Material.nodesGet_setImageColorspace (st : Material) (img : Nat)
    (cs : String) (nm : String) :
    (st.setImageColorspace img cs).nodesGet nm = st.nodesGet nm := rfl

@[simp]
theorem Material.nodesGet_linksNew (st : Material) (f fs t ts) (nm : String) :
    (st.linksNew f fs t ts).nodesGet nm = st.nodesGet nm := rfl

@[simp]
theorem Material.nodesGet_linksRemove (st : Material) (l : Link) (nm : String) :
    (st.linksRemove l).nodesGet nm = st.nodesGet nm := rfl

/-- Creating a node of a different name stem does not change what a bare-name
lookup returns. -/
theorem Material.nodesGet_newNode_ne (st : Material) (k : NodeKind) (lbl : String)
    (nm : String) (h : k.baseName ≠ nm) :
    (st.newNode k lbl).2.nodesGet nm = st.nodesGet nm := by
  simp only [Material.nodesGet, Material.newNode_snd_nodes, List.find?_append]
  have : (List.find? (fun n => n.kind.baseName == nm && n.nameIdx == 0)
      [(st.newNode k lbl).1]) = Option.none := by
    simp only [List.find?_cons, Material.newNode_fst]
    have : (k.baseName == nm) = false := by
      simpa using h
    simp [this]
  rw [this, Option.or_none]

/-- A successful bare-name lookup survives any node creation. -/
theorem Material.nodesGet_newNode_of_some (st : Material) (k : NodeKind)
    (lbl nm : String) (n : GNode) (h : st.nodesGet nm = some n) :
    (st.newNode k lbl).2.nodesGet nm = some n := by
  simp only [Material.nodesGet, Material.newNode_snd_nodes, List.find?_append]
  simp only [Material.nodesGet] at h
  rw [h]
  rfl

/-- Pointwise agreement of the two tests "name stem is `Displacement`" and
"kind is the displacement node". -/
theorem baseName_eq_displacement (k : NodeKind) :
    (k.baseName == "Displacement") = (k == NodeKind.displacement) := by
  cases k <;> rfl

/-- The number of nodes with name stem `Displacement` is the number of
displacement nodes. -/
theorem countBase_displacement (st : Material) :
    (st.nodes.filter
      (fun n => n.kind.baseName == NodeKind.displacement.baseName)).length =
      dispCount st := by
  simp only [dispCount, Material.countKind]
  congr 1
  apply List.filter_congr
  intro n _
  exact baseName_eq_displacement n.kind

/-- When no node answers to the bare name `Displacement` and no displacement
node exists, creating a displacement node makes it the bare-named one. -/
theorem Material.nodesGet_newNode_displacement (st : Material) (lbl : String)
    (h0 : st.nodesGet "Displacement" = Option.none) (hc : dispCount st = 0) :
    (st.newNode NodeKind.displacement lbl).2.nodesGet "Displacement" =
      some ⟨st.nodes.length, NodeKind.displacement, 0⟩ := by
  simp only [Material.nodesGet, Material.newNode_snd_nodes, List.find?_append]
  simp only [Material.nodesGet] at h0
  rw [h0]
  simp only [Option.none_or, List.find?_cons, Material.newNode_fst]
  rw [countBase_displacement st, hc]
  rfl

/-- Sanity condition maintained by the builder: if no node answers to the
bare name `Displacement`, there is no displacement node at all. -/
def DispOK (st : Material) : Prop :=
  st.nodesGet "Displacement" = Option.none → dispCount st = 0

theorem DispOK_empty (nm : String) : DispOK (emptyMaterial nm) := by
  intro _
  rfl

@[simp]
theorem Material.setDispMethodBoth_nodes (st : Material) :
    st.setDispMethodBoth.nodes = st.nodes := rfl

@[simp]
theorem Material.setDispMethodBoth_links (st : Material) :
    st.setDispMethodBoth.links = st.links := rfl

@[simp]
theorem Material.setDispMethodBoth_countKind (st : Material) (k : NodeKind) :
    st.setDispMethodBoth.countKind k = st.countKind k := rfl

@[simp]
theorem Material.setDispMethodBoth_nodesGet (st : Material) (nm : String) :
    st.setDispMethodBoth.nodesGet nm = st.nodesGet nm := rfl

@[simp]
theorem Material.setDispMethodBoth_linkInto (st : Material) (t : Nat)
    (ts : String) : st.setDispMethodBoth.linkInto t ts = st.linkInto t ts := rfl

@[simp]
theorem Material.setDispMethodBoth_isLinked (st : Material) (t : Nat)
    (ts : String) : st.setDispMethodBoth.isLinked t ts = st.isLinked t ts := rfl

@[simp]
theorem Material.setDispMethodBoth_kindAt (st : Material) (i : Nat) :
    st.setDispMethodBoth.kindAt i = st.kindAt i := rfl

@[simp]
theorem Material.isLinked_setAttr (st : Material) (n : Nat) (a : String)
    (v : AttrVal) (t : Nat) (ts : String) :
    (st.setAttr n a v).isLinked t ts = st.isLinked t ts := rfl

@[simp]
theorem Material.isLinked_setDefault (st : Material) (n : Nat) (s : String)
    (v : AttrVal) (t : Nat) (ts : String) :
    (st.setDefault n s v).isLinked t ts = st.isLinked t ts := rfl

@[simp]
theorem Material.linkInto_setImageColorspace (st : Material) (img : Nat)
    (cs : String) (t : Nat) (ts : String) :
    (st.setImageColorspace img cs).linkInto t ts = st.linkInto t ts := rfl

@[simp]
theorem Material.isLinked_setImageColorspace (st : Material) (img : Nat)
    (cs : String) (t : Nat) (ts : String) :
    (st.setImageColorspace img cs).isLinked t ts = st.isLinked t ts := rfl

@[simp]
theorem Material.isLinked_newNode (st : Material) (k : NodeKind) (lbl : String)
    (t : Nat) (ts : String) :
    (st.newNode k lbl).2.isLinked t ts = st.isLinked t ts := by
  simp [Material.isLinked]

theorem Material.isLinked_linksNew_ne (st : Material) (f t t' : Nat)
    (fs ts ts' : String) (h : ¬(t' = t ∧ ts' = ts)) :
    (st.linksNew f fs t ts).isLinked t' ts' = st.isLinked t' ts' := by
  simp [Material.isLinked, Material.linkInto_linksNew_ne st f t t' fs ts ts' h]

theorem Material.isLinked_linksNew_self (st : Material) (f t : Nat) (fs ts : String) :
    (st.linksNew f fs t ts).isLinked t ts = true := by
  simp [Material.isLinked, Material.linkInto_linksNew_self]

theorem create_mix_node_fst_id (host : Host) (b : String) (st : Material) :
    (create_mix_node host b st).1.id = st.nodes.length := by
  cases h : host.v34plus <;> simp [create_mix_node, h]

@[simp]
theorem create_mix_node_links (host : Host) (b : String) (st : Material) :
    (create_mix_node host b st).2.links = st.links := by
  cases h : host.v34plus <;> simp [create_mix_node, h]

@[simp]
theorem create_mix_node_linkInto (host : Host) (b : String) (st : Material)
    (t : Nat) (ts : String) :
    (create_mix_node host b st).2.linkInto t ts = st.linkInto t ts := by
  simp [Material.linkInto]

@[simp]
theorem create_mix_node_isLinked (host : Host) (b : String) (st : Material)
    (t : Nat) (ts : String) :
    (create_mix_node host b st).2.isLinked t ts = st.isLinked t ts := by
  simp [Material.isLinked]

theorem create_mix_node_mixCount (host : Host) (b : String) (st : Material) :
    mixCount (create_mix_node host b st).2 = mixCount st + 1 := by
  cases h : host.v34plus <;> simp [create_mix_node, h, mixCount] <;> omega

theorem create_mix_node_countKind (host : Host) (b : String) (st : Material)
    (k : NodeKind) (h1 : k ≠ NodeKind.mix) (h2 : k ≠ NodeKind.mixRGB) :
    (create_mix_node host b st).2.countKind k = st.countKind k := by
  have h1' : ¬(NodeKind.mix = k) := fun hx => h1 hx.symm
  have h2' : ¬(NodeKind.mixRGB = k) := fun hx => h2 hx.symm
  cases h : host.v34plus <;> simp [create_mix_node, h, h1', h2']

theorem create_mix_node_nodesGet (host : Host) (b : String) (st : Material)
    (nm : String) (h : nm ≠ "Mix") :
    (create_mix_node host b st).2.nodesGet nm = st.nodesGet nm := by
  have h1 : NodeKind.mix.baseName ≠ nm := by
    simp only [NodeKind.baseName]
    exact fun hx => h hx.symm
  have h2 : NodeKind.mixRGB.baseName ≠ nm := by
    simp only [NodeKind.baseName]
    exact fun hx => h hx.symm
  cases hv : host.v34plus <;>
    simp [create_mix_node, hv, Material.nodesGet_newNode_ne _ _ _ _ h1,
      Material.nodesGet_newNode_ne _ _ _ _ h2]

theorem create_mix_node_length (host : Host) (b : String) (st : Material) :
    (create_mix_node host b st).2.nodes.length = st.nodes.length + 1 := by
  cases h : host.v34plus <;> simp [create_mix_node, h]

@[simp]
theorem set_mix_node_factor_nodes (host : Host) (n : Nat) (v : Rat) (st : Material) :
    (set_mix_node_factor host n v st).nodes = st.nodes := by
  cases h : host.v34plus <;> simp [set_mix_node_factor, h]

@[simp]
theorem set_mix_node_factor_links (host : Host) (n : Nat) (v : Rat) (st : Material) :
    (set_mix_node_factor host n v st).links = st.links := by
  cases h : host.v34plus <;> simp [set_mix_node_factor, h]

@[simp]
theorem set_mix_node_factor_countKind (host : Host) (n : Nat) (v : Rat)
    (st : Material) (k : NodeKind) :
    (set_mix_node_factor host n v st).countKind k = st.countKind k := by
  cases h : host.v34plus <;> simp [set_mix_node_factor, h]

@[simp]
theorem set_mix_node_factor_nodesGet (host : Host) (n : Nat) (v : Rat)
    (st : Material) (nm : String) :
    (set_mix_node_factor host n v st).nodesGet nm = st.nodesGet nm := by
  cases h : host.v34plus <;> simp [set_mix_node_factor, h]

@[simp]
theorem set_mix_node_factor_linkInto (host : Host) (n : Nat) (v : Rat)
    (st : Material) (t : Nat) (ts : String) :
    (set_mix_node_factor host n v st).linkInto t ts = st.linkInto t ts := by
  cases h : host.v34plus <;> simp [set_mix_node_factor, h]

theorem create_separate_color_node_fst_id (host : Host) (st : Material) :
    (create_separate_color_node host st).1.id = st.nodes.length := by
  cases h : host.v34plus <;> simp [create_separate_color_node, h]

theorem create_separate_color_node_fst_kind (host : Host) (st : Material) :
    (create_separate_color_node host st).1.kind =
      (if host.v34plus then NodeKind.separateColor else NodeKind.separateRGB) := by
  cases h : host.v34plus <;> simp [create_separate_color_node, h]

@[simp]
theorem create_separate_color_node_links (host : Host) (st : Material) :
    (create_separate_color_node host st).2.links = st.links := by
  cases h : host.v34plus <;> simp [create_separate_color_node, h]

theorem create_separate_color_node_countKind (host : Host) (st : Material)
    (k : NodeKind) (h1 : k ≠ NodeKind.separateColor) (h2 : k ≠ NodeKind.separateRGB) :
    (create_separate_color_node host st).2.countKind k = st.countKind k := by
  have h1' : ¬(NodeKind.separateColor = k) := fun hx => h1 hx.symm
  have h2' : ¬(NodeKind.separateRGB = k) := fun hx => h2 hx.symm
  cases h : host.v34plus <;> simp [create_separate_color_node, h, h1', h2']

theorem create_separate_color_node_nodesGet (host : Host) (st : Material)
    (nm : String) (h1 : nm ≠ "Separate Color") (h2 : nm ≠ "Separate RGB") :
    (create_separate_color_node host st).2.nodesGet nm = st.nodesGet nm := by
  have h1' : NodeKind.separateColor.baseName ≠ nm := by
    simp only [NodeKind.baseName]
    exact fun hx => h1 hx.symm
  have h2' : NodeKind.separateRGB.baseName ≠ nm := by
    simp only [NodeKind.baseName]
    exact fun hx => h2 hx.symm
  cases hv : host.v34plus <;>
    simp [create_separate_color_node, hv,
      Material.nodesGet_newNode_ne _ _ _ _ h1',
      Material.nodesGet_newNode_ne _ _ _ _ h2']

theorem create_separate_color_node_length (host : Host) (st : Material) :
    (create_separate_color_node host st).2.nodes.length = st.nodes.length + 1 := by
  cases h : host.v34plus <;> simp [create_separate_color_node, h]

theorem create_combine_color_node_fst_id (host : Host) (st : Material) :
    (create_combine_color_node host st).1.id = st.nodes.length := by
  cases h : host.v34plus <;> simp [create_combine_color_node, h]

theorem create_combine_color_node_fst_kind (host : Host) (st : Material) :
    (create_combine_color_node host st).1.kind =
      (if host.v34plus then NodeKind.combineColor else NodeKind.combineRGB) := by
  cases h : host.v34plus <;> simp [create_combine_color_node, h]

@[simp]
theorem create_combine_color_node_links (host : Host) (st : Material) :
    (create_combine_color_node host st).2.links = st.links := by
  cases h : host.v34plus <;> simp [create_combine_color_node, h]

theorem create_combine_color_node_countKind (host : Host) (st : Material)
    (k : NodeKind) (h1 : k ≠ NodeKind.combineColor) (h2 : k ≠ NodeKind.combineRGB) :
    (create_combine_color_node host st).2.countKind k = st.countKind k := by
  have h1' : ¬(NodeKind.combineColor = k) := fun hx => h1 hx.symm
  have h2' : ¬(NodeKind.combineRGB = k) := fun hx => h2 hx.symm
  cases h : host.v34plus <;> simp [create_combine_color_node, h, h1', h2']

theorem create_combine_color_node_nodesGet (host : Host) (st : Material)
    (nm : String) (h1 : nm ≠ "Combine Color") (h2 : nm ≠ "Combine RGB") :
    (create_combine_color_node host st).2.nodesGet nm = st.nodesGet nm := by
  have h1' : NodeKind.combineColor.baseName ≠ nm := by
    simp only [NodeKind.baseName]
    exact fun hx => h1 hx.symm
  have h2' : NodeKind.combineRGB.baseName ≠ nm := by
    simp only [NodeKind.baseName]
    exact fun hx => h2 hx.symm
  cases hv : host.v34plus <;>
    simp [create_combine_color_node, hv,
      Material.nodesGet_newNode_ne _ _ _ _ h1',
      Material.nodesGet_newNode_ne _ _ _ _ h2']

theorem create_combine_color_node_length (host : Host) (st : Material) :
    (create_combine_color_node host st).2.nodes.length = st.nodes.length + 1 := by
  cases h : host.v34plus <;> simp [create_combine_color_node, h]

/-- Channel routing creates a displacement node exactly when the usage is
`DisplacementHeight` and no node named `Displacement` exists yet. -/
theorem handleChannelUsage_dispCount (host : Host) (props : EPMProps) (bsdf : Nat)
    (usage : Usage) (sig : Nat × String) (chName : String) (st : Material) :
    dispCount (handleChannelUsage host props bsdf usage sig chName st) =
      dispCount st +
        (if usage = Usage.displacement ∧ st.nodesGet "Displacement" = Option.none
         then 1 else 0) := by
  have hmixd := create_mix_node_countKind host "MULTIPLY" st NodeKind.displacement
    (by decide) (by decide)
  cases usage with
  | none => simp [handleChannelUsage]
  | metallic =>
    simp only [handleChannelUsage]
    split <;> simp [dispCount]
  | roughness =>
    simp only [handleChannelUsage]
    split <;> simp [dispCount]
  | specular =>
    simp only [handleChannelUsage]
    split <;> simp [dispCount]
  | alpha =>
    simp only [handleChannelUsage]
    split <;> simp [dispCount]
  | subsurface =>
    simp only [handleChannelUsage]
    split <;> simp [dispCount]
  | emission =>
    simp only [handleChannelUsage]
    split
    · split <;> simp [dispCount]
    · simp [dispCount]
  | ao =>
    simp only [handleChannelUsage]
    by_cases h1 : "Base Color" ∈ host.bsdfInputs
    · rw [if_pos h1]
      by_cases h2 : st.isLinked bsdf "Base Color" = true
      · simp only [h2, eq_self_iff_true, if_true]
        split
        · simp [dispCount, hmixd]
        · simp [dispCount]
      · rw [Bool.not_eq_true] at h2
        simp [h2, dispCount]
    · rw [if_neg h1]
      simp [dispCount]
  | displacement =>
    simp only [handleChannelUsage]
    split
    · next dn heq => simp [dispCount, heq]
    · next heq =>
      rw [heq]
      simp only [Material.nodesGet_setDefault,
        Material.nodesGet_newNode_ne st NodeKind.displacement "Displacement"
          "Material Output" (by decide)]
      split <;> simp [dispCount]

/-- Channel routing creates a mix node exactly when the usage is
`AmbientOcclusion`, the Base Color input exists and it is already linked. -/
theorem handleChannelUsage_mixCount (host : Host) (props : EPMProps) (bsdf : Nat)
    (usage : Usage) (sig : Nat × String) (chName : String) (st : Material) :
    mixCount (handleChannelUsage host props bsdf usage sig chName st) =
      mixCount st +
        (if usage = Usage.ao ∧ "Base Color" ∈ host.bsdfInputs ∧
            st.isLinked bsdf "Base Color" = true then 1 else 0) := by
  cases usage with
  | none => simp [handleChannelUsage]
  | metallic =>
    simp only [handleChannelUsage]
    split <;> simp [mixCount]
  | roughness =>
    simp only [handleChannelUsage]
    split <;> simp [mixCount]
  | specular =>
    simp only [handleChannelUsage]
    split <;> simp [mixCount]
  | alpha =>
    simp only [handleChannelUsage]
    split <;> simp [mixCount]
  | subsurface =>
    simp only [handleChannelUsage]
    split <;> simp [mixCount]
  | emission =>
    simp only [handleChannelUsage]
    split
    · split <;> simp [mixCount]
    · simp [mixCount]
  | ao =>
    simp only [handleChannelUsage]
    by_cases h1 : "Base Color" ∈ host.bsdfInputs
    · rw [if_pos h1]
      by_cases h2 : st.isLinked bsdf "Base Color" = true
      · simp only [h2, eq_self_iff_true, if_true]
        split
        · have := create_mix_node_mixCount host "MULTIPLY" st
          simp only [mixCount] at this ⊢
          simp only [Material.countKind_linksNew, Material.countKind_linksRemove,
            set_mix_node_factor_countKind, Material.countKind_setAttr]
          simp [this, h1, h2]
        · next heq2 =>
          exfalso
          rw [set_mix_node_factor_linkInto, Material.linkInto_setAttr,
            create_mix_node_linkInto] at heq2
          rw [Material.isLinked, heq2] at h2
          simp at h2
      · rw [Bool.not_eq_true] at h2
        simp [h2, mixCount]
    · rw [if_neg h1]
      simp [mixCount, h1]
  | displacement =>
    simp only [handleChannelUsage]
    split
    · simp [mixCount]
    · simp only [Material.nodesGet_setDefault,
        Material.nodesGet_newNode_ne st NodeKind.displacement "Displacement"
          "Material Output" (by decide)]
      split <;> simp [mixCount]

/-- Channel routing only ever creates mix and displacement nodes: every
other node count is unchanged. -/
theorem handleChannelUsage_countKind (host : Host) (props : EPMProps) (bsdf : Nat)
    (usage : Usage) (sig : Nat × String) (chName : String) (st : Material)
    (k : NodeKind) (h1 : k ≠ NodeKind.mix) (h2 : k ≠ NodeKind.mixRGB)
    (h3 : k ≠ NodeKind.displacement) :
    (handleChannelUsage host props bsdf usage sig chName st).countKind k =
      st.countKind k := by
  have hmix := create_mix_node_countKind host "MULTIPLY" st k h1 h2
  have h3' : ¬(NodeKind.displacement = k) := fun hx => h3 hx.symm
  cases usage with
  | none => simp [handleChannelUsage]
  | metallic =>
    simp only [handleChannelUsage]
    split <;> simp
  | roughness =>
    simp only [handleChannelUsage]
    split <;> simp
  | specular =>
    simp only [handleChannelUsage]
    split <;> simp
  | alpha =>
    simp only [handleChannelUsage]
    split <;> simp
  | subsurface =>
    simp only [handleChannelUsage]
    split <;> simp
  | emission =>
    simp only [handleChannelUsage]
    split
    · split <;> simp
    · simp
  | ao =>
    simp only [handleChannelUsage]
    by_cases hb1 : "Base Color" ∈ host.bsdfInputs
    · rw [if_pos hb1]
      by_cases hb2 : st.isLinked bsdf "Base Color" = true
      · simp only [hb2, eq_self_iff_true, if_true]
        split
        · simp [hmix]
        · simp
      · rw [Bool.not_eq_true] at hb2
        simp [hb2]
    · rw [if_neg hb1]
  | displacement =>
    simp only [handleChannelUsage]
    split
    · simp
    · simp only [Material.nodesGet_setDefault,
        Material.nodesGet_newNode_ne st NodeKind.displacement "Displacement"
          "Material Output" (by decide)]
      split <;> simp [h3']

/-- Channel routing leaves the link status of the Base Color input unchanged
(the AO splice removes the old link but wires the mix result back in). -/
theorem handleChannelUsage_isLinked_BC (host : Host) (props : EPMProps)
    (bsdf : Nat) (usage : Usage) (sig : Nat × String) (chName : String)
    (st : Material) :
    (handleChannelUsage host props bsdf usage sig chName st).isLinked bsdf
        "Base Color" =
      st.isLinked bsdf "Base Color" := by
  cases usage with
  | none => rfl
  | metallic =>
    simp only [handleChannelUsage]
    split
    · next s hs =>
      have hm := get_principled_socket_mem hs
      rw [Material.isLinked_linksNew_ne]
      intro hcon
      simp only [List.mem_singleton] at hm
      subst hm
      exact absurd hcon.2 (by decide)
    · rfl
  | roughness =>
    simp only [handleChannelUsage]
    split
    · next s hs =>
      have hm := get_principled_socket_mem hs
      rw [Material.isLinked_linksNew_ne]
      intro hcon
      simp only [List.mem_singleton] at hm
      subst hm
      exact absurd hcon.2 (by decide)
    · rfl
  | specular =>
    simp only [handleChannelUsage]
    split
    · next s hs =>
      have hm := get_principled_socket_mem hs
      rw [Material.isLinked_linksNew_ne]
      intro hcon
      simp only [List.mem_cons, List.not_mem_nil, or_false] at hm
      rcases hm with rfl | rfl
      · exact absurd hcon.2 (by decide)
      · exact absurd hcon.2 (by decide)
    · rfl
  | alpha =>
    simp only [handleChannelUsage]
    split
    · next s hs =>
      have hm := get_principled_socket_mem hs
      rw [Material.isLinked_linksNew_ne]
      intro hcon
      simp only [List.mem_singleton] at hm
      subst hm
      exact absurd hcon.2 (by decide)
    · rfl
  | subsurface =>
    simp only [handleChannelUsage]
    split
    · next s hs =>
      have hm := get_principled_socket_mem hs
      rw [Material.isLinked_linksNew_ne]
      intro hcon
      simp only [List.mem_cons, List.not_mem_nil, or_false] at hm
      rcases hm with rfl | rfl
      · exact absurd hcon.2 (by decide)
      · exact absurd hcon.2 (by decide)
    · rfl
  | emission =>
    simp only [handleChannelUsage]
    split
    · next s hs =>
      have hm := get_principled_socket_mem hs
      simp only [List.mem_singleton] at hm
      subst hm
      split
      · rw [Material.isLinked_setDefault, Material.isLinked_linksNew_ne]
        intro hcon
        exact absurd hcon.2 (by decide)
      · rw [Material.isLinked_linksNew_ne]
        intro hcon
        exact absurd hcon.2 (by decide)
    · rfl
  | ao =>
    simp only [handleChannelUsage]
    by_cases h1 : "Base Color" ∈ host.bsdfInputs
    · rw [if_pos h1]
      by_cases h2 : st.isLinked bsdf "Base Color" = true
      · simp only [h2, eq_self_iff_true, if_true]
        split
        · rw [Material.isLinked_linksNew_self]
        · next heq2 =>
          exfalso
          rw [set_mix_node_factor_linkInto, Material.linkInto_setAttr,
            create_mix_node_linkInto] at heq2
          rw [Material.isLinked, heq2] at h2
          simp at h2
      · rw [Bool.not_eq_true] at h2
        simp [h2]
    · rw [if_neg h1]
  | displacement =>
    simp only [handleChannelUsage]
    split
    · rw [Material.isLinked_linksNew_ne]
      intro hcon
      exact absurd hcon.2 (by decide)
    · simp only [Material.nodesGet_setDefault,
        Material.nodesGet_newNode_ne st NodeKind.displacement "Displacement"
          "Material Output" (by decide)]
      split
      · rw [Material.isLinked_linksNew_ne]
        · rw [Material.setDispMethodBoth_isLinked, Material.isLinked_linksNew_ne]
          · simp
          · intro hcon
            exact absurd hcon.2 (by decide)
        · intro hcon
          exact absurd hcon.2 (by decide)
      · rw [Material.isLinked_linksNew_ne]
        · simp
        · intro hcon
          exact absurd hcon.2 (by decide)

/-- Channel routing resolves the bare name `Displacement` afterwards iff it
did before or this channel's usage is `DisplacementHeight`. -/
theorem handleChannelUsage_nodesGet_disp (host : Host) (props : EPMProps)
    (bsdf : Nat) (usage : Usage) (sig : Nat × String) (chName : String)
    (st : Material) (hdok : DispOK st) :
    ((handleChannelUsage host props bsdf usage sig chName st).nodesGet
        "Displacement" = Option.none) ↔
      (st.nodesGet "Displacement" = Option.none ∧ usage ≠ Usage.displacement) := by
  cases usage with
  | none => simp [handleChannelUsage]
  | metallic =>
    simp only [handleChannelUsage]
    split <;> simp
  | roughness =>
    simp only [handleChannelUsage]
    split <;> simp
  | specular =>
    simp only [handleChannelUsage]
    split <;> simp
  | alpha =>
    simp only [handleChannelUsage]
    split <;> simp
  | subsurface =>
    simp only [handleChannelUsage]
    split <;> simp
  | emission =>
    simp only [handleChannelUsage]
    split
    · split <;> simp
    · simp
  | ao =>
    have hget := create_mix_node_nodesGet host "MULTIPLY" st "Displacement" (by decide)
    simp only [handleChannelUsage]
    by_cases h1 : "Base Color" ∈ host.bsdfInputs
    · rw [if_pos h1]
      by_cases h2 : st.isLinked bsdf "Base Color" = true
      · simp only [h2, eq_self_iff_true, if_true]
        split
        · simp [hget]
        · simp
      · rw [Bool.not_eq_true] at h2
        simp [h2]
    · rw [if_neg h1]
      simp
  | displacement =>
    simp only [handleChannelUsage]
    split
    · next dn heq => simp [heq]
    · next heq =>
      have hzero := hdok heq
      have hsome := Material.nodesGet_newNode_displacement st "Displacement" heq hzero
      simp only [Material.nodesGet_setDefault,
        Material.nodesGet_newNode_ne st NodeKind.displacement "Displacement"
          "Material Output" (by decide)]
      split <;> simp [hsome, heq]

/-- Channel routing never removes nodes. -/
theorem handleChannelUsage_length (host : Host) (props : EPMProps) (bsdf : Nat)
    (usage : Usage) (sig : Nat × String) (chName : String) (st : Material) :
    st.nodes.length ≤
      (handleChannelUsage host props bsdf usage sig chName st).nodes.length := by
  cases usage with
  | none => simp [handleChannelUsage]
  | metallic =>
    simp only [handleChannelUsage]
    split <;> simp
  | roughness =>
    simp only [handleChannelUsage]
    split <;> simp
  | specular =>
    simp only [handleChannelUsage]
    split <;> simp
  | alpha =>
    simp only [handleChannelUsage]
    split <;> simp
  | subsurface =>
    simp only [handleChannelUsage]
    split <;> simp
  | emission =>
    simp only [handleChannelUsage]
    split
    · split <;> simp
    · simp
  | ao =>
    have hlen := create_mix_node_length host "MULTIPLY" st
    simp only [handleChannelUsage]
    by_cases h1 : "Base Color" ∈ host.bsdfInputs
    · rw [if_pos h1]
      by_cases h2 : st.isLinked bsdf "Base Color" = true
      · simp only [h2, eq_self_iff_true, if_true]
        split
        · simp only [Material.linksNew_nodes, Material.linksRemove_nodes,
            set_mix_node_factor_nodes, Material.setAttr_nodes]
          omega
        · simp
      · rw [Bool.not_eq_true] at h2
        simp [h2]
    · rw [if_neg h1]
  | displacement =>
    simp only [handleChannelUsage]
    split
    · simp
    · simp only [Material.nodesGet_setDefault,
        Material.nodesGet_newNode_ne st NodeKind.displacement "Displacement"
          "Material Output" (by decide)]
      split <;>
        simp [List.length_append]

theorem Material.kindAt_newNode_lt (st : Material) (k : NodeKind) (lbl : String)
    (i : Nat) (hi : i < st.nodes.length) :
    (st.newNode k lbl).2.kindAt i = st.kindAt i := by
  simp only [Material.kindAt, Material.newNode_snd_nodes]
  rw [List.get?_append hi]

theorem create_mix_node_kindAt_lt (host : Host) (b : String) (st : Material)
    (i : Nat) (hi : i < st.nodes.length) :
    (create_mix_node host b st).2.kindAt i = st.kindAt i := by
  cases h : host.v34plus <;>
    simp [create_mix_node, h, Material.kindAt_newNode_lt _ _ _ _ hi]

@[simp]
theorem set_mix_node_factor_kindAt (host : Host) (n : Nat) (v : Rat)
    (st : Material) (i : Nat) :
    (set_mix_node_factor host n v st).kindAt i = st.kindAt i := by
  cases h : host.v34plus <;> simp [set_mix_node_factor, h]

/-- Channel routing does not change nodes that already exist. -/
theorem handleChannelUsage_kindAt (host : Host) (props : EPMProps) (bsdf : Nat)
    (usage : Usage) (sig : Nat × String) (chName : String) (st : Material)
    (i : Nat) (hi : i < st.nodes.length) :
    (handleChannelUsage host props bsdf usage sig chName st).kindAt i =
      st.kindAt i := by
  cases usage with
  | none => rfl
  | metallic =>
    simp only [handleChannelUsage]
    split <;> simp
  | roughness =>
    simp only [handleChannelUsage]
    split <;> simp
  | specular =>
    simp only [handleChannelUsage]
    split <;> simp
  | alpha =>
    simp only [handleChannelUsage]
    split <;> simp
  | subsurface =>
    simp only [handleChannelUsage]
    split <;> simp
  | emission =>
    simp only [handleChannelUsage]
    split
    · split <;> simp
    · simp
  | ao =>
    have hk := create_mix_node_kindAt_lt host "MULTIPLY" st i hi
    simp only [handleChannelUsage]
    by_cases h1 : "Base Color" ∈ host.bsdfInputs
    · rw [if_pos h1]
      by_cases h2 : st.isLinked bsdf "Base Color" = true
      · simp only [h2, eq_self_iff_true, if_true]
        split
        · simp [hk]
        · rfl
      · rw [Bool.not_eq_true] at h2
        simp [h2]
    · rw [if_neg h1]
  | displacement =>
    simp only [handleChannelUsage]
    split
    · simp
    · simp only [Material.nodesGet_setDefault,
        Material.nodesGet_newNode_ne st NodeKind.displacement "Displacement"
          "Material Output" (by decide)]
      split <;>
        simp [Material.kindAt_newNode_lt _ _ _ _ hi]

/-- Links into a distinct, already existing node's `Color` input survive
channel routing untouched. -/
theorem handleChannelUsage_link_preserved (host : Host) (props : EPMProps)
    (bsdf : Nat) (usage : Usage) (sig : Nat × String) (chName : String)
    (st : Material) (l : Link) (hl : l ∈ st.links) (h1 : l.toNode ≠ bsdf)
    (h2a : l.toSocket ≠ "Height") (h2b : l.toSocket ≠ "Displacement")
    (h3 : l.toNode < st.nodes.length) :
    l ∈ (handleChannelUsage host props bsdf usage sig chName st).links := by
  cases usage with
  | none => exact hl
  | metallic =>
    simp only [handleChannelUsage]
    split
    · simp only [Material.mem_linksNew]
      exact Or.inl ⟨hl, fun hcon => h1 hcon.1⟩
    · exact hl
  | roughness =>
    simp only [handleChannelUsage]
    split
    · simp only [Material.mem_linksNew]
      exact Or.inl ⟨hl, fun hcon => h1 hcon.1⟩
    · exact hl
  | specular =>
    simp only [handleChannelUsage]
    split
    · simp only [Material.mem_linksNew]
      exact Or.inl ⟨hl, fun hcon => h1 hcon.1⟩
    · exact hl
  | alpha =>
    simp only [handleChannelUsage]
    split
    · simp only [Material.mem_linksNew]
      exact Or.inl ⟨hl, fun hcon => h1 hcon.1⟩
    · exact hl
  | subsurface =>
    simp only [handleChannelUsage]
    split
    · simp only [Material.mem_linksNew]
      exact Or.inl ⟨hl, fun hcon => h1 hcon.1⟩
    · exact hl
  | emission =>
    simp only [handleChannelUsage]
    split
    · split
      · simp only [Material.setDefault_links, Material.mem_linksNew]
        exact Or.inl ⟨hl, fun hcon => h1 hcon.1⟩
      · simp only [Material.mem_linksNew]
        exact Or.inl ⟨hl, fun hcon => h1 hcon.1⟩
    · exact hl
  | ao =>
    simp only [handleChannelUsage]
    by_cases hb1 : "Base Color" ∈ host.bsdfInputs
    · rw [if_pos hb1]
      by_cases hb2 : st.isLinked bsdf "Base Color" = true
      · simp only [hb2, eq_self_iff_true, if_true]
        split
        · next existing heq =>
          rw [set_mix_node_factor_linkInto, Material.linkInto_setAttr,
            create_mix_node_linkInto] at heq
          obtain ⟨hexmem, hexto, hexts⟩ := Material.linkInto_mem heq
          have hmixid := create_mix_node_fst_id host "MULTIPLY" st
          simp only [Material.mem_linksNew, Material.mem_linksRemove,
            set_mix_node_factor_links, Material.setAttr_links,
            create_mix_node_links, hmixid]
          refine Or.inl ⟨Or.inl ⟨Or.inl ⟨⟨hl, ?_⟩, ?_⟩, ?_⟩, ?_⟩
          · intro hcon
            rw [hcon] at h1
            exact h1 hexto
          · intro hcon
            omega
          · intro hcon
            omega
          · intro hcon
            exact h1 hcon.1
        · exact hl
      · rw [Bool.not_eq_true] at hb2
        simp [hb2]
        exact hl
    · rw [if_neg hb1]
      exact hl
  | displacement =>
    simp only [handleChannelUsage]
    split
    · simp only [Material.mem_linksNew]
      refine Or.inl ⟨hl, ?_⟩
      intro hcon
      exact h2a hcon.2
    · simp only [Material.nodesGet_setDefault,
        Material.nodesGet_newNode_ne st NodeKind.displacement "Displacement"
          "Material Output" (by decide)]
      split
      · simp only [Material.mem_linksNew, Material.setDispMethodBoth_links,
          Material.setDefault_links]
        refine Or.inl ⟨Or.inl ⟨hl, ?_⟩, ?_⟩
        · intro hcon
          exact h2b hcon.2
        · intro hcon
          exact h2a hcon.2
      · simp only [Material.mem_linksNew, Material.setDefault_links]
        refine Or.inl ⟨hl, ?_⟩
        intro hcon
        exact h2a hcon.2

/-- Every link present after channel routing was already there, or starts at
the routed signal, or re-starts at the source of a previous Base Color link
(the AO splice), or starts at a node created by the routing itself. -/
theorem handleChannelUsage_links_from (host : Host) (props : EPMProps)
    (bsdf : Nat) (usage : Usage) (sig : Nat × String) (chName : String)
    (st : Material) :
    ∀ l ∈ (handleChannelUsage host props bsdf usage sig chName st).links,
      l ∈ st.links ∨ (l.fromNode = sig.1 ∧ l.fromSocket = sig.2) ∨
      (∃ l', l' ∈ st.links ∧ l'.toNode = bsdf ∧ l'.toSocket = "Base Color" ∧
        l.fromNode = l'.fromNode ∧ l.fromSocket = l'.fromSocket) ∨
      st.nodes.length ≤ l.fromNode := by
  cases usage with
  | none => exact fun l hl => Or.inl hl
  | metallic =>
    simp only [handleChannelUsage]
    split
    · intro l hl
      rcases Material.mem_linksNew.mp hl with ⟨hmem, -⟩ | rfl
      · exact Or.inl hmem
      · exact Or.inr (Or.inl ⟨rfl, rfl⟩)
    · exact fun l hl => Or.inl hl
  | roughness =>
    simp only [handleChannelUsage]
    split
    · intro l hl
      rcases Material.mem_linksNew.mp hl with ⟨hmem, -⟩ | rfl
      · exact Or.inl hmem
      · exact Or.inr (Or.inl ⟨rfl, rfl⟩)
    · exact fun l hl => Or.inl hl
  | specular =>
    simp only [handleChannelUsage]
    split
    · intro l hl
      rcases Material.mem_linksNew.mp hl with ⟨hmem, -⟩ | rfl
      · exact Or.inl hmem
      · exact Or.inr (Or.inl ⟨rfl, rfl⟩)
    · exact fun l hl => Or.inl hl
  | alpha =>
    simp only [handleChannelUsage]
    split
    · intro l hl
      rcases Material.mem_linksNew.mp hl with ⟨hmem, -⟩ | rfl
      · exact Or.inl hmem
      · exact Or.inr (Or.inl ⟨rfl, rfl⟩)
    · exact fun l hl => Or.inl hl
  | subsurface =>
    simp only [handleChannelUsage]
    split
    · intro l hl
      rcases Material.mem_linksNew.mp hl with ⟨hmem, -⟩ | rfl
      · exact Or.inl hmem
      · exact Or.inr (Or.inl ⟨rfl, rfl⟩)
    · exact fun l hl => Or.inl hl
  | emission =>
    simp only [handleChannelUsage]
    split
    · split
      · intro l hl
        simp only [Material.setDefault_links] at hl
        rcases Material.mem_linksNew.mp hl with ⟨hmem, -⟩ | rfl
        · exact Or.inl hmem
        · exact Or.inr (Or.inl ⟨rfl, rfl⟩)
      · intro l hl
        rcases Material.mem_linksNew.mp hl with ⟨hmem, -⟩ | rfl
        · exact Or.inl hmem
        · exact Or.inr (Or.inl ⟨rfl, rfl⟩)
    · exact fun l hl => Or.inl hl
  | ao =>
    simp only [handleChannelUsage]
    by_cases hb1 : "Base Color" ∈ host.bsdfInputs
    · rw [if_pos hb1]
      by_cases hb2 : st.isLinked bsdf "Base Color" = true
      · simp only [hb2, eq_self_iff_true, if_true]
        split
        · next existing heq =>
          rw [set_mix_node_factor_linkInto, Material.linkInto_setAttr,
            create_mix_node_linkInto] at heq
          obtain ⟨hexmem, hexto, hexts⟩ := Material.linkInto_mem heq
          have hmixid := create_mix_node_fst_id host "MULTIPLY" st
          intro l hl
          simp only [Material.mem_linksNew, Material.mem_linksRemove,
            set_mix_node_factor_links, Material.setAttr_links,
            create_mix_node_links, hmixid] at hl
          rcases hl with ⟨⟨⟨⟨hmem, -⟩, -⟩ | rfl, -⟩ | rfl, -⟩ | rfl
          · exact Or.inl hmem
          · exact Or.inr (Or.inr (Or.inl ⟨existing, hexmem, hexto, hexts, rfl, rfl⟩))
          · exact Or.inr (Or.inl ⟨rfl, rfl⟩)
          · exact Or.inr (Or.inr (Or.inr (by simp)))
        · exact fun l hl => Or.inl hl
      · rw [Bool.not_eq_true] at hb2
        simp only [hb2]
        exact fun l hl => Or.inl hl
    · rw [if_neg hb1]
      exact fun l hl => Or.inl hl
  | displacement =>
    simp only [handleChannelUsage]
    split
    · intro l hl
      rcases Material.mem_linksNew.mp hl with ⟨hmem, -⟩ | rfl
      · exact Or.inl hmem
      · exact Or.inr (Or.inl ⟨rfl, rfl⟩)
    · simp only [Material.nodesGet_setDefault,
        Material.nodesGet_newNode_ne st NodeKind.displacement "Displacement"
          "Material Output" (by decide)]
      split
      · intro l hl
        simp only [Material.mem_linksNew, Material.setDispMethodBoth_links,
          Material.setDefault_links, Material.newNode_snd_links,
          Material.newNode_fst] at hl
        rcases hl with ⟨⟨hmem, -⟩ | rfl, -⟩ | rfl
        · exact Or.inl hmem
        · exact Or.inr (Or.inr (Or.inr (by simp)))
        · exact Or.inr (Or.inl ⟨rfl, rfl⟩)
      · intro l hl
        simp only [Material.mem_linksNew, Material.setDefault_links,
          Material.newNode_snd_links, Material.newNode_fst] at hl
        rcases hl with ⟨hmem, -⟩ | rfl
        · exact Or.inl hmem
        · exact Or.inr (Or.inl ⟨rfl, rfl⟩)

/-- Channel routing sends new links only out of the signal, previous Base
Color sources, or freshly created nodes: a node id `j` below the current
node count, different from the signal's node and from every existing link
source, gains no outgoing link. -/
theorem handleChannelUsage_noFrom (host : Host) (props : EPMProps) (bsdf : Nat)
    (usage : Usage) (sig : Nat × String) (chName : String) (st : Material)
    (j : Nat) (hj : j < st.nodes.length) (hsig : sig.1 ≠ j)
    (h : ∀ l ∈ st.links, l.fromNode ≠ j) :
    ∀ l ∈ (handleChannelUsage host props bsdf usage sig chName st).links,
      l.fromNode ≠ j := by
  intro l hl
  rcases handleChannelUsage_links_from host props bsdf usage sig chName st l hl with
    hmem | ⟨hf, -⟩ | ⟨l', hl', -, -, hf, -⟩ | hge
  · exact h l hmem
  · rw [hf]
    exact hsig
  · rw [hf]
    exact h l' hl'
  · omega

/-- Channel routing never wires into a `Vector` input. -/
theorem handleChannelUsage_noVec (host : Host) (props : EPMProps) (bsdf : Nat)
    (usage : Usage) (sig : Nat × String) (chName : String) (st : Material)
    (h : ∀ l ∈ st.links, l.toSocket ≠ "Vector") :
    ∀ l ∈ (handleChannelUsage host props bsdf usage sig chName st).links,
      l.toSocket ≠ "Vector" := by
  cases usage with
  | none => exact h
  | metallic =>
    simp only [handleChannelUsage]
    split
    · next s hs =>
      have hm := get_principled_socket_mem hs
      simp only [List.mem_singleton] at hm
      subst hm
      intro l hl
      rcases Material.mem_linksNew.mp hl with ⟨hmem, -⟩ | rfl
      · exact h l hmem
      · simp
    · exact h
  | roughness =>
    simp only [handleChannelUsage]
    split
    · next s hs =>
      have hm := get_principled_socket_mem hs
      simp only [List.mem_singleton] at hm
      subst hm
      intro l hl
      rcases Material.mem_linksNew.mp hl with ⟨hmem, -⟩ | rfl
      · exact h l hmem
      · simp
    · exact h
  | specular =>
    simp only [handleChannelUsage]
    split
    · next s hs =>
      have hm := get_principled_socket_mem hs
      simp only [List.mem_cons, List.not_mem_nil, or_false] at hm
      intro l hl
      rcases Material.mem_linksNew.mp hl with ⟨hmem, -⟩ | rfl
      · exact h l hmem
      · rcases hm with rfl | rfl
        · simp
        · simp
    · exact h
  | alpha =>
    simp only [handleChannelUsage]
    split
    · next s hs =>
      have hm := get_principled_socket_mem hs
      simp only [List.mem_singleton] at hm
      subst hm
      intro l hl
      rcases Material.mem_linksNew.mp hl with ⟨hmem, -⟩ | rfl
      · exact h l hmem
      · simp
    · exact h
  | subsurface =>
    simp only [handleChannelUsage]
    split
    · next s hs =>
      have hm := get_principled_socket_mem hs
      simp only [List.mem_cons, List.not_mem_nil, or_false] at hm
      intro l hl
      rcases Material.mem_linksNew.mp hl with ⟨hmem, -⟩ | rfl
      · exact h l hmem
      · rcases hm with rfl | rfl
        · simp
        · simp
    · exact h
  | emission =>
    simp only [handleChannelUsage]
    split
    · next s hs =>
      have hm := get_principled_socket_mem hs
      simp only [List.mem_singleton] at hm
      subst hm
      split
      · intro l hl
        simp only [Material.setDefault_links] at hl
        rcases Material.mem_linksNew.mp hl with ⟨hmem, -⟩ | rfl
        · exact h l hmem
        · simp
      · intro l hl
        rcases Material.mem_linksNew.mp hl with ⟨hmem, -⟩ | rfl
        · exact h l hmem
        · simp
    · exact h
  | ao =>
    simp only [handleChannelUsage]
    by_cases hb1 : "Base Color" ∈ host.bsdfInputs
    · rw [if_pos hb1]
      by_cases hb2 : st.isLinked bsdf "Base Color" = true
      · simp only [hb2, eq_self_iff_true, if_true]
        split
        · next existing heq =>
          intro l hl
          simp only [Material.mem_linksNew, Material.mem_linksRemove,
            set_mix_node_factor_links, Material.setAttr_links,
            create_mix_node_links] at hl
          rcases hl with ⟨⟨⟨⟨hmem, -⟩, -⟩ | rfl, -⟩ | rfl, -⟩ | rfl
          · exact h l hmem
          · cases hv : host.v34plus <;> simp [get_mix_node_sockets, hv]
          · cases hv : host.v34plus <;> simp [get_mix_node_sockets, hv]
          · cases hv : host.v34plus <;> simp [get_mix_node_sockets, hv]
        · exact h
      · rw [Bool.not_eq_true] at hb2
        simp only [hb2]
        exact h
    · rw [if_neg hb1]
      exact h
  | displacement =>
    simp only [handleChannelUsage]
    split
    · intro l hl
      rcases Material.mem_linksNew.mp hl with ⟨hmem, -⟩ | rfl
      · exact h l hmem
      · simp
    · simp only [Material.nodesGet_setDefault,
        Material.nodesGet_newNode_ne st NodeKind.displacement "Displacement"
          "Material Output" (by decide)]
      split
      · intro l hl
        simp only [Material.mem_linksNew, Material.setDispMethodBoth_links,
          Material.setDefault_links, Material.newNode_snd_links] at hl
        rcases hl with ⟨⟨hmem, -⟩ | rfl, -⟩ | rfl
        · exact h l hmem
        · simp
        · simp
      · intro l hl
        simp only [Material.mem_linksNew, Material.setDefault_links,
          Material.newNode_snd_links] at hl
        rcases hl with ⟨hmem, -⟩ | rfl
        · exact h l hmem
        · simp

theorem routeChannel_dispCount (host : Host) (props : EPMProps) (bsdf : Nat)
    (chName : String) (chOut : Nat × String) (settings : ChannelSettings)
    (st : Material) :
    dispCount (routeChannel host props bsdf chName chOut settings st) =
      dispCount st +
        (if settings.channel_usage = Usage.displacement ∧
            st.nodesGet "Displacement" = Option.none then 1 else 0) := by
  by_cases hu : settings.channel_usage = Usage.none
  · simp [routeChannel, hu]
  · simp only [routeChannel, if_neg hu]
    by_cases hi : settings.channel_invert = true
    · simp only [hi, if_true]
      rw [handleChannelUsage_dispCount]
      simp [dispCount,
        Material.nodesGet_newNode_ne st NodeKind.invert _ "Displacement" (by decide)]
    · rw [Bool.not_eq_true] at hi
      simp only [hi, Bool.false_eq_true, if_false]
      rw [handleChannelUsage_dispCount]

theorem routeChannel_nodesGet_disp (host : Host) (props : EPMProps) (bsdf : Nat)
    (chName : String) (chOut : Nat × String) (settings : ChannelSettings)
    (st : Material) (hdok : DispOK st) :
    ((routeChannel host props bsdf chName chOut settings st).nodesGet
        "Displacement" = Option.none) ↔
      (st.nodesGet "Displacement" = Option.none ∧
        settings.channel_usage ≠ Usage.displacement) := by
  by_cases hu : settings.channel_usage = Usage.none
  · simp [routeChannel, hu]
  · simp only [routeChannel, if_neg hu]
    by_cases hi : settings.channel_invert = true
    · simp only [hi, if_true]
      rw [handleChannelUsage_nodesGet_disp]
      · simp [Material.nodesGet_newNode_ne st NodeKind.invert _ "Displacement"
          (by decide)]
      · intro hnone
        simp only [Material.nodesGet_linksNew,
          Material.nodesGet_newNode_ne st NodeKind.invert _ "Displacement"
            (by decide)] at hnone
        have := hdok hnone
        simpa [dispCount] using this
    · rw [Bool.not_eq_true] at hi
      simp only [hi, Bool.false_eq_true, if_false]
      rw [handleChannelUsage_nodesGet_disp]
      exact hdok

theorem routeChannel_DispOK (host : Host) (props : EPMProps) (bsdf : Nat)
    (chName : String) (chOut : Nat × String) (settings : ChannelSettings)
    (st : Material) (hdok : DispOK st) :
    DispOK (routeChannel host props bsdf chName chOut settings st) := by
  intro hnone
  rw [routeChannel_nodesGet_disp host props bsdf chName chOut settings st hdok]
    at hnone
  rw [routeChannel_dispCount]
  simp [hnone.1, hnone.2, hdok hnone.1]

theorem routeChannel_mixCount (host : Host) (props : EPMProps) (bsdf : Nat)
    (chName : String) (chOut : Nat × String) (settings : ChannelSettings)
    (st : Material) :
    mixCount (routeChannel host props bsdf chName chOut settings st) =
      mixCount st +
        (if settings.channel_usage = Usage.ao ∧ "Base Color" ∈ host.bsdfInputs ∧
            st.isLinked bsdf "Base Color" = true then 1 else 0) := by
  by_cases hu : settings.channel_usage = Usage.none
  · simp [routeChannel, hu]
  · simp only [routeChannel, if_neg hu]
    by_cases hi : settings.channel_invert = true
    · simp only [hi, if_true]
      rw [handleChannelUsage_mixCount]
      have hbc : ((st.newNode NodeKind.invert ("Invert " ++ chName)).2.linksNew
          chOut.1 chOut.2 st.nodes.length
          "Color").isLinked bsdf "Base Color" = st.isLinked bsdf "Base Color" := by
        rw [Material.isLinked_linksNew_ne]
        · simp
        · intro hcon
          exact absurd hcon.2 (by decide)
      simp [mixCount, hbc]
    · rw [Bool.not_eq_true] at hi
      simp only [hi, Bool.false_eq_true, if_false]
      rw [handleChannelUsage_mixCount]

theorem routeChannel_isLinked_BC (host : Host) (props : EPMProps) (bsdf : Nat)
    (chName : String) (chOut : Nat × String) (settings : ChannelSettings)
    (st : Material) :
    (routeChannel host props bsdf chName chOut settings st).isLinked bsdf
        "Base Color" =
      st.isLinked bsdf "Base Color" := by
  by_cases hu : settings.channel_usage = Usage.none
  · simp [routeChannel, hu]
  · simp only [routeChannel, if_neg hu]
    by_cases hi : settings.channel_invert = true
    · simp only [hi, if_true]
      rw [handleChannelUsage_isLinked_BC]
      rw [Material.isLinked_linksNew_ne]
      · simp
      · intro hcon
        exact absurd hcon.2 (by decide)
    · rw [Bool.not_eq_true] at hi
      simp only [hi, Bool.false_eq_true, if_false]
      rw [handleChannelUsage_isLinked_BC]

theorem routeChannel_countKind (host : Host) (props : EPMProps) (bsdf : Nat)
    (chName : String) (chOut : Nat × String) (settings : ChannelSettings)
    (st : Material) (k : NodeKind) (h1 : k ≠ NodeKind.mix)
    (h2 : k ≠ NodeKind.mixRGB) (h3 : k ≠ NodeKind.displacement)
    (h4 : k ≠ NodeKind.invert) :
    (routeChannel host props bsdf chName chOut settings st).countKind k =
      st.countKind k := by
  have h4' : ¬(NodeKind.invert = k) := fun hx => h4 hx.symm
  by_cases hu : settings.channel_usage = Usage.none
  · simp [routeChannel, hu]
  · simp only [routeChannel, if_neg hu]
    by_cases hi : settings.channel_invert = true
    · simp only [hi, if_true]
      rw [handleChannelUsage_countKind host props bsdf _ _ _ _ k h1 h2 h3]
      simp [h4']
    · rw [Bool.not_eq_true] at hi
      simp only [hi, Bool.false_eq_true, if_false]
      rw [handleChannelUsage_countKind host props bsdf _ _ _ _ k h1 h2 h3]

theorem routeChannel_length (host : Host) (props : EPMProps) (bsdf : Nat)
    (chName : String) (chOut : Nat × String) (settings : ChannelSettings)
    (st : Material) :
    st.nodes.length ≤
      (routeChannel host props bsdf chName chOut settings st).nodes.length := by
  by_cases hu : settings.channel_usage = Usage.none
  · simp [routeChannel, hu]
  · simp only [routeChannel, if_neg hu]
    by_cases hi : settings.channel_invert = true
    · simp only [hi, if_true]
      have h1 := handleChannelUsage_length host props bsdf settings.channel_usage
        ((st.newNode NodeKind.invert ("Invert " ++ chName)).1.id, "Color") chName
        ((st.newNode NodeKind.invert ("Invert " ++ chName)).2.linksNew chOut.1
          chOut.2 (st.newNode NodeKind.invert ("Invert " ++ chName)).1.id "Color")
      simp only [Material.linksNew_nodes, Material.newNode_snd_nodes,
        List.length_append] at h1
      omega
    · rw [Bool.not_eq_true] at hi
      simp only [hi, Bool.false_eq_true, if_false]
      exact handleChannelUsage_length host props bsdf _ _ _ _

theorem routeChannel_noFrom (host : Host) (props : EPMProps) (bsdf : Nat)
    (chName : String) (chOut : Nat × String) (settings : ChannelSettings)
    (st : Material) (j : Nat) (hj : j < st.nodes.length) (hc : chOut.1 ≠ j)
    (h : ∀ l ∈ st.links, l.fromNode ≠ j) :
    ∀ l ∈ (routeChannel host props bsdf chName chOut settings st).links,
      l.fromNode ≠ j := by
  by_cases hu : settings.channel_usage = Usage.none
  · simpa [routeChannel, hu] using h
  · simp only [routeChannel, if_neg hu]
    by_cases hi : settings.channel_invert = true
    · simp only [hi, if_true]
      apply handleChannelUsage_noFrom
      · simp only [Material.linksNew_nodes, Material.newNode_snd_nodes,
          List.length_append]
        omega
      · simp only [Material.newNode_fst]
        omega
      · intro l hl
        rcases Material.mem_linksNew.mp hl with ⟨hmem, -⟩ | rfl
        · simp only [Material.newNode_snd_links] at hmem
          exact h l hmem
        · exact hc
    · rw [Bool.not_eq_true] at hi
      simp only [hi, Bool.false_eq_true, if_false]
      exact handleChannelUsage_noFrom host props bsdf _ _ _ _ j hj hc h

theorem routeChannel_noVec (host : Host) (props : EPMProps) (bsdf : Nat)
    (chName : String) (chOut : Nat × String) (settings : ChannelSettings)
    (st : Material) (h : ∀ l ∈ st.links, l.toSocket ≠ "Vector") :
    ∀ l ∈ (routeChannel host props bsdf chName chOut settings st).links,
      l.toSocket ≠ "Vector" := by
  by_cases hu : settings.channel_usage = Usage.none
  · simpa [routeChannel, hu] using h
  · simp only [routeChannel, if_neg hu]
    by_cases hi : settings.channel_invert = true
    · simp only [hi, if_true]
      apply handleChannelUsage_noVec
      intro l hl
      rcases Material.mem_linksNew.mp hl with ⟨hmem, -⟩ | rfl
      · simp only [Material.newNode_snd_links] at hmem
        exact h l hmem
      · simp
    · rw [Bool.not_eq_true] at hi
      simp only [hi, Bool.false_eq_true, if_false]
      exact handleChannelUsage_noVec host props bsdf _ _ _ _ h

theorem routeChannel_link_preserved (host : Host) (props : EPMProps)
    (bsdf : Nat) (chName : String) (chOut : Nat × String)
    (settings : ChannelSettings) (st : Material) (l : Link) (hl : l ∈ st.links)
    (h1 : l.toNode ≠ bsdf) (h2a : l.toSocket ≠ "Height")
    (h2b : l.toSocket ≠ "Displacement") (h2c : l.toSocket ≠ "Color")
    (h3 : l.toNode < st.nodes.length) :
    l ∈ (routeChannel host props bsdf chName chOut settings st).links := by
  by_cases hu : settings.channel_usage = Usage.none
  · simpa [routeChannel, hu] using hl
  · simp only [routeChannel, if_neg hu]
    by_cases hi : settings.channel_invert = true
    · simp only [hi, if_true]
      apply handleChannelUsage_link_preserved
      · simp only [Material.mem_linksNew, Material.newNode_snd_links,
          Material.newNode_fst]
        refine Or.inl ⟨hl, ?_⟩
        intro hcon
        exact h2c hcon.2
      · exact h1
      · exact h2a
      · exact h2b
      · simp only [Material.linksNew_nodes, Material.newNode_snd_nodes,
          List.length_append]
        omega
    · rw [Bool.not_eq_true] at hi
      simp only [hi, Bool.false_eq_true, if_false]
      exact handleChannelUsage_link_preserved _ _ _ _ _ _ _ _ hl h1 h2a h2b h3

/-- C6: for a routed packed channel (usage not `None`) whose raw output has
no other consumers, if the invert flag is set, an invert node is created, the
raw channel output is wired into its `Color` input, and every link leaving
the raw output ends at that invert node — so the invert node sits strictly
between the raw source and whatever destination the router wires; if the
invert flag is clear, no invert node is created and the raw output is handed
to the router directly. -/
theorem invert_strictly_between (host : Host) (props : EPMProps) (bsdf : Nat)
    (chName : String) (chOut : Nat × String) (settings : ChannelSettings)
    (st : Material)
    (hu : settings.channel_usage ≠ Usage.none)
    (hc : chOut.1 < st.nodes.length)
    (hb : bsdf < st.nodes.length)
    (hraw : ∀ l ∈ st.links, ¬(l.fromNode = chOut.1 ∧ l.fromSocket = chOut.2)) :
    (settings.channel_invert = true →
      (routeChannel host props bsdf chName chOut settings st).kindAt
          st.nodes.length = some NodeKind.invert ∧
      (Link.mk chOut.1 chOut.2 st.nodes.length "Color") ∈
        (routeChannel host props bsdf chName chOut settings st).links ∧
      ∀ l ∈ (routeChannel host props bsdf chName chOut settings st).links,
        l.fromNode = chOut.1 → l.fromSocket = chOut.2 →
          l.toNode = st.nodes.length ∧ l.toSocket = "Color") ∧
    (settings.channel_invert = false →
      (routeChannel host props bsdf chName chOut settings st).countKind
          NodeKind.invert = st.countKind NodeKind.invert ∧
      routeChannel host props bsdf chName chOut settings st =
        handleChannelUsage host props bsdf settings.channel_usage chOut chName
          st) := by
  constructor
  · intro hi
    simp only [routeChannel, if_neg hu, hi, if_true]
    have hlen1 : ((st.newNode NodeKind.invert ("Invert " ++ chName)).2.linksNew
        chOut.1 chOut.2 (st.newNode NodeKind.invert ("Invert " ++ chName)).1.id
        "Color").nodes.length = st.nodes.length + 1 := by
      simp
    refine ⟨?_, ?_, ?_⟩
    · rw [handleChannelUsage_kindAt]
      · simp
      · rw [hlen1]
        omega
    · apply handleChannelUsage_link_preserved
      · simp only [Material.newNode_fst, Material.mem_linksNew]
        exact Or.inr trivial
      · show st.nodes.length ≠ bsdf
        omega
      · show ("Color" : String) ≠ "Height"
        decide
      · show ("Color" : String) ≠ "Displacement"
        decide
      · rw [hlen1]
        show st.nodes.length < st.nodes.length + 1
        omega
    · intro l hl hf1 hf2
      rcases handleChannelUsage_links_from host props bsdf settings.channel_usage
        _ chName _ l hl with hmem | ⟨hf, hfs⟩ | ⟨l', hl', hto', -, hf, hfs⟩ | hge
      · rcases Material.mem_linksNew.mp hmem with ⟨hmem2, -⟩ | rfl
        · simp only [Material.newNode_snd_links] at hmem2
          exact absurd ⟨hf1, hf2⟩ (hraw l hmem2)
        · simp
      · simp only [Material.newNode_fst] at hf
        rw [hf1] at hf
        omega
      · rcases Material.mem_linksNew.mp hl' with ⟨hmem2, -⟩ | rfl
        · simp only [Material.newNode_snd_links] at hmem2
          rw [hf1] at hf
          rw [hf2] at hfs
          exact absurd ⟨hf.symm, hfs.symm⟩ (hraw l' hmem2)
        · simp only [Material.newNode_fst] at hto'
          omega
      · rw [hlen1] at hge
        rw [hf1] at hge
        omega
  · intro hi
    simp only [routeChannel, if_neg hu, hi, Bool.false_eq_true, if_false]
    exact ⟨handleChannelUsage_countKind host props bsdf _ _ _ _ NodeKind.invert
      (by decide) (by decide) (by decide), trivial⟩

theorem coordStage_countKind (props : EPMProps) (st : Material) (k : NodeKind)
    (h1 : k ≠ NodeKind.texCoord) (h2 : k ≠ NodeKind.mapping)
    (h3 : k ≠ NodeKind.uvMap) :
    (coordStage props st).2.countKind k = st.countKind k := by
  have h1' : ¬(NodeKind.texCoord = k) := fun hx => h1 hx.symm
  have h2' : ¬(NodeKind.mapping = k) := fun hx => h2 hx.symm
  have h3' : ¬(NodeKind.uvMap = k) := fun hx => h3 hx.symm
  simp only [coordStage]
  split
  · split <;> simp [h1', h2', h3']
  · rfl

theorem coordStage_nodesGet_disp (props : EPMProps) (st : Material) :
    (coordStage props st).2.nodesGet "Displacement" = st.nodesGet "Displacement" := by
  simp only [coordStage]
  split
  · split <;>
      simp [Material.nodesGet_newNode_ne _ NodeKind.texCoord _ "Displacement" (by decide),
        Material.nodesGet_newNode_ne _ NodeKind.mapping _ "Displacement" (by decide),
        Material.nodesGet_newNode_ne _ NodeKind.uvMap _ "Displacement" (by decide)]
  · rfl

theorem coordStage_isLinked_BC (props : EPMProps) (st : Material) (b : Nat) :
    (coordStage props st).2.isLinked b "Base Color" = st.isLinked b "Base Color" := by
  simp only [coordStage]
  split
  · split <;>
      · rw [Material.isLinked_linksNew_ne]
        · simp
        · intro hcon
          exact absurd hcon.2 (by decide)
  · rfl

theorem coordStage_length (props : EPMProps) (st : Material) :
    st.nodes.length ≤ (coordStage props st).2.nodes.length := by
  simp only [coordStage]
  split
  · split <;> simp
  · simp

theorem colorStage_countKind (host : Host) (props : EPMProps) (bsdf : Nat)
    (mapOpt : Option Nat) (st : Material) (k : NodeKind)
    (h1 : k ≠ NodeKind.texImage) :
    (colorStage host props bsdf mapOpt st).countKind k = st.countKind k := by
  have h1' : ¬(NodeKind.texImage = k) := fun hx => h1 hx.symm
  cases hc : props.col_image with
  | none => simp [colorStage, hc]
  | some img =>
    simp only [colorStage, hc]
    split <;> cases mapOpt <;> simp [h1']

theorem colorStage_nodesGet_disp (host : Host) (props : EPMProps) (bsdf : Nat)
    (mapOpt : Option Nat) (st : Material) :
    (colorStage host props bsdf mapOpt st).nodesGet "Displacement" =
      st.nodesGet "Displacement" := by
  cases hc : props.col_image with
  | none => simp [colorStage, hc]
  | some img =>
    simp only [colorStage, hc]
    split <;> cases mapOpt <;>
      simp [Material.nodesGet_newNode_ne _ NodeKind.texImage _ "Displacement" (by decide)]

theorem colorStage_isLinked_BC (host : Host) (props : EPMProps) (bsdf : Nat)
    (mapOpt : Option Nat) (st : Material) :
    (colorStage host props bsdf mapOpt st).isLinked bsdf "Base Color" =
      (props.col_image.isSome || st.isLinked bsdf "Base Color") := by
  cases hc : props.col_image with
  | none => simp [colorStage, hc]
  | some img =>
    simp only [colorStage, hc, Option.isSome_some, Bool.true_or]
    split
    · next s hs =>
      have hm := get_principled_socket_mem hs
      simp only [List.mem_singleton] at hm
      subst hm
      rw [Material.isLinked_linksNew_ne]
      · cases mapOpt <;> simp [Material.isLinked_linksNew_self]
      · intro hcon
        exact absurd hcon.2 (by decide)
    · cases mapOpt <;> simp [Material.isLinked_linksNew_self]

theorem colorStage_length (host : Host) (props : EPMProps) (bsdf : Nat)
    (mapOpt : Option Nat) (st : Material) :
    st.nodes.length ≤ (colorStage host props bsdf mapOpt st).nodes.length := by
  cases hc : props.col_image with
  | none => simp [colorStage, hc]
  | some img =>
    simp only [colorStage, hc]
    split <;> cases mapOpt <;> simp

theorem colorStage_link_preserved (host : Host) (props : EPMProps) (bsdf : Nat)
    (mapOpt : Option Nat) (st : Material) (l : Link) (hl : l ∈ st.links)
    (h1 : l.toNode ≠ bsdf) (h3 : l.toNode < st.nodes.length) :
    l ∈ (colorStage host props bsdf mapOpt st).links := by
  cases hc : props.col_image with
  | none =>
    simpa [colorStage, hc] using hl
  | some img =>
    simp only [colorStage, hc]
    have hbase : ∀ z : Material, z.links = st.links →
        l ∈ (match mapOpt with
          | some m => z.linksNew m "Vector" st.nodes.length "Vector"
          | Option.none => z).links := by
      intro z hz
      cases mapOpt with
      | none => rw [hz]; exact hl
      | some m =>
        simp only [Material.mem_linksNew, hz]
        refine Or.inl ⟨hl, ?_⟩
        intro hcon
        omega
    split
    · simp only [Material.mem_linksNew]
      refine Or.inl ⟨Or.inl ⟨?_, fun hcon => h1 hcon.1⟩, fun hcon => h1 hcon.1⟩
      have := hbase (((st.newNode NodeKind.texImage "Base Color").2.setAttr
          st.nodes.length "image" (AttrVal.img img)).setImageColorspace img
          "sRGB") (by simp)
      simpa using this
    · simp only [Material.mem_linksNew]
      refine Or.inl ⟨?_, fun hcon => h1 hcon.1⟩
      have := hbase (((st.newNode NodeKind.texImage "Base Color").2.setAttr
          st.nodes.length "image" (AttrVal.img img)).setImageColorspace img
          "sRGB") (by simp)
      simpa using this

theorem colorStage_noFrom (host : Host) (props : EPMProps) (bsdf : Nat)
    (mapOpt : Option Nat) (st : Material) (j : Nat) (hj : j < st.nodes.length)
    (hm : ∀ m, mapOpt = some m → m ≠ j)
    (h : ∀ l ∈ st.links, l.fromNode ≠ j) :
    ∀ l ∈ (colorStage host props bsdf mapOpt st).links, l.fromNode ≠ j := by
  cases hc : props.col_image with
  | none =>
    simpa [colorStage, hc] using h
  | some img =>
    simp only [colorStage, hc]
    have hmid : ∀ l ∈ (match mapOpt with
        | some m => (((st.newNode NodeKind.texImage "Base Color").2.setAttr
            st.nodes.length "image" (AttrVal.img img)).setImageColorspace img
            "sRGB").linksNew m "Vector" st.nodes.length "Vector"
        | Option.none => (((st.newNode NodeKind.texImage "Base Color").2.setAttr
            st.nodes.length "image" (AttrVal.img img)).setImageColorspace img
            "sRGB")).links,
        l.fromNode ≠ j := by
      cases mapOpt with
      | none =>
        intro l hl
        simp only [Material.setImageColorspace_links, Material.setAttr_links,
          Material.newNode_snd_links] at hl
        exact h l hl
      | some m =>
        intro l hl
        rcases Material.mem_linksNew.mp hl with ⟨hmem, -⟩ | rfl
        · simp only [Material.setImageColorspace_links, Material.setAttr_links,
            Material.newNode_snd_links] at hmem
          exact h l hmem
        · exact hm m rfl
    split
    · intro l hl
      rcases Material.mem_linksNew.mp hl with ⟨hmem, -⟩ | rfl
      · rcases Material.mem_linksNew.mp hmem with ⟨hmem2, -⟩ | rfl
        · exact hmid l (by simpa using hmem2)
        · show st.nodes.length ≠ j
          omega
      · show st.nodes.length ≠ j
        omega
    · intro l hl
      rcases Material.mem_linksNew.mp hl with ⟨hmem, -⟩ | rfl
      · exact hmid l (by simpa using hmem)
      · show st.nodes.length ≠ j
        omega

theorem colorStage_noVec (host : Host) (props : EPMProps) (bsdf : Nat)
    (st : Material) (h : ∀ l ∈ st.links, l.toSocket ≠ "Vector") :
    ∀ l ∈ (colorStage host props bsdf Option.none st).links,
      l.toSocket ≠ "Vector" := by
  cases hc : props.col_image with
  | none =>
    simpa [colorStage, hc] using h
  | some img =>
    simp only [colorStage, hc]
    split
    · next s hs =>
      have hsm := get_principled_socket_mem hs
      simp only [List.mem_singleton] at hsm
      subst hsm
      intro l hl
      rcases Material.mem_linksNew.mp hl with ⟨hmem, -⟩ | rfl
      · rcases Material.mem_linksNew.mp hmem with ⟨hmem2, -⟩ | rfl
        · simp only [Material.setImageColorspace_links, Material.setAttr_links,
            Material.newNode_snd_links] at hmem2
          exact h l hmem2
        · simp
      · simp
    · intro l hl
      rcases Material.mem_linksNew.mp hl with ⟨hmem, -⟩ | rfl
      · simp only [Material.setImageColorspace_links, Material.setAttr_links,
          Material.newNode_snd_links] at hmem
        exact h l hmem
      · simp

theorem Material.isLinked_linksNew_ne_socket (st : Material) (f t b : Nat)
    (fs ts s : String) (h : s ≠ ts) :
    (st.linksNew f fs t ts).isLinked b s = st.isLinked b s :=
  Material.isLinked_linksNew_ne st f t b fs ts s (fun hcon => h hcon.2)

theorem normalStage_countKind (host : Host) (props : EPMProps) (bsdf : Nat)
    (mapOpt : Option Nat) (st : Material) (k : NodeKind)
    (h1 : k ≠ NodeKind.texImage) (h2 : k ≠ NodeKind.normalMap)
    (h3 : k ≠ NodeKind.separateColor) (h4 : k ≠ NodeKind.separateRGB)
    (h5 : k ≠ NodeKind.combineColor) (h6 : k ≠ NodeKind.combineRGB)
    (h7 : k ≠ NodeKind.invert) :
    (normalStage host props bsdf mapOpt st).countKind k = st.countKind k := by
  have h1' : ¬(NodeKind.texImage = k) := fun hx => h1 hx.symm
  have h2' : ¬(NodeKind.normalMap = k) := fun hx => h2 hx.symm
  have h7' : ¬(NodeKind.invert = k) := fun hx => h7 hx.symm
  have hsep : ∀ z : Material,
      (create_separate_color_node host z).2.countKind k = z.countKind k :=
    fun z => create_separate_color_node_countKind host z k h3 h4
  have hcomb : ∀ z : Material,
      (create_combine_color_node host z).2.countKind k = z.countKind k :=
    fun z => create_combine_color_node_countKind host z k h5 h6
  cases hn : props.normal_image with
  | none => simp [normalStage, hn]
  | some img =>
    simp only [normalStage, hn]
    split <;> split <;> cases mapOpt <;> simp [hsep, hcomb, h1', h2', h7']

theorem normalStage_nodesGet_disp (host : Host) (props : EPMProps) (bsdf : Nat)
    (mapOpt : Option Nat) (st : Material) :
    (normalStage host props bsdf mapOpt st).nodesGet "Displacement" =
      st.nodesGet "Displacement" := by
  have hsep : ∀ z : Material,
      (create_separate_color_node host z).2.nodesGet "Displacement" =
        z.nodesGet "Displacement" :=
    fun z => create_separate_color_node_nodesGet host z "Displacement"
      (by decide) (by decide)
  have hcomb : ∀ z : Material,
      (create_combine_color_node host z).2.nodesGet "Displacement" =
        z.nodesGet "Displacement" :=
    fun z => create_combine_color_node_nodesGet host z "Displacement"
      (by decide) (by decide)
  have htex : ∀ (z : Material) (lbl : String),
      (z.newNode NodeKind.texImage lbl).2.nodesGet "Displacement" =
        z.nodesGet "Displacement" :=
    fun z lbl => Material.nodesGet_newNode_ne z NodeKind.texImage lbl
      "Displacement" (by decide)
  have hnm : ∀ (z : Material) (lbl : String),
      (z.newNode NodeKind.normalMap lbl).2.nodesGet "Displacement" =
        z.nodesGet "Displacement" :=
    fun z lbl => Material.nodesGet_newNode_ne z NodeKind.normalMap lbl
      "Displacement" (by decide)
  have hinv : ∀ (z : Material) (lbl : String),
      (z.newNode NodeKind.invert lbl).2.nodesGet "Displacement" =
        z.nodesGet "Displacement" :=
    fun z lbl => Material.nodesGet_newNode_ne z NodeKind.invert lbl
      "Displacement" (by decide)
  cases hn : props.normal_image with
  | none => simp [normalStage, hn]
  | some img =>
    simp only [normalStage, hn]
    split <;> split <;> cases mapOpt <;> simp [hsep, hcomb, htex, hnm, hinv]

theorem normalStage_isLinked_BC (host : Host) (props : EPMProps) (bsdf : Nat)
    (mapOpt : Option Nat) (st : Material) :
    (normalStage host props bsdf mapOpt st).isLinked bsdf "Base Color" =
      st.isLinked bsdf "Base Color" := by
  have hlink : ∀ (z : Material) (f t : Nat) (fs ts : String), ts ≠ "Base Color" →
      (z.linksNew f fs t ts).isLinked bsdf "Base Color" =
        z.isLinked bsdf "Base Color" :=
    fun z f t fs ts h =>
      Material.isLinked_linksNew_ne_socket z f t bsdf fs ts "Base Color"
        (fun hx => h hx.symm)
  cases hn : props.normal_image with
  | none => simp [normalStage, hn]
  | some img =>
    cases hv : host.v34plus with
    | true =>
      simp only [normalStage, hn]
      split
      · next s hs =>
        have hm := get_principled_socket_mem hs
        simp only [List.mem_singleton] at hm
        subst hm
        split <;> cases mapOpt <;>
          simp [get_separate_color_outputs, get_combine_color_inputs,
            separateColorInput0, combineColorOutput0, hv, hlink,
            create_separate_color_node, create_combine_color_node]
      · split <;> cases mapOpt <;>
          simp [get_separate_color_outputs, get_combine_color_inputs,
            separateColorInput0, combineColorOutput0, hv, hlink,
            create_separate_color_node, create_combine_color_node]
    | false =>
      simp only [normalStage, hn]
      split
      · next s hs =>
        have hm := get_principled_socket_mem hs
        simp only [List.mem_singleton] at hm
        subst hm
        split <;> cases mapOpt <;>
          simp [get_separate_color_outputs, get_combine_color_inputs,
            separateColorInput0, combineColorOutput0, hv, hlink,
            create_separate_color_node, create_combine_color_node]
      · split <;> cases mapOpt <;>
          simp [get_separate_color_outputs, get_combine_color_inputs,
            separateColorInput0, combineColorOutput0, hv, hlink,
            create_separate_color_node, create_combine_color_node]

theorem normalStage_length (host : Host) (props : EPMProps) (bsdf : Nat)
    (mapOpt : Option Nat) (st : Material) :
    st.nodes.length ≤ (normalStage host props bsdf mapOpt st).nodes.length := by
  have hsep : ∀ z : Material,
      (create_separate_color_node host z).2.nodes.length = z.nodes.length + 1 :=
    fun z => create_separate_color_node_length host z
  have hcomb : ∀ z : Material,
      (create_combine_color_node host z).2.nodes.length = z.nodes.length + 1 :=
    fun z => create_combine_color_node_length host z
  cases hn : props.normal_image with
  | none => simp [normalStage, hn]
  | some img =>
    simp only [normalStage, hn]
    split <;> split <;> cases mapOpt <;> simp [hsep, hcomb] <;> omega

theorem Material.linksNew_pres {l : Link} {st : Material} {f t : Nat}
    {fs ts : String} (hl : l ∈ st.links) (h : ¬(l.toNode = t ∧ l.toSocket = ts)) :
    l ∈ (st.linksNew f fs t ts).links :=
  Material.mem_linksNew.mpr (Or.inl ⟨hl, h⟩)

theorem Material.linksNew_pres_socket {l : Link} {st : Material} {f t : Nat}
    {fs ts : String} (hl : l ∈ st.links) (h : l.toSocket ≠ ts) :
    l ∈ (st.linksNew f fs t ts).links :=
  Material.linksNew_pres hl (fun hc => h hc.2)

theorem Material.linksNew_pres_node {l : Link} {st : Material} {f t : Nat}
    {fs ts : String} (hl : l ∈ st.links) (h : l.toNode ≠ t) :
    l ∈ (st.linksNew f fs t ts).links :=
  Material.linksNew_pres hl (fun hc => h hc.1)

theorem Material.mem_links_setAttr {l : Link} {st : Material} {n : Nat}
    {a : String} {v : AttrVal} (h : l ∈ st.links) : l ∈ (st.setAttr n a v).links := h

theorem Material.mem_links_setDefault {l : Link} {st : Material} {n : Nat}
    {a : String} {v : AttrVal} (h : l ∈ st.links) :
    l ∈ (st.setDefault n a v).links := h

theorem Material.mem_links_setImageColorspace {l : Link} {st : Material}
    {img : Nat} {cs : String} (h : l ∈ st.links) :
    l ∈ (st.setImageColorspace img cs).links := h

theorem Material.mem_links_setDispMethodBoth {l : Link} {st : Material}
    (h : l ∈ st.links) : l ∈ st.setDispMethodBoth.links := h

theorem Material.mem_links_newNode {l : Link} {st : Material} {k : NodeKind}
    {lbl : String} (h : l ∈ st.links) : l ∈ (st.newNode k lbl).2.links := by
  rwa [Material.newNode_snd_links]

theorem mem_links_create_separate {l : Link} {host : Host} {st : Material}
    (h : l ∈ st.links) : l ∈ (create_separate_color_node host st).2.links := by
  rwa [create_separate_color_node_links]

theorem mem_links_create_combine {l : Link} {host : Host} {st : Material}
    (h : l ∈ st.links) : l ∈ (create_combine_color_node host st).2.links := by
  rwa [create_combine_color_node_links]

theorem mem_links_create_mix {l : Link} {host : Host} {b : String}
    {st : Material} (h : l ∈ st.links) :
    l ∈ (create_mix_node host b st).2.links := by
  rwa [create_mix_node_links]

theorem mem_links_set_mix_factor {l : Link} {host : Host} {n : Nat} {v : Rat}
    {st : Material} (h : l ∈ st.links) :
    l ∈ (set_mix_node_factor host n v st).links := by
  rwa [set_mix_node_factor_links]

theorem normalStage_linkVec_preserved (host : Host) (props : EPMProps)
    (bsdf : Nat) (mapOpt : Option Nat) (st : Material) (l : Link)
    (hl : l ∈ st.links) (hb : l.toNode ≠ bsdf)
    (hlen : l.toNode < st.nodes.length) :
    l ∈ (normalStage host props bsdf mapOpt st).links := by
  have e1 : ¬(l.toNode = st.nodes.length) := by omega
  have e2 : ¬(l.toNode = st.nodes.length + 1) := by omega
  have e3 : ¬(l.toNode = st.nodes.length + 1 + 1) := by omega
  have e4 : ¬(l.toNode = st.nodes.length + 1 + 1 + 1) := by omega
  have e5 : ¬(l.toNode = st.nodes.length + 1 + 1 + 1 + 1) := by omega
  have e3' : ¬(l.toNode = st.nodes.length + 2) := by omega
  have e4' : ¬(l.toNode = st.nodes.length + 3) := by omega
  have e5' : ¬(l.toNode = st.nodes.length + 4) := by omega
  cases hn : props.normal_image with
  | none => simpa [normalStage, hn] using hl
  | some img =>
    simp only [normalStage, hn]
    split <;> split <;> cases mapOpt <;>
      simp [Material.mem_linksNew, create_separate_color_node_fst_id,
        create_combine_color_node_fst_id, create_separate_color_node_length,
        create_combine_color_node_length, hl, hb, e1, e2, e3, e4, e5, e3',
        e4', e5']

theorem normalStage_noFrom (host : Host) (props : EPMProps) (bsdf : Nat)
    (mapOpt : Option Nat) (st : Material) (j : Nat) (hj : j < st.nodes.length)
    (hm : ∀ m, mapOpt = some m → m ≠ j)
    (h : ∀ l ∈ st.links, l.fromNode ≠ j) :
    ∀ l ∈ (normalStage host props bsdf mapOpt st).links, l.fromNode ≠ j := by
  cases hn : props.normal_image with
  | none => simpa [normalStage, hn] using h
  | some img =>
    simp only [normalStage, hn]
    split <;> split <;> cases mapOpt <;>
      · intro l hl'
        simp only [Material.mem_linksNew, Material.setAttr_links,
          Material.setDefault_links, Material.setImageColorspace_links,
          Material.newNode_snd_links, create_separate_color_node_links,
          create_combine_color_node_links, Material.newNode_fst,
          create_separate_color_node_fst_id, create_combine_color_node_fst_id,
          create_separate_color_node_length, create_combine_color_node_length,
          Material.linksNew_nodes, Material.setAttr_nodes,
          Material.setDefault_nodes, Material.setImageColorspace_nodes,
          Material.newNode_snd_nodes, List.length_append,
          List.length_singleton] at hl'
        repeat'
          first
          | exact h l hl'
          | (replace hl' := hl'.1)
          | (rcases hl' with hl' | rfl)
        all_goals
          first
          | (simp
             omega)
          | (intro hcon
             exact hm _ rfl hcon)

theorem normalStage_noVec (host : Host) (props : EPMProps) (bsdf : Nat)
    (st : Material) (h : ∀ l ∈ st.links, l.toSocket ≠ "Vector") :
    ∀ l ∈ (normalStage host props bsdf Option.none st).links,
      l.toSocket ≠ "Vector" := by
  cases hn : props.normal_image with
  | none => simpa [normalStage, hn] using h
  | some img =>
    have hN : ∀ s, get_principled_socket host.bsdfInputs ["Normal"] = some s →
        ¬s = "Vector" := by
      intro s hs
      have hm0 := get_principled_socket_mem hs
      simp only [List.mem_cons, List.not_mem_nil, or_false] at hm0
      subst hm0
      simp
    cases hv : host.v34plus with
    | true =>
      simp only [normalStage, hn]
      split <;> split <;>
        · intro l hl'
          simp only [Material.mem_linksNew, Material.setAttr_links,
            Material.setDefault_links, Material.setImageColorspace_links,
            Material.newNode_snd_links, create_separate_color_node_links,
            create_combine_color_node_links, get_separate_color_outputs,
            get_combine_color_inputs, separateColorInput0, combineColorOutput0,
            hv, if_true] at hl'
          repeat'
            first
            | exact h l hl'
            | (replace hl' := hl'.1)
            | (rcases hl' with hl' | rfl)
          all_goals first
            | (exact hN _ (by assumption))
            | simp
    | false =>
      simp only [normalStage, hn]
      split <;> split <;>
        · intro l hl'
          simp only [Material.mem_linksNew, Material.setAttr_links,
            Material.setDefault_links, Material.setImageColorspace_links,
            Material.newNode_snd_links, create_separate_color_node_links,
            create_combine_color_node_links, get_separate_color_outputs,
            get_combine_color_inputs, separateColorInput0, combineColorOutput0,
            hv, Bool.false_eq_true, if_false] at hl'
          repeat'
            first
            | exact h l hl'
            | (replace hl' := hl'.1)
            | (rcases hl' with hl' | rfl)
          all_goals first
            | (exact hN _ (by assumption))
            | simp

theorem emissionStage_countKind (host : Host) (props : EPMProps) (bsdf : Nat)
    (mapOpt : Option Nat) (st : Material) (k : NodeKind)
    (h1 : k ≠ NodeKind.texImage) :
    (emissionStage host props bsdf mapOpt st).countKind k = st.countKind k := by
  have h1' : ¬(NodeKind.texImage = k) := fun hx => h1 hx.symm
  cases he : props.emission_image with
  | none => simp [emissionStage, he]
  | some img =>
    simp only [emissionStage, he]
    split <;> split <;> cases mapOpt <;> simp [h1']

theorem emissionStage_nodesGet_disp (host : Host) (props : EPMProps) (bsdf : Nat)
    (mapOpt : Option Nat) (st : Material) :
    (emissionStage host props bsdf mapOpt st).nodesGet "Displacement" =
      st.nodesGet "Displacement" := by
  have htex : ∀ (z : Material) (lbl : String),
      (z.newNode NodeKind.texImage lbl).2.nodesGet "Displacement" =
        z.nodesGet "Displacement" :=
    fun z lbl => Material.nodesGet_newNode_ne z NodeKind.texImage lbl
      "Displacement" (by decide)
  cases he : props.emission_image with
  | none => simp [emissionStage, he]
  | some img =>
    simp only [emissionStage, he]
    split <;> split <;> cases mapOpt <;> simp [htex]

theorem emissionStage_isLinked_BC (host : Host) (props : EPMProps) (bsdf : Nat)
    (mapOpt : Option Nat) (st : Material) :
    (emissionStage host props bsdf mapOpt st).isLinked bsdf "Base Color" =
      st.isLinked bsdf "Base Color" := by
  have hlink : ∀ (z : Material) (f t : Nat) (fs ts : String), ts ≠ "Base Color" →
      (z.linksNew f fs t ts).isLinked bsdf "Base Color" =
        z.isLinked bsdf "Base Color" :=
    fun z f t fs ts h =>
      Material.isLinked_linksNew_ne_socket z f t bsdf fs ts "Base Color"
        (fun hx => h hx.symm)
  cases he : props.emission_image with
  | none => simp [emissionStage, he]
  | some img =>
    simp only [emissionStage, he]
    split
    · next s hs =>
      have hs' := get_principled_socket_mem hs
      simp only [List.mem_cons, List.not_mem_nil, or_false] at hs'
      subst hs'
      split
      · next s2 hs2 =>
        have h2 := get_principled_socket_mem hs2
        simp only [List.mem_cons, List.not_mem_nil, or_false] at h2
        rcases h2 with rfl | rfl <;> cases mapOpt <;> simp [hlink]
      · cases mapOpt <;> simp [hlink]
    · split
      · next s2 hs2 =>
        have h2 := get_principled_socket_mem hs2
        simp only [List.mem_cons, List.not_mem_nil, or_false] at h2
        rcases h2 with rfl | rfl <;> cases mapOpt <;> simp [hlink]
      · cases mapOpt <;> simp [hlink]

theorem emissionStage_length (host : Host) (props : EPMProps) (bsdf : Nat)
    (mapOpt : Option Nat) (st : Material) :
    st.nodes.length ≤ (emissionStage host props bsdf mapOpt st).nodes.length := by
  cases he : props.emission_image with
  | none => simp [emissionStage, he]
  | some img =>
    simp only [emissionStage, he]
    split <;> split <;> cases mapOpt <;> simp

theorem emissionStage_linkVec_preserved (host : Host) (props : EPMProps)
    (bsdf : Nat) (mapOpt : Option Nat) (st : Material) (l : Link)
    (hl : l ∈ st.links) (hb : l.toNode ≠ bsdf)
    (hlen : l.toNode < st.nodes.length) :
    l ∈ (emissionStage host props bsdf mapOpt st).links := by
  have e1 : ¬(l.toNode = st.nodes.length) := by omega
  cases he : props.emission_image with
  | none => simpa [emissionStage, he] using hl
  | some img =>
    simp only [emissionStage, he]
    split <;> split <;> cases mapOpt <;>
      simp [Material.mem_linksNew, hl, hb, e1]

theorem emissionStage_noFrom (host : Host) (props : EPMProps) (bsdf : Nat)
    (mapOpt : Option Nat) (st : Material) (j : Nat) (hj : j < st.nodes.length)
    (hm : ∀ m, mapOpt = some m → m ≠ j)
    (h : ∀ l ∈ st.links, l.fromNode ≠ j) :
    ∀ l ∈ (emissionStage host props bsdf mapOpt st).links, l.fromNode ≠ j := by
  cases he : props.emission_image with
  | none => simpa [emissionStage, he] using h
  | some img =>
    simp only [emissionStage, he]
    split <;> split <;> cases mapOpt <;>
      · intro l hl'
        simp only [Material.mem_linksNew, Material.setAttr_links,
          Material.setDefault_links, Material.setImageColorspace_links,
          Material.newNode_snd_links, Material.newNode_fst] at hl'
        repeat'
          first
          | exact h l hl'
          | (replace hl' := hl'.1)
          | (rcases hl' with hl' | rfl)
        all_goals
          first
          | (simp
             omega)
          | (intro hcon
             exact hm _ rfl hcon)

theorem emissionStage_noVec (host : Host) (props : EPMProps) (bsdf : Nat)
    (st : Material) (h : ∀ l ∈ st.links, l.toSocket ≠ "Vector") :
    ∀ l ∈ (emissionStage host props bsdf Option.none st).links,
      l.toSocket ≠ "Vector" := by
  cases he : props.emission_image with
  | none => simpa [emissionStage, he] using h
  | some img =>
    simp only [emissionStage, he]
    split
    · next s hs =>
      have hs' := get_principled_socket_mem hs
      simp only [List.mem_cons, List.not_mem_nil, or_false] at hs'
      subst hs'
      split
      · next s2 hs2 =>
        have h2 := get_principled_socket_mem hs2
        simp only [List.mem_cons, List.not_mem_nil, or_false] at h2
        intro l hl'
        simp only [Material.mem_linksNew, Material.setAttr_links,
          Material.setDefault_links, Material.setImageColorspace_links,
          Material.newNode_snd_links] at hl'
        repeat'
          first
          | exact h l hl'
          | (replace hl' := hl'.1)
          | (rcases hl' with hl' | rfl)
        all_goals rcases h2 with rfl | rfl <;> simp
      · intro l hl'
        simp only [Material.mem_linksNew, Material.setAttr_links,
          Material.setDefault_links, Material.setImageColorspace_links,
          Material.newNode_snd_links] at hl'
        repeat'
          first
          | exact h l hl'
          | (replace hl' := hl'.1)
          | (rcases hl' with hl' | rfl)
    · split
      · next s2 hs2 =>
        have h2 := get_principled_socket_mem hs2
        simp only [List.mem_cons, List.not_mem_nil, or_false] at h2
        intro l hl'
        simp only [Material.mem_linksNew, Material.setAttr_links,
          Material.setDefault_links, Material.setImageColorspace_links,
          Material.newNode_snd_links] at hl'
        repeat'
          first
          | exact h l hl'
          | (replace hl' := hl'.1)
          | (rcases hl' with hl' | rfl)
        all_goals rcases h2 with rfl | rfl <;> simp
      · intro l hl'
        simp only [Material.mem_linksNew, Material.setAttr_links,
          Material.setDefault_links, Material.setImageColorspace_links,
          Material.newNode_snd_links] at hl'
        repeat'
          first
          | exact h l hl'
          | (replace hl' := hl'.1)
          | (rcases hl' with hl' | rfl)

theorem routeChannel4_dispCount (host : Host) (props : EPMProps) (bsdf : Nat)
    (o1 o2 o3 o4 : Nat × String) (z : Material) (h0 : dispCount z = 0)
    (hn : z.nodesGet "Displacement" = Option.none) :
    dispCount
        (routeChannel host props bsdf "A" o4 props.channel_a
          (routeChannel host props bsdf "B" o3 props.channel_b
            (routeChannel host props bsdf "G" o2 props.channel_g
              (routeChannel host props bsdf "R" o1 props.channel_r z)))) =
      (if anyDisp props then 1 else 0) := by
  have hdok : DispOK z := fun _ => h0
  have d1 := routeChannel_DispOK host props bsdf "R" o1 props.channel_r z hdok
  have d2 := routeChannel_DispOK host props bsdf "G" o2 props.channel_g _ d1
  have n1 := routeChannel_nodesGet_disp host props bsdf "R" o1 props.channel_r z
    hdok
  have n2 := routeChannel_nodesGet_disp host props bsdf "G" o2 props.channel_g _
    d1
  have n3 := routeChannel_nodesGet_disp host props bsdf "B" o3 props.channel_b _
    d2
  rw [routeChannel_dispCount, routeChannel_dispCount, routeChannel_dispCount,
    routeChannel_dispCount, h0]
  simp only [n3, n2, n1]
  by_cases hr : props.channel_r.channel_usage = Usage.displacement <;>
  by_cases hg : props.channel_g.channel_usage = Usage.displacement <;>
  by_cases hb2 : props.channel_b.channel_usage = Usage.displacement <;>
  by_cases ha : props.channel_a.channel_usage = Usage.displacement <;>
    simp [anyDisp, hr, hg, hb2, ha, hn]

theorem routeChannel4_mixCount (host : Host) (props : EPMProps) (bsdf : Nat)
    (o1 o2 o3 o4 : Nat × String) (z : Material) :
    mixCount
        (routeChannel host props bsdf "A" o4 props.channel_a
          (routeChannel host props bsdf "B" o3 props.channel_b
            (routeChannel host props bsdf "G" o2 props.channel_g
              (routeChannel host props bsdf "R" o1 props.channel_r z)))) =
      mixCount z +
        (if "Base Color" ∈ host.bsdfInputs ∧
            z.isLinked bsdf "Base Color" = true then aoCount props else 0) := by
  have i1 := routeChannel_isLinked_BC host props bsdf "R" o1 props.channel_r z
  have i2 := routeChannel_isLinked_BC host props bsdf "G" o2 props.channel_g
    (routeChannel host props bsdf "R" o1 props.channel_r z)
  have i3 := routeChannel_isLinked_BC host props bsdf "B" o3 props.channel_b
    (routeChannel host props bsdf "G" o2 props.channel_g
      (routeChannel host props bsdf "R" o1 props.channel_r z))
  rw [routeChannel_mixCount, routeChannel_mixCount, routeChannel_mixCount,
    routeChannel_mixCount]
  simp only [i3, i2, i1]
  by_cases hbc : "Base Color" ∈ host.bsdfInputs <;>
  by_cases hL : z.isLinked bsdf "Base Color" = true <;>
  by_cases hr : props.channel_r.channel_usage = Usage.ao <;>
  by_cases hg : props.channel_g.channel_usage = Usage.ao <;>
  by_cases hb2 : props.channel_b.channel_usage = Usage.ao <;>
  by_cases ha : props.channel_a.channel_usage = Usage.ao <;>
    · simp [aoCount, hbc, hL, hr, hg, hb2, ha]
      try omega

theorem routeChannel4_countKind (host : Host) (props : EPMProps) (bsdf : Nat)
    (o1 o2 o3 o4 : Nat × String) (z : Material) (k : NodeKind)
    (h1 : k ≠ NodeKind.mix) (h2 : k ≠ NodeKind.mixRGB)
    (h3 : k ≠ NodeKind.displacement) (h4 : k ≠ NodeKind.invert) :
    (routeChannel host props bsdf "A" o4 props.channel_a
        (routeChannel host props bsdf "B" o3 props.channel_b
          (routeChannel host props bsdf "G" o2 props.channel_g
            (routeChannel host props bsdf "R" o1 props.channel_r
              z)))).countKind k = z.countKind k := by
  have step : ∀ (nm : String) (o : Nat × String) (s : ChannelSettings)
      (w : Material),
      (routeChannel host props bsdf nm o s w).countKind k = w.countKind k :=
    fun nm o s w => routeChannel_countKind host props bsdf nm o s w k h1 h2 h3 h4
  simp [step]

theorem routeChannel4_isLinked_BC (host : Host) (props : EPMProps) (bsdf : Nat)
    (o1 o2 o3 o4 : Nat × String) (z : Material) :
    (routeChannel host props bsdf "A" o4 props.channel_a
        (routeChannel host props bsdf "B" o3 props.channel_b
          (routeChannel host props bsdf "G" o2 props.channel_g
            (routeChannel host props bsdf "R" o1 props.channel_r
              z)))).isLinked bsdf "Base Color" =
      z.isLinked bsdf "Base Color" := by
  have step : ∀ (nm : String) (o : Nat × String) (s : ChannelSettings)
      (w : Material),
      (routeChannel host props bsdf nm o s w).isLinked bsdf "Base Color" =
        w.isLinked bsdf "Base Color" :=
    fun nm o s w => routeChannel_isLinked_BC host props bsdf nm o s w
  simp [step]

theorem routeChannel4_length (host : Host) (props : EPMProps) (bsdf : Nat)
    (o1 o2 o3 o4 : Nat × String) (z : Material) :
    z.nodes.length ≤
      (routeChannel host props bsdf "A" o4 props.channel_a
        (routeChannel host props bsdf "B" o3 props.channel_b
          (routeChannel host props bsdf "G" o2 props.channel_g
            (routeChannel host props bsdf "R" o1 props.channel_r
              z)))).nodes.length := by
  have l1 := routeChannel_length host props bsdf "R" o1 props.channel_r z
  have l2 := routeChannel_length host props bsdf "G" o2 props.channel_g
    (routeChannel host props bsdf "R" o1 props.channel_r z)
  have l3 := routeChannel_length host props bsdf "B" o3 props.channel_b
    (routeChannel host props bsdf "G" o2 props.channel_g
      (routeChannel host props bsdf "R" o1 props.channel_r z))
  have l4 := routeChannel_length host props bsdf "A" o4 props.channel_a
    (routeChannel host props bsdf "B" o3 props.channel_b
      (routeChannel host props bsdf "G" o2 props.channel_g
        (routeChannel host props bsdf "R" o1 props.channel_r z)))
  omega

theorem routeChannel4_link_preserved (host : Host) (props : EPMProps)
    (bsdf : Nat) (o1 o2 o3 o4 : Nat × String) (z : Material) (l : Link)
    (hl : l ∈ z.links) (h1 : l.toNode ≠ bsdf) (h2a : l.toSocket ≠ "Height")
    (h2b : l.toSocket ≠ "Displacement") (h2c : l.toSocket ≠ "Color")
    (h3 : l.toNode < z.nodes.length) :
    l ∈ (routeChannel host props bsdf "A" o4 props.channel_a
        (routeChannel host props bsdf "B" o3 props.channel_b
          (routeChannel host props bsdf "G" o2 props.channel_g
            (routeChannel host props bsdf "R" o1 props.channel_r
              z)))).links := by
  have l1 := routeChannel_length host props bsdf "R" o1 props.channel_r z
  have l2 := routeChannel_length host props bsdf "G" o2 props.channel_g
    (routeChannel host props bsdf "R" o1 props.channel_r z)
  have l3 := routeChannel_length host props bsdf "B" o3 props.channel_b
    (routeChannel host props bsdf "G" o2 props.channel_g
      (routeChannel host props bsdf "R" o1 props.channel_r z))
  exact routeChannel_link_preserved _ _ _ _ _ _ _ _
    (routeChannel_link_preserved _ _ _ _ _ _ _ _
      (routeChannel_link_preserved _ _ _ _ _ _ _ _
        (routeChannel_link_preserved _ _ _ _ _ _ _ _ hl h1 h2a h2b h2c h3)
        h1 h2a h2b h2c (by omega))
      h1 h2a h2b h2c (by omega))
    h1 h2a h2b h2c (by omega)

theorem routeChannel4_noFrom (host : Host) (props : EPMProps) (bsdf : Nat)
    (o1 o2 o3 o4 : Nat × String) (z : Material) (j : Nat)
    (hj : j < z.nodes.length) (hc1 : o1.1 ≠ j) (hc2 : o2.1 ≠ j)
    (hc3 : o3.1 ≠ j) (hc4 : o4.1 ≠ j)
    (h : ∀ l ∈ z.links, l.fromNode ≠ j) :
    ∀ l ∈ (routeChannel host props bsdf "A" o4 props.channel_a
        (routeChannel host props bsdf "B" o3 props.channel_b
          (routeChannel host props bsdf "G" o2 props.channel_g
            (routeChannel host props bsdf "R" o1 props.channel_r
              z)))).links, l.fromNode ≠ j := by
  have l1 := routeChannel_length host props bsdf "R" o1 props.channel_r z
  have l2 := routeChannel_length host props bsdf "G" o2 props.channel_g
    (routeChannel host props bsdf "R" o1 props.channel_r z)
  have l3 := routeChannel_length host props bsdf "B" o3 props.channel_b
    (routeChannel host props bsdf "G" o2 props.channel_g
      (routeChannel host props bsdf "R" o1 props.channel_r z))
  exact routeChannel_noFrom _ _ _ _ _ _ _ _ (by omega) hc4
    (routeChannel_noFrom _ _ _ _ _ _ _ _ (by omega) hc3
      (routeChannel_noFrom _ _ _ _ _ _ _ _ (by omega) hc2
        (routeChannel_noFrom _ _ _ _ _ _ _ _ hj hc1 h)))

theorem routeChannel4_noVec (host : Host) (props : EPMProps) (bsdf : Nat)
    (o1 o2 o3 o4 : Nat × String) (z : Material)
    (h : ∀ l ∈ z.links, l.toSocket ≠ "Vector") :
    ∀ l ∈ (routeChannel host props bsdf "A" o4 props.channel_a
        (routeChannel host props bsdf "B" o3 props.channel_b
          (routeChannel host props bsdf "G" o2 props.channel_g
            (routeChannel host props bsdf "R" o1 props.channel_r
              z)))).links, l.toSocket ≠ "Vector" :=
  routeChannel_noVec _ _ _ _ _ _ _
    (routeChannel_noVec _ _ _ _ _ _ _
      (routeChannel_noVec _ _ _ _ _ _ _
        (routeChannel_noVec _ _ _ _ _ _ _ h)))

theorem packedStage_dispCount (host : Host) (props : EPMProps) (bsdf : Nat)
    (mapOpt : Option Nat) (st : Material) (h0 : dispCount st = 0)
    (hn : st.nodesGet "Displacement" = Option.none) :
    dispCount (packedStage host props bsdf mapOpt st) =
      (if props.packed_image.isSome = true ∧ anyDisp props = true then 1
       else 0) := by
  cases hp : props.packed_image with
  | none => simp [packedStage, hp, h0]
  | some img =>
    have hite : (if (some img).isSome = true ∧ anyDisp props = true
          then (1 : Nat) else 0) =
        (if anyDisp props = true then 1 else 0) := by
      simp
    rw [hite]
    simp only [packedStage, hp]
    have hsepC : ∀ z : Material,
        (create_separate_color_node host z).2.countKind NodeKind.displacement =
          z.countKind NodeKind.displacement :=
      fun z => create_separate_color_node_countKind host z _ (by decide)
        (by decide)
    have hsepG : ∀ z : Material,
        (create_separate_color_node host z).2.nodesGet "Displacement" =
          z.nodesGet "Displacement" :=
      fun z => create_separate_color_node_nodesGet host z _ (by decide)
        (by decide)
    have htexG : ∀ (z : Material) (lbl : String),
        (z.newNode NodeKind.texImage lbl).2.nodesGet "Displacement" =
          z.nodesGet "Displacement" :=
      fun z lbl => Material.nodesGet_newNode_ne z _ lbl "Displacement"
        (by decide)
    cases mapOpt with
    | none =>
      rw [routeChannel4_dispCount]
      · simpa [dispCount, hsepC] using h0
      · simpa [Material.nodesGet_linksNew, Material.nodesGet_setAttr,
          Material.nodesGet_setImageColorspace, hsepG, htexG] using hn
    | some m =>
      rw [routeChannel4_dispCount]
      · simpa [dispCount, hsepC] using h0
      · simpa [Material.nodesGet_linksNew, Material.nodesGet_setAttr,
          Material.nodesGet_setImageColorspace, hsepG, htexG] using hn

theorem packedStage_mixCount (host : Host) (props : EPMProps) (bsdf : Nat)
    (mapOpt : Option Nat) (st : Material) :
    mixCount (packedStage host props bsdf mapOpt st) =
      mixCount st +
        (if props.packed_image.isSome = true ∧ "Base Color" ∈ host.bsdfInputs ∧
            st.isLinked bsdf "Base Color" = true then aoCount props
         else 0) := by
  cases hp : props.packed_image with
  | none => simp [packedStage, hp]
  | some img =>
    have hite : (if (some img).isSome = true ∧
            "Base Color" ∈ host.bsdfInputs ∧
            st.isLinked bsdf "Base Color" = true then aoCount props else 0) =
        (if "Base Color" ∈ host.bsdfInputs ∧
            st.isLinked bsdf "Base Color" = true then aoCount props
         else 0) := by
      simp
    rw [hite]
    simp only [packedStage, hp]
    have hsepC1 : ∀ z : Material,
        (create_separate_color_node host z).2.countKind NodeKind.mix =
          z.countKind NodeKind.mix :=
      fun z => create_separate_color_node_countKind host z _ (by decide)
        (by decide)
    have hsepC2 : ∀ z : Material,
        (create_separate_color_node host z).2.countKind NodeKind.mixRGB =
          z.countKind NodeKind.mixRGB :=
      fun z => create_separate_color_node_countKind host z _ (by decide)
        (by decide)
    have hsepIL : ∀ z : Material,
        (create_separate_color_node host z).2.isLinked bsdf "Base Color" =
          z.isLinked bsdf "Base Color" := by
      intro z
      simp [Material.isLinked, Material.linkInto]
    have hnv : ∀ (z : Material) (f t : Nat),
        (z.linksNew f "Vector" t "Vector").isLinked bsdf "Base Color" =
          z.isLinked bsdf "Base Color" :=
      fun z f t => Material.isLinked_linksNew_ne_socket z f t bsdf "Vector"
        "Vector" "Base Color" (by decide)
    have hnc : ∀ (z : Material) (f t : Nat),
        (z.linksNew f "Color" t (separateColorInput0 host)).isLinked bsdf
            "Base Color" =
          z.isLinked bsdf "Base Color" :=
      fun z f t => Material.isLinked_linksNew_ne_socket z f t bsdf "Color"
        (separateColorInput0 host) "Base Color"
        (by cases h : host.v34plus <;> simp [separateColorInput0, h])
    cases mapOpt with
    | none =>
      rw [routeChannel4_mixCount]
      simp [mixCount, hsepC1, hsepC2, hsepIL, hnv, hnc,
        Material.isLinked_setAttr, Material.isLinked_setImageColorspace,
        Material.isLinked_newNode]
    | some m =>
      rw [routeChannel4_mixCount]
      simp [mixCount, hsepC1, hsepC2, hsepIL, hnv, hnc,
        Material.isLinked_setAttr, Material.isLinked_setImageColorspace,
        Material.isLinked_newNode]

theorem packedStage_countKind (host : Host) (props : EPMProps) (bsdf : Nat)
    (mapOpt : Option Nat) (st : Material) (k : NodeKind)
    (h1 : k ≠ NodeKind.mix) (h2 : k ≠ NodeKind.mixRGB)
    (h3 : k ≠ NodeKind.displacement) (h4 : k ≠ NodeKind.invert)
    (h5 : k ≠ NodeKind.texImage) (h6 : k ≠ NodeKind.separateColor)
    (h7 : k ≠ NodeKind.separateRGB) :
    (packedStage host props bsdf mapOpt st).countKind k = st.countKind k := by
  cases hp : props.packed_image with
  | none => simp [packedStage, hp]
  | some img =>
    simp only [packedStage, hp]
    have step : ∀ (nm : String) (o : Nat × String) (s : ChannelSettings)
        (w : Material),
        (routeChannel host props bsdf nm o s w).countKind k = w.countKind k :=
      fun nm o s w => routeChannel_countKind host props bsdf nm o s w k h1 h2
        h3 h4
    have hsepC : ∀ z : Material,
        (create_separate_color_node host z).2.countKind k = z.countKind k :=
      fun z => create_separate_color_node_countKind host z k h6 h7
    have h5' : ¬(NodeKind.texImage = k) := fun hx => h5 hx.symm
    cases mapOpt <;> simp [step, hsepC, h5']

theorem packedStage_isLinked_BC (host : Host) (props : EPMProps) (bsdf : Nat)
    (mapOpt : Option Nat) (st : Material) :
    (packedStage host props bsdf mapOpt st).isLinked bsdf "Base Color" =
      st.isLinked bsdf "Base Color" := by
  cases hp : props.packed_image with
  | none => simp [packedStage, hp]
  | some img =>
    simp only [packedStage, hp]
    have hsepIL : ∀ z : Material,
        (create_separate_color_node host z).2.isLinked bsdf "Base Color" =
          z.isLinked bsdf "Base Color" := by
      intro z
      simp [Material.isLinked, Material.linkInto]
    have hnv : ∀ (z : Material) (f t : Nat),
        (z.linksNew f "Vector" t "Vector").isLinked bsdf "Base Color" =
          z.isLinked bsdf "Base Color" :=
      fun z f t => Material.isLinked_linksNew_ne_socket z f t bsdf "Vector"
        "Vector" "Base Color" (by decide)
    have hnc : ∀ (z : Material) (f t : Nat),
        (z.linksNew f "Color" t (separateColorInput0 host)).isLinked bsdf
            "Base Color" =
          z.isLinked bsdf "Base Color" :=
      fun z f t => Material.isLinked_linksNew_ne_socket z f t bsdf "Color"
        (separateColorInput0 host) "Base Color"
        (by cases h : host.v34plus <;> simp [separateColorInput0, h])
    cases mapOpt <;>
      simp [routeChannel4_isLinked_BC, hsepIL, hnv, hnc,
        Material.isLinked_setAttr, Material.isLinked_setImageColorspace,
        Material.isLinked_newNode]

theorem packedStage_length (host : Host) (props : EPMProps) (bsdf : Nat)
    (mapOpt : Option Nat) (st : Material) :
    st.nodes.length ≤ (packedStage host props bsdf mapOpt st).nodes.length := by
  cases hp : props.packed_image with
  | none => simp [packedStage, hp]
  | some img =>
    simp only [packedStage, hp]
    cases mapOpt with
    | none =>
      refine le_trans ?_ (routeChannel4_length host props bsdf _ _ _ _ _)
      simp only [create_separate_color_node_length, Material.linksNew_nodes,
        Material.setAttr_nodes, Material.setImageColorspace_nodes,
        Material.newNode_snd_nodes, List.length_append, List.length_singleton]
      omega
    | some m =>
      refine le_trans ?_ (routeChannel4_length host props bsdf _ _ _ _ _)
      simp only [create_separate_color_node_length, Material.linksNew_nodes,
        Material.setAttr_nodes, Material.setImageColorspace_nodes,
        Material.newNode_snd_nodes, List.length_append, List.length_singleton]
      omega

theorem packedStage_link_preserved (host : Host) (props : EPMProps)
    (bsdf : Nat) (mapOpt : Option Nat) (st : Material) (l : Link)
    (hl : l ∈ st.links) (h1 : l.toNode ≠ bsdf) (h2a : l.toSocket ≠ "Height")
    (h2b : l.toSocket ≠ "Displacement") (h2c : l.toSocket ≠ "Color")
    (h3 : l.toNode < st.nodes.length) :
    l ∈ (packedStage host props bsdf mapOpt st).links := by
  have e1 : ¬(l.toNode = st.nodes.length) := by omega
  have e2 : ¬(l.toNode = st.nodes.length + 1) := by omega
  have e3 : ¬(l.toNode = st.nodes.length + 1 + 1) := by omega
  have e3' : ¬(l.toNode = st.nodes.length + 2) := by omega
  cases hp : props.packed_image with
  | none => simpa [packedStage, hp] using hl
  | some img =>
    simp only [packedStage, hp]
    cases mapOpt with
    | none =>
      refine routeChannel4_link_preserved _ _ _ _ _ _ _ _ _ ?_ h1 h2a h2b h2c
        ?_
      · simp [Material.mem_linksNew, create_separate_color_node_fst_id,
          create_separate_color_node_links, create_separate_color_node_length,
          hl, e1, e2, e3, e3']
      · simp only [create_separate_color_node_length, Material.linksNew_nodes,
          Material.setAttr_nodes, Material.setImageColorspace_nodes,
          Material.newNode_snd_nodes, List.length_append,
          List.length_singleton]
        omega
    | some m =>
      refine routeChannel4_link_preserved _ _ _ _ _ _ _ _ _ ?_ h1 h2a h2b h2c
        ?_
      · simp [Material.mem_linksNew, create_separate_color_node_fst_id,
          create_separate_color_node_links, create_separate_color_node_length,
          Material.newNode_fst, hl, e1, e2, e3, e3']
      · simp only [create_separate_color_node_length, Material.linksNew_nodes,
          Material.setAttr_nodes, Material.setImageColorspace_nodes,
          Material.newNode_snd_nodes, List.length_append,
          List.length_singleton]
        omega

theorem packedStage_noFrom (host : Host) (props : EPMProps) (bsdf : Nat)
    (mapOpt : Option Nat) (st : Material) (j : Nat) (hj : j < st.nodes.length)
    (hm : ∀ m, mapOpt = some m → m ≠ j)
    (h : ∀ l ∈ st.links, l.fromNode ≠ j) :
    ∀ l ∈ (packedStage host props bsdf mapOpt st).links, l.fromNode ≠ j := by
  cases hp : props.packed_image with
  | none => simpa [packedStage, hp] using h
  | some img =>
    simp only [packedStage, hp]
    cases mapOpt with
    | none =>
      refine routeChannel4_noFrom _ _ _ _ _ _ _ _ _ ?_ ?_ ?_ ?_ ?_ ?_
      · simp only [create_separate_color_node_length, Material.linksNew_nodes,
          Material.setAttr_nodes, Material.setImageColorspace_nodes,
          Material.newNode_snd_nodes, List.length_append,
          List.length_singleton]
        omega
      · simp only [create_separate_color_node_fst_id, Material.linksNew_nodes,
          Material.setAttr_nodes, Material.setImageColorspace_nodes,
          Material.newNode_snd_nodes, List.length_append,
          List.length_singleton]
        omega
      · simp only [create_separate_color_node_fst_id, Material.linksNew_nodes,
          Material.setAttr_nodes, Material.setImageColorspace_nodes,
          Material.newNode_snd_nodes, List.length_append,
          List.length_singleton]
        omega
      · simp only [create_separate_color_node_fst_id, Material.linksNew_nodes,
          Material.setAttr_nodes, Material.setImageColorspace_nodes,
          Material.newNode_snd_nodes, List.length_append,
          List.length_singleton]
        omega
      · simp only [Material.newNode_fst]
        omega
      · intro l hl'
        simp only [Material.mem_linksNew, Material.setAttr_links,
          Material.setDefault_links, Material.setImageColorspace_links,
          Material.newNode_snd_links, create_separate_color_node_links,
          create_separate_color_node_fst_id, Material.newNode_fst] at hl'
        repeat'
          first
          | exact h l hl'
          | (replace hl' := hl'.1)
          | (rcases hl' with hl' | rfl)
        all_goals
          simp
          omega
    | some m =>
      refine routeChannel4_noFrom _ _ _ _ _ _ _ _ _ ?_ ?_ ?_ ?_ ?_ ?_
      · simp only [create_separate_color_node_length, Material.linksNew_nodes,
          Material.setAttr_nodes, Material.setImageColorspace_nodes,
          Material.newNode_snd_nodes, List.length_append,
          List.length_singleton]
        omega
      · simp only [create_separate_color_node_fst_id, Material.linksNew_nodes,
          Material.setAttr_nodes, Material.setImageColorspace_nodes,
          Material.newNode_snd_nodes, List.length_append,
          List.length_singleton]
        omega
      · simp only [create_separate_color_node_fst_id, Material.linksNew_nodes,
          Material.setAttr_nodes, Material.setImageColorspace_nodes,
          Material.newNode_snd_nodes, List.length_append,
          List.length_singleton]
        omega
      · simp only [create_separate_color_node_fst_id, Material.linksNew_nodes,
          Material.setAttr_nodes, Material.setImageColorspace_nodes,
          Material.newNode_snd_nodes, List.length_append,
          List.length_singleton]
        omega
      · simp only [Material.newNode_fst]
        omega
      · intro l hl'
        simp only [Material.mem_linksNew, Material.setAttr_links,
          Material.setDefault_links, Material.setImageColorspace_links,
          Material.newNode_snd_links, create_separate_color_node_links,
          create_separate_color_node_fst_id, Material.newNode_fst] at hl'
        repeat'
          first
          | exact h l hl'
          | (replace hl' := hl'.1)
          | (rcases hl' with hl' | rfl)
        all_goals
          first
          | (simp
             omega)
          | (intro hcon
             exact hm _ rfl hcon)

theorem packedStage_noVec (host : Host) (props : EPMProps) (bsdf : Nat)
    (st : Material) (h : ∀ l ∈ st.links, l.toSocket ≠ "Vector") :
    ∀ l ∈ (packedStage host props bsdf Option.none st).links,
      l.toSocket ≠ "Vector" := by
  cases hp : props.packed_image with
  | none => simpa [packedStage, hp] using h
  | some img =>
    have hin0 : ¬(separateColorInput0 host = "Vector") := by
      cases hv : host.v34plus <;> simp [separateColorInput0, hv]
    simp only [packedStage, hp]
    refine routeChannel4_noVec _ _ _ _ _ _ _ _ ?_
    intro l hl'
    simp only [Material.mem_linksNew, Material.setAttr_links,
      Material.setDefault_links, Material.setImageColorspace_links,
      Material.newNode_snd_links, create_separate_color_node_links] at hl'
    repeat'
      first
      | exact h l hl'
      | (replace hl' := hl'.1)
      | (rcases hl' with hl' | rfl)
    all_goals exact hin0

theorem displacementStage_dispCount (props : EPMProps) (outId : Nat)
    (mapOpt : Option Nat) (st : Material) :
    dispCount (displacementStage props outId mapOpt st) =
      dispCount st +
        (if props.use_displacement = true ∧
            props.displacement_image.isSome = true then 1 else 0) := by
  unfold displacementStage
  by_cases hu : props.use_displacement = true
  · simp only [hu, if_true]
    cases hd : props.displacement_image with
    | none => simp
    | some img => cases mapOpt <;> simp [dispCount]
  · rw [Bool.not_eq_true] at hu
    simp [hu]

theorem displacementStage_countKind (props : EPMProps) (outId : Nat)
    (mapOpt : Option Nat) (st : Material) (k : NodeKind)
    (h1 : k ≠ NodeKind.texImage) (h2 : k ≠ NodeKind.displacement) :
    (displacementStage props outId mapOpt st).countKind k = st.countKind k := by
  have h1' : ¬(NodeKind.texImage = k) := fun hx => h1 hx.symm
  have h2' : ¬(NodeKind.displacement = k) := fun hx => h2 hx.symm
  unfold displacementStage
  by_cases hu : props.use_displacement = true
  · simp only [hu, if_true]
    cases hd : props.displacement_image with
    | none => simp
    | some img => cases mapOpt <;> simp [h1', h2']
  · rw [Bool.not_eq_true] at hu
    simp [hu]

theorem displacementStage_length (props : EPMProps) (outId : Nat)
    (mapOpt : Option Nat) (st : Material) :
    st.nodes.length ≤
      (displacementStage props outId mapOpt st).nodes.length := by
  unfold displacementStage
  by_cases hu : props.use_displacement = true
  · simp only [hu, if_true]
    cases hd : props.displacement_image with
    | none => simp
    | some img => cases mapOpt <;> simp
  · rw [Bool.not_eq_true] at hu
    simp [hu]

theorem displacementStage_isLinked_BC (props : EPMProps) (outId : Nat)
    (mapOpt : Option Nat) (st : Material) (bsdf : Nat) :
    (displacementStage props outId mapOpt st).isLinked bsdf "Base Color" =
      st.isLinked bsdf "Base Color" := by
  have hnv : ∀ (z : Material) (f t : Nat),
      (z.linksNew f "Vector" t "Vector").isLinked bsdf "Base Color" =
        z.isLinked bsdf "Base Color" :=
    fun z f t => Material.isLinked_linksNew_ne_socket z f t bsdf "Vector"
      "Vector" "Base Color" (by decide)
  have hnh2 : ∀ (z : Material) (f t : Nat) (fs : String),
      (z.linksNew f fs t "Height").isLinked bsdf "Base Color" =
        z.isLinked bsdf "Base Color" :=
    fun z f t fs => Material.isLinked_linksNew_ne_socket z f t bsdf fs
      "Height" "Base Color" (by decide)
  have hnd : ∀ (z : Material) (f t : Nat) (fs : String),
      (z.linksNew f fs t "Displacement").isLinked bsdf "Base Color" =
        z.isLinked bsdf "Base Color" :=
    fun z f t fs => Material.isLinked_linksNew_ne_socket z f t bsdf fs
      "Displacement" "Base Color" (by decide)
  unfold displacementStage
  by_cases hu : props.use_displacement = true
  · simp only [hu, if_true]
    cases hd : props.displacement_image with
    | none => simp
    | some img =>
      cases mapOpt <;>
        simp [hnv, hnh2, hnd, Material.setDispMethodBoth_isLinked,
          Material.isLinked_setAttr, Material.isLinked_setDefault,
          Material.isLinked_setImageColorspace, Material.isLinked_newNode]
  · rw [Bool.not_eq_true] at hu
    simp [hu]

theorem displacementStage_link_preserved (props : EPMProps) (outId : Nat)
    (mapOpt : Option Nat) (st : Material) (l : Link) (hl : l ∈ st.links)
    (h2b : l.toSocket ≠ "Displacement") (h3 : l.toNode < st.nodes.length) :
    l ∈ (displacementStage props outId mapOpt st).links := by
  have e1 : ¬(l.toNode = st.nodes.length) := by omega
  have e2 : ¬(l.toNode = st.nodes.length + 1) := by omega
  unfold displacementStage
  by_cases hu : props.use_displacement = true
  · simp only [hu, if_true]
    cases hd : props.displacement_image with
    | none => simpa using hl
    | some img =>
      cases mapOpt <;>
        simp [Material.mem_linksNew, Material.setDispMethodBoth_links,
          Material.newNode_fst, hl, h2b, e1, e2]
  · rw [Bool.not_eq_true] at hu
    simpa [hu] using hl

theorem displacementStage_noFrom (props : EPMProps) (outId : Nat)
    (mapOpt : Option Nat) (st : Material) (j : Nat)
    (hj : j < st.nodes.length) (hm : ∀ m, mapOpt = some m → m ≠ j)
    (h : ∀ l ∈ st.links, l.fromNode ≠ j) :
    ∀ l ∈ (displacementStage props outId mapOpt st).links, l.fromNode ≠ j := by
  unfold displacementStage
  by_cases hu : props.use_displacement = true
  · simp only [hu, if_true]
    cases hd : props.displacement_image with
    | none => simpa using h
    | some img =>
      cases mapOpt <;>
        · intro l hl'
          simp only [Material.mem_linksNew, Material.setAttr_links,
            Material.setDefault_links, Material.setImageColorspace_links,
            Material.newNode_snd_links, Material.setDispMethodBoth_links,
            Material.newNode_fst] at hl'
          repeat'
            first
            | exact h l hl'
            | (replace hl' := hl'.1)
            | (rcases hl' with hl' | rfl)
          all_goals
            first
            | (simp
               omega)
            | (intro hcon
               exact hm _ rfl hcon)
  · rw [Bool.not_eq_true] at hu
    simpa [hu] using h

theorem displacementStage_noVec (props : EPMProps) (outId : Nat)
    (st : Material) (h : ∀ l ∈ st.links, l.toSocket ≠ "Vector") :
    ∀ l ∈ (displacementStage props outId Option.none st).links,
      l.toSocket ≠ "Vector" := by
  unfold displacementStage
  by_cases hu : props.use_displacement = true
  · simp only [hu, if_true]
    cases hd : props.displacement_image with
    | none => simpa using h
    | some img =>
      intro l hl'
      simp only [Material.mem_linksNew, Material.setAttr_links,
        Material.setDefault_links, Material.setImageColorspace_links,
        Material.newNode_snd_links, Material.setDispMethodBoth_links] at hl'
      repeat'
        first
        | exact h l hl'
        | (replace hl' := hl'.1)
        | (rcases hl' with hl' | rfl)
      all_goals simp
  · rw [Bool.not_eq_true] at hu
    simpa [hu] using h

theorem settingsStage_nodes (props : EPMProps) (st : Material) :
    (settingsStage props st).nodes = st.nodes := by
  unfold settingsStage
  split <;> rfl

theorem settingsStage_links (props : EPMProps) (st : Material) :
    (settingsStage props st).links = st.links := by
  unfold settingsStage
  split <;> rfl

theorem settingsStage_countKind (props : EPMProps) (st : Material)
    (k : NodeKind) : (settingsStage props st).countKind k = st.countKind k := by
  unfold settingsStage
  split <;> rfl

/-- C1 (amended): the number of displacement-construction nodes in a built
graph is the sum of an indicator for the packed-channel displacement path
(packed image present and some channel slot set to displacement usage) and an
indicator for the dedicated displacement path (`use_displacement` set and a
displacement image present).  The packed path reuses one node across all four
slots, but the dedicated path creates its node unconditionally, so when both
paths fire the graph holds two displacement nodes, not at most one. -/
theorem execute_displacement_node_count (host : Host) (props : EPMProps) :
    dispCount (execute host props) =
      (if props.packed_image.isSome = true ∧ anyDisp props = true then 1
       else 0) +
      (if props.use_displacement = true ∧
          props.displacement_image.isSome = true then 1 else 0) := by
  have hs : ∀ z : Material, dispCount (settingsStage props z) = dispCount z :=
    fun z => settingsStage_countKind props z NodeKind.displacement
  simp only [execute]
  rw [hs, displacementStage_dispCount, packedStage_dispCount]
  · have hEm : ∀ (b : Nat) (m : Option Nat) (z : Material),
        (emissionStage host props b m z).countKind NodeKind.displacement =
          z.countKind NodeKind.displacement :=
      fun b m z => emissionStage_countKind host props b m z _ (by decide)
    have hNm : ∀ (b : Nat) (m : Option Nat) (z : Material),
        (normalStage host props b m z).countKind NodeKind.displacement =
          z.countKind NodeKind.displacement :=
      fun b m z => normalStage_countKind host props b m z _ (by decide)
        (by decide) (by decide) (by decide) (by decide) (by decide) (by decide)
    have hCl : ∀ (b : Nat) (m : Option Nat) (z : Material),
        (colorStage host props b m z).countKind NodeKind.displacement =
          z.countKind NodeKind.displacement :=
      fun b m z => colorStage_countKind host props b m z _ (by decide)
    have hCo : ∀ z : Material,
        (coordStage props z).2.countKind NodeKind.displacement =
          z.countKind NodeKind.displacement :=
      fun z => coordStage_countKind props z _ (by decide) (by decide)
        (by decide)
    simp only [dispCount, hEm, hNm, hCl, hCo]
    simp [Material.countKind_linksNew, emptyMaterial, Material.countKind]
  · have hEmG : ∀ (b : Nat) (m : Option Nat) (z : Material),
        (emissionStage host props b m z).nodesGet "Displacement" =
          z.nodesGet "Displacement" :=
      fun b m z => emissionStage_nodesGet_disp host props b m z
    have hNmG : ∀ (b : Nat) (m : Option Nat) (z : Material),
        (normalStage host props b m z).nodesGet "Displacement" =
          z.nodesGet "Displacement" :=
      fun b m z => normalStage_nodesGet_disp host props b m z
    have hClG : ∀ (b : Nat) (m : Option Nat) (z : Material),
        (colorStage host props b m z).nodesGet "Displacement" =
          z.nodesGet "Displacement" :=
      fun b m z => colorStage_nodesGet_disp host props b m z
    have hCoG : ∀ z : Material,
        (coordStage props z).2.nodesGet "Displacement" =
          z.nodesGet "Displacement" :=
      fun z => coordStage_nodesGet_disp props z
    have hb : ∀ (z : Material) (lbl : String),
        (z.newNode NodeKind.bsdfPrincipled lbl).2.nodesGet "Displacement" =
          z.nodesGet "Displacement" :=
      fun z lbl => Material.nodesGet_newNode_ne z _ lbl "Displacement"
        (by decide)
    have ho : ∀ (z : Material) (lbl : String),
        (z.newNode NodeKind.outputMaterial lbl).2.nodesGet "Displacement" =
          z.nodesGet "Displacement" :=
      fun z lbl => Material.nodesGet_newNode_ne z _ lbl "Displacement"
        (by decide)
    simp only [hEmG, hNmG, hClG, hCoG, Material.nodesGet_linksNew, hb, ho]
    simp [emptyMaterial, Material.nodesGet]

/-- C3 (amended): AO routing is not single-application.  Each packed channel
slot tagged ambient-occlusion that finds the Base Color input linked splices
in its own multiply-mix node, so a built graph holds one mix node per
AO-tagged slot (when a packed image is present, the host's shading node has a
Base Color input and a colour image was wired there), not at most one. -/
theorem execute_ao_mix_count (host : Host) (props : EPMProps) :
    mixCount (execute host props) =
      (if props.packed_image.isSome = true ∧ "Base Color" ∈ host.bsdfInputs ∧
          props.col_image.isSome = true then aoCount props else 0) := by
  have hs : ∀ z : Material, mixCount (settingsStage props z) = mixCount z := by
    intro z
    simp [mixCount, settingsStage_countKind]
  have hD : ∀ (o : Nat) (m : Option Nat) (z : Material),
      mixCount (displacementStage props o m z) = mixCount z := by
    intro o m z
    simp [mixCount,
      displacementStage_countKind props o m z NodeKind.mix (by decide)
        (by decide),
      displacementStage_countKind props o m z NodeKind.mixRGB (by decide)
        (by decide)]
  simp only [execute]
  rw [hs, hD, packedStage_mixCount]
  have hm1 : ∀ (b : Nat) (m : Option Nat) (z : Material),
      mixCount (emissionStage host props b m z) = mixCount z := by
    intro b m z
    simp [mixCount,
      emissionStage_countKind host props b m z NodeKind.mix (by decide),
      emissionStage_countKind host props b m z NodeKind.mixRGB (by decide)]
  have hm2 : ∀ (b : Nat) (m : Option Nat) (z : Material),
      mixCount (normalStage host props b m z) = mixCount z := by
    intro b m z
    simp [mixCount,
      normalStage_countKind host props b m z NodeKind.mix (by decide)
        (by decide) (by decide) (by decide) (by decide) (by decide)
        (by decide),
      normalStage_countKind host props b m z NodeKind.mixRGB (by decide)
        (by decide) (by decide) (by decide) (by decide) (by decide)
        (by decide)]
  have hm3 : ∀ (b : Nat) (m : Option Nat) (z : Material),
      mixCount (colorStage host props b m z) = mixCount z := by
    intro b m z
    simp [mixCount,
      colorStage_countKind host props b m z NodeKind.mix (by decide),
      colorStage_countKind host props b m z NodeKind.mixRGB (by decide)]
  have hm4 : ∀ z : Material, mixCount ((coordStage props z).2) = mixCount z := by
    intro z
    simp [mixCount,
      coordStage_countKind props z NodeKind.mix (by decide) (by decide)
        (by decide),
      coordStage_countKind props z NodeKind.mixRGB (by decide) (by decide)
        (by decide)]
  have hi1 : ∀ (b : Nat) (m : Option Nat) (z : Material),
      (emissionStage host props b m z).isLinked b "Base Color" =
        z.isLinked b "Base Color" :=
    fun b m z => emissionStage_isLinked_BC host props b m z
  have hi2 : ∀ (b : Nat) (m : Option Nat) (z : Material),
      (normalStage host props b m z).isLinked b "Base Color" =
        z.isLinked b "Base Color" :=
    fun b m z => normalStage_isLinked_BC host props b m z
  have hi3 : ∀ (b : Nat) (m : Option Nat) (z : Material),
      (colorStage host props b m z).isLinked b "Base Color" =
        (props.col_image.isSome || z.isLinked b "Base Color") :=
    fun b m z => colorStage_isLinked_BC host props b m z
  have hi4 : ∀ (b : Nat) (z : Material),
      ((coordStage props z).2).isLinked b "Base Color" =
        z.isLinked b "Base Color" :=
    fun b z => coordStage_isLinked_BC props z b
  simp only [hm1, hm2, hm3, hm4, hi1, hi2, hi3, hi4]
  simp [mixCount, Material.countKind_linksNew, emptyMaterial,
    Material.countKind, Material.isLinked, Material.linkInto,
    Material.linksNew]

theorem coordStage_uv_named (props : EPMProps) (st : Material)
    (h1 : props.texcoord_type = TexCoordType.uv) (h2 : props.uv_map_name ≠ "") :
    coordStage props st =
      (some (st.nodes.length + 1),
       ((((st.newNode NodeKind.texCoord "Texture Coordinate").2.newNode
             NodeKind.mapping "Mapping").2.newNode NodeKind.uvMap
             "UV Map").2.setAttr (st.nodes.length + 2) "uv_map"
           (.str props.uv_map_name)).linksNew (st.nodes.length + 2) "UV"
         (st.nodes.length + 1) "Vector") := by
  simp [coordStage, h1, h2, Material.newNode_fst]

theorem tail_countKind (host : Host) (props : EPMProps) (mo : Option Nat)
    (z : Material) (k : NodeKind) (h1 : k ≠ NodeKind.mix)
    (h2 : k ≠ NodeKind.mixRGB) (h3 : k ≠ NodeKind.displacement)
    (h4 : k ≠ NodeKind.invert) (h5 : k ≠ NodeKind.texImage)
    (h6 : k ≠ NodeKind.separateColor) (h7 : k ≠ NodeKind.separateRGB)
    (h8 : k ≠ NodeKind.normalMap) (h9 : k ≠ NodeKind.combineColor)
    (h10 : k ≠ NodeKind.combineRGB) :
    (settingsStage props (displacementStage props 1 mo
        (packedStage host props 0 mo (emissionStage host props 0 mo
          (normalStage host props 0 mo
            (colorStage host props 0 mo z)))))).countKind k =
      z.countKind k := by
  rw [settingsStage_countKind,
    displacementStage_countKind props 1 mo _ k h5 h3,
    packedStage_countKind host props 0 mo _ k h1 h2 h3 h4 h5 h6 h7,
    emissionStage_countKind host props 0 mo _ k h5,
    normalStage_countKind host props 0 mo _ k h5 h8 h6 h7 h9 h10 h4,
    colorStage_countKind host props 0 mo z k h5]

theorem tail_link_preserved (host : Host) (props : EPMProps) (mo : Option Nat)
    (z : Material) (l : Link) (hl : l ∈ z.links) (h1 : l.toNode ≠ 0)
    (h2a : l.toSocket ≠ "Height") (h2b : l.toSocket ≠ "Displacement")
    (h2c : l.toSocket ≠ "Color") (h3 : l.toNode < z.nodes.length) :
    l ∈ (settingsStage props (displacementStage props 1 mo
        (packedStage host props 0 mo (emissionStage host props 0 mo
          (normalStage host props 0 mo
            (colorStage host props 0 mo z)))))).links := by
  have c1 := colorStage_link_preserved host props 0 mo z l hl h1 h3
  have n1 := normalStage_linkVec_preserved host props 0 mo
    (colorStage host props 0 mo z) l c1 h1
    (lt_of_lt_of_le h3 (colorStage_length host props 0 mo z))
  have e1 := emissionStage_linkVec_preserved host props 0 mo
    (normalStage host props 0 mo (colorStage host props 0 mo z)) l n1 h1
    (lt_of_lt_of_le (lt_of_lt_of_le h3 (colorStage_length host props 0 mo z))
      (normalStage_length host props 0 mo (colorStage host props 0 mo z)))
  have p1 := packedStage_link_preserved host props 0 mo
    (emissionStage host props 0 mo (normalStage host props 0 mo
      (colorStage host props 0 mo z))) l e1 h1 h2a h2b h2c
    (lt_of_lt_of_le
      (lt_of_lt_of_le
        (lt_of_lt_of_le h3 (colorStage_length host props 0 mo z))
        (normalStage_length host props 0 mo (colorStage host props 0 mo z)))
      (emissionStage_length host props 0 mo (normalStage host props 0 mo
        (colorStage host props 0 mo z))))
  have d1 := displacementStage_link_preserved props 1 mo
    (packedStage host props 0 mo (emissionStage host props 0 mo
      (normalStage host props 0 mo (colorStage host props 0 mo z)))) l p1 h2b
    (lt_of_lt_of_le
      (lt_of_lt_of_le
        (lt_of_lt_of_le
          (lt_of_lt_of_le h3 (colorStage_length host props 0 mo z))
          (normalStage_length host props 0 mo (colorStage host props 0 mo z)))
        (emissionStage_length host props 0 mo (normalStage host props 0 mo
          (colorStage host props 0 mo z))))
      (packedStage_length host props 0 mo (emissionStage host props 0 mo
        (normalStage host props 0 mo (colorStage host props 0 mo z)))))
  rw [settingsStage_links]
  exact d1

theorem tail_noFrom (host : Host) (props : EPMProps) (mo : Option Nat)
    (z : Material) (j : Nat) (hj : j < z.nodes.length)
    (hm : ∀ m, mo = some m → m ≠ j) (h : ∀ l ∈ z.links, l.fromNode ≠ j) :
    ∀ l ∈ (settingsStage props (displacementStage props 1 mo
        (packedStage host props 0 mo (emissionStage host props 0 mo
          (normalStage host props 0 mo
            (colorStage host props 0 mo z)))))).links, l.fromNode ≠ j := by
  have hj1 : j < (colorStage host props 0 mo z).nodes.length :=
    lt_of_lt_of_le hj (colorStage_length host props 0 mo z)
  have hj2 : j < (normalStage host props 0 mo
      (colorStage host props 0 mo z)).nodes.length :=
    lt_of_lt_of_le hj1 (normalStage_length host props 0 mo _)
  have hj3 : j < (emissionStage host props 0 mo (normalStage host props 0 mo
      (colorStage host props 0 mo z))).nodes.length :=
    lt_of_lt_of_le hj2 (emissionStage_length host props 0 mo _)
  have hj4 : j < (packedStage host props 0 mo (emissionStage host props 0 mo
      (normalStage host props 0 mo
        (colorStage host props 0 mo z)))).nodes.length :=
    lt_of_lt_of_le hj3 (packedStage_length host props 0 mo _)
  have c1 := colorStage_noFrom host props 0 mo z j hj hm h
  have n1 := normalStage_noFrom host props 0 mo _ j hj1 hm c1
  have e1 := emissionStage_noFrom host props 0 mo _ j hj2 hm n1
  have p1 := packedStage_noFrom host props 0 mo _ j hj3 hm e1
  have d1 := displacementStage_noFrom props 1 mo _ j hj4 hm p1
  intro l hl
  rw [settingsStage_links] at hl
  exact d1 l hl

theorem coordStage_skip (props : EPMProps) (st : Material)
    (h1 : props.texcoord_type = TexCoordType.uv)
    (h2 : props.uv_map_name = "") :
    coordStage props st = (Option.none, st) := by
  simp [coordStage, h1, h2]

theorem tail_noVec (host : Host) (props : EPMProps) (z : Material)
    (h : ∀ l ∈ z.links, l.toSocket ≠ "Vector") :
    ∀ l ∈ (settingsStage props (displacementStage props 1 Option.none
        (packedStage host props 0 Option.none (emissionStage host props 0
          Option.none (normalStage host props 0 Option.none
            (colorStage host props 0 Option.none z)))))).links,
      l.toSocket ≠ "Vector" := by
  have c1 := colorStage_noVec host props 0 z h
  have n1 := normalStage_noVec host props 0 _ c1
  have e1 := emissionStage_noVec host props 0 _ n1
  have p1 := packedStage_noVec host props 0 _ e1
  have d1 := displacementStage_noVec props 1 _ p1
  intro l hl
  rw [settingsStage_links] at hl
  exact d1 l hl

/-- C9 (amended): with texture-coordinate mode UV, two cases hold.  With a
non-empty UV-map name, the builder creates one UV-map node (node 4) wired
into the mapping node (node 3) — but it also creates one generic
texture-coordinate node (node 2) beforehand and leaves it entirely unwired:
no link in the built graph leaves node 2.  So a UV-map node is used instead
of the generic node for the coordinate source, yet an unused generic
texture-coordinate node is left in the graph, contrary to the claim.  With
an empty UV-map name the coordinate stage is skipped entirely: no
texture-coordinate, UV-map or mapping node is created, and no sampler
`Vector` input is connected (no link in the built graph ends at a `Vector`
socket), as the claim states. -/
theorem execute_uv_coordinate_nodes (host : Host) (props : EPMProps)
    (h1 : props.texcoord_type = TexCoordType.uv) :
    (props.uv_map_name ≠ "" →
      (execute host props).countKind NodeKind.texCoord = 1 ∧
      (execute host props).countKind NodeKind.uvMap = 1 ∧
      (execute host props).countKind NodeKind.mapping = 1 ∧
      (⟨4, "UV", 3, "Vector"⟩ : Link) ∈ (execute host props).links ∧
      ∀ l ∈ (execute host props).links, l.fromNode ≠ 2) ∧
    (props.uv_map_name = "" →
      (execute host props).countKind NodeKind.texCoord = 0 ∧
      (execute host props).countKind NodeKind.uvMap = 0 ∧
      (execute host props).countKind NodeKind.mapping = 0 ∧
      ∀ l ∈ (execute host props).links, l.toSocket ≠ "Vector") := by
  refine ⟨fun h2 => ?_, fun h2 => ?_⟩
  · simp only [execute]
    rw [coordStage_uv_named props _ h1 h2]
    simp only [Material.newNode_fst, Material.newNode_snd_nodes,
      Material.linksNew_nodes, Material.setAttr_nodes, emptyMaterial,
      List.length_append, List.length_singleton, List.length_nil,
      Nat.zero_add, Nat.add_zero]
    refine ⟨?_, ?_, ?_, ?_, ?_⟩
    · rw [tail_countKind host props _ _ NodeKind.texCoord (by decide)
        (by decide) (by decide) (by decide) (by decide) (by decide)
        (by decide) (by decide) (by decide) (by decide)]
      simp [Material.countKind_linksNew, Material.countKind_eq]
    · rw [tail_countKind host props _ _ NodeKind.uvMap (by decide) (by decide)
        (by decide) (by decide) (by decide) (by decide) (by decide)
        (by decide) (by decide) (by decide)]
      simp [Material.countKind_linksNew, Material.countKind_eq]
    · rw [tail_countKind host props _ _ NodeKind.mapping (by decide)
        (by decide) (by decide) (by decide) (by decide) (by decide)
        (by decide) (by decide) (by decide) (by decide)]
      simp [Material.countKind_linksNew, Material.countKind_eq]
    · refine tail_link_preserved host props _ _ _ ?_ (by decide) (by decide)
        (by decide) (by decide) ?_
      · simp [Material.mem_linksNew]
      · simp
    · refine tail_noFrom host props _ _ 2 ?_ ?_ ?_
      · simp
      · intro m hmm
        cases hmm
        decide
      · intro l hl
        simp [Material.linksNew, emptyMaterial, List.filter_cons] at hl
        rcases hl with rfl | rfl <;> decide
  · simp only [execute]
    rw [coordStage_skip props _ h1 h2]
    simp only [Material.newNode_fst, Material.newNode_snd_nodes,
      Material.linksNew_nodes, Material.setAttr_nodes, emptyMaterial,
      List.length_append, List.length_singleton, List.length_nil,
      Nat.zero_add, Nat.add_zero]
    refine ⟨?_, ?_, ?_, ?_⟩
    · rw [tail_countKind host props _ _ NodeKind.texCoord (by decide)
        (by decide) (by decide) (by decide) (by decide) (by decide)
        (by decide) (by decide) (by decide) (by decide)]
      simp [Material.countKind_linksNew, Material.countKind_eq, emptyMaterial]
    · rw [tail_countKind host props _ _ NodeKind.uvMap (by decide) (by decide)
        (by decide) (by decide) (by decide) (by decide) (by decide)
        (by decide) (by decide) (by decide)]
      simp [Material.countKind_linksNew, Material.countKind_eq, emptyMaterial]
    · rw [tail_countKind host props _ _ NodeKind.mapping (by decide)
        (by decide) (by decide) (by decide) (by decide) (by decide)
        (by decide) (by decide) (by decide) (by decide)]
      simp [Material.countKind_linksNew, Material.countKind_eq, emptyMaterial]
    · refine tail_noVec host props _ ?_
      intro l hl
      simp [Material.linksNew, emptyMaterial] at hl
      subst hl
      decide

set_option maxHeartbeats 1600000 in
/-- C7: with a normal image present, two cases hold.  With the green-flip
option set, the normal-map stage creates a separate-colour node (id `c+2`,
where `c` is the node count before the stage; the sampler is `c` and the
normal-map node `c+1`), an invert node (`c+3`) and a combine-colour node
(`c+4`); the sampled colour feeds the separator, green passes through the
invert node into the combiner's green input, red and blue are wired
directly, the combiner output feeds the normal-map node's colour input, and
every link into the invert node comes from the separator's green output.
With the flip option clear, no separate-colour, invert or combine-colour
node is created and the sampled colour is wired directly into the
normal-map node's colour input. -/
theorem normal_green_flip_chain (host : Host) (props : EPMProps) (bsdf : Nat)
    (mapOpt : Option Nat) (st : Material) (img : Nat)
    (himg : props.normal_image = some img)
    (hb : bsdf < st.nodes.length)
    (hwf : ∀ l ∈ st.links, l.toNode < st.nodes.length) :
    (props.normal_invert_green = true →
      (normalStage host props bsdf mapOpt st).countKind NodeKind.invert =
        st.countKind NodeKind.invert + 1 ∧
      (normalStage host props bsdf mapOpt st).countKind
          (if host.v34plus then NodeKind.separateColor
           else NodeKind.separateRGB) =
        st.countKind (if host.v34plus then NodeKind.separateColor
           else NodeKind.separateRGB) + 1 ∧
      (normalStage host props bsdf mapOpt st).countKind
          (if host.v34plus then NodeKind.combineColor
           else NodeKind.combineRGB) =
        st.countKind (if host.v34plus then NodeKind.combineColor
           else NodeKind.combineRGB) + 1 ∧
      (⟨st.nodes.length, "Color", st.nodes.length + 2,
          separateColorInput0 host⟩ : Link) ∈
        (normalStage host props bsdf mapOpt st).links ∧
      (⟨st.nodes.length + 2, (get_separate_color_outputs host).2.1,
          st.nodes.length + 3, "Color"⟩ : Link) ∈
        (normalStage host props bsdf mapOpt st).links ∧
      (⟨st.nodes.length + 3, "Color", st.nodes.length + 4,
          (get_combine_color_inputs host).2.1⟩ : Link) ∈
        (normalStage host props bsdf mapOpt st).links ∧
      (⟨st.nodes.length + 2, (get_separate_color_outputs host).1,
          st.nodes.length + 4, (get_combine_color_inputs host).1⟩ : Link) ∈
        (normalStage host props bsdf mapOpt st).links ∧
      (⟨st.nodes.length + 2, (get_separate_color_outputs host).2.2,
          st.nodes.length + 4, (get_combine_color_inputs host).2.2⟩ : Link) ∈
        (normalStage host props bsdf mapOpt st).links ∧
      (⟨st.nodes.length + 4, combineColorOutput0 host,
          st.nodes.length + 1, "Color"⟩ : Link) ∈
        (normalStage host props bsdf mapOpt st).links ∧
      ∀ l ∈ (normalStage host props bsdf mapOpt st).links,
        l.toNode = st.nodes.length + 3 →
          l = ⟨st.nodes.length + 2, (get_separate_color_outputs host).2.1,
            st.nodes.length + 3, "Color"⟩) ∧
    (props.normal_invert_green = false →
      (normalStage host props bsdf mapOpt st).countKind NodeKind.invert =
        st.countKind NodeKind.invert ∧
      (normalStage host props bsdf mapOpt st).countKind
          NodeKind.separateColor = st.countKind NodeKind.separateColor ∧
      (normalStage host props bsdf mapOpt st).countKind
          NodeKind.separateRGB = st.countKind NodeKind.separateRGB ∧
      (normalStage host props bsdf mapOpt st).countKind
          NodeKind.combineColor = st.countKind NodeKind.combineColor ∧
      (normalStage host props bsdf mapOpt st).countKind
          NodeKind.combineRGB = st.countKind NodeKind.combineRGB ∧
      (⟨st.nodes.length, "Color", st.nodes.length + 1, "Color"⟩ : Link) ∈
        (normalStage host props bsdf mapOpt st).links) := by
  have hb1 : ¬(st.nodes.length = bsdf) := by omega
  have hb2 : ¬(st.nodes.length + 1 = bsdf) := by omega
  have hb3 : ¬(st.nodes.length + 2 = bsdf) := by omega
  have hb4 : ¬(st.nodes.length + 3 = bsdf) := by omega
  have hb5 : ¬(st.nodes.length + 4 = bsdf) := by omega
  have hb3' : ¬(st.nodes.length + 1 + 1 = bsdf) := by omega
  have hb4' : ¬(st.nodes.length + 1 + 1 + 1 = bsdf) := by omega
  have hb5' : ¬(st.nodes.length + 1 + 1 + 1 + 1 = bsdf) := by omega
  refine ⟨fun hflip => ?_, fun hflip => ?_⟩
  · cases hv : host.v34plus with
    | true =>
      simp only [normalStage, himg, hflip, if_true]
      split <;> cases mapOpt <;>
        · refine ⟨?_, ?_, ?_, ?_, ?_, ?_, ?_, ?_, ?_, ?_⟩ <;>
            first
            | (intro l hl hto
               simp +arith [Material.mem_linksNew, create_separate_color_node,
                 create_combine_color_node, hv, get_separate_color_outputs,
                 get_combine_color_inputs, separateColorInput0,
                 combineColorOutput0, hb1, hb2, hb3, hb4, hb5, hb3', hb4',
                 hb5'] at hl
               repeat'
                 first
                 | (exact absurd hto (by have := hwf l hl; omega))
                 | (replace hl := hl.1)
                 | (rcases hl with hl | rfl)
               all_goals
                 first
                 | (simp at hto <;> omega)
                 | simp [hv, get_separate_color_outputs])
            | (simp +arith [create_separate_color_node,
                create_combine_color_node, hv, get_separate_color_outputs,
                get_combine_color_inputs, separateColorInput0,
                combineColorOutput0]
               done)
            | (simp +arith [Material.mem_linksNew, create_separate_color_node,
                create_combine_color_node, hv, get_separate_color_outputs,
                get_combine_color_inputs, separateColorInput0,
                combineColorOutput0, hb1, hb2, hb3, hb4, hb5, hb3', hb4',
                hb5']
               done)
    | false =>
      simp only [normalStage, himg, hflip, if_true]
      split <;> cases mapOpt <;>
        · refine ⟨?_, ?_, ?_, ?_, ?_, ?_, ?_, ?_, ?_, ?_⟩ <;>
            first
            | (intro l hl hto
               simp +arith [Material.mem_linksNew, create_separate_color_node,
                 create_combine_color_node, hv, get_separate_color_outputs,
                 get_combine_color_inputs, separateColorInput0,
                 combineColorOutput0, hb1, hb2, hb3, hb4, hb5, hb3', hb4',
                 hb5'] at hl
               repeat'
                 first
                 | (exact absurd hto (by have := hwf l hl; omega))
                 | (replace hl := hl.1)
                 | (rcases hl with hl | rfl)
               all_goals
                 first
                 | (simp at hto <;> omega)
                 | simp [hv, get_separate_color_outputs])
            | (simp +arith [create_separate_color_node,
                create_combine_color_node, hv, get_separate_color_outputs,
                get_combine_color_inputs, separateColorInput0,
                combineColorOutput0]
               done)
            | (simp +arith [Material.mem_linksNew, create_separate_color_node,
                create_combine_color_node, hv, get_separate_color_outputs,
                get_combine_color_inputs, separateColorInput0,
                combineColorOutput0, hb1, hb2, hb3, hb4, hb5, hb3', hb4',
                hb5']
               done)
  · simp only [normalStage, himg, hflip, Bool.false_eq_true, if_false]
    split <;> cases mapOpt <;>
      · refine ⟨?_, ?_, ?_, ?_, ?_, ?_⟩ <;>
          first
          | (simp
             done)
          | (simp +arith [Material.mem_linksNew, hb2]
             done)

/-- Host description of a modern (Blender 4.x) session: 3.4+ node vocabulary
and the 4.x Principled BSDF input socket names the addon touches. -/
def hostModern : Host :=
  ⟨true, ["Base Color", "Metallic", "Roughness", "IOR", "Alpha", "Normal",
    "Specular IOR Level", "Subsurface Weight", "Emission Color",
    "Emission Strength"]⟩

/-- Property state with every field at its declared default. -/
def defaultProps : EPMProps :=
  { material_name := ""
    col_image := Option.none
    normal_image := Option.none
    emission_image := Option.none
    packed_image := Option.none
    displacement_image := Option.none
    normal_invert_green := false
    normal_strength := 1
    displacement_strength := (1 : Rat)/10
    displacement_midlevel := (1 : Rat)/2
    use_displacement := false
    texcoord_type := TexCoordType.uv
    uv_map_name := ""
    preset := Preset.custom
    channel_r := ⟨Usage.none, false⟩
    channel_g := ⟨Usage.none, false⟩
    channel_b := ⟨Usage.none, false⟩
    channel_a := ⟨Usage.none, false⟩
    use_alpha_blend := false
    apply_to_all_selected := false }

/-- Property state exercising both displacement paths at once: a packed map
whose R slot is tagged displacement, plus a dedicated displacement image
with displacement enabled. -/
def propsBothDisp : EPMProps :=
  { defaultProps with
    packed_image := some 2
    displacement_image := some 3
    use_displacement := true
    channel_r := ⟨Usage.displacement, false⟩ }

/-- Property state with a colour image and two packed slots tagged
ambient occlusion. -/
def propsTwoAO : EPMProps :=
  { defaultProps with
    col_image := some 1
    packed_image := some 2
    channel_r := ⟨Usage.ao, false⟩
    channel_g := ⟨Usage.ao, false⟩ }

/-- Property state in UV mode with a named UV map. -/
def propsNamedUV : EPMProps :=
  { defaultProps with
    uv_map_name := "UVMap" }

/-- Property state with a normal map and the green-flip option set. -/
def propsFlipNormal : EPMProps :=
  { defaultProps with
    normal_image := some 1
    normal_invert_green := true }

/-- One-node base state (a Principled BSDF with id 0) for exercising the
normal-map stage. -/
def flipBaseState : Material :=
  ⟨"m", [⟨0, NodeKind.bsdfPrincipled, 0⟩], [], [], [], [], false, "OPAQUE",
    "OPAQUE"⟩

/-- Small shading graph used to exercise the router: a Principled BSDF node
(id 0) and an image texture node (id 1) whose colour output feeds Base
Color. -/
def aoWitnessState : Material :=
  ⟨"m", [⟨0, NodeKind.bsdfPrincipled, 0⟩, ⟨1, NodeKind.texImage, 0⟩],
    [⟨1, "Color", 0, "Base Color"⟩], [], [], [], false, "OPAQUE", "OPAQUE"⟩

/-- Witness for C2: on the concrete two-node graph with Base Color linked,
AO routing adds exactly one mix node. -/
theorem ao_routing_splices_multiply_witness :
    ("Base Color" ∈ hostModern.bsdfInputs ∧
      aoWitnessState.linkInto 0 "Base Color" =
        some ⟨1, "Color", 0, "Base Color"⟩ ∧
      (0 : Nat) < aoWitnessState.nodes.length ∧
      (1 : Nat) < aoWitnessState.nodes.length) ∧
    mixCount (handleChannelUsage hostModern defaultProps 0 Usage.ao (1, "Alpha")
        "R" aoWitnessState) =
      mixCount aoWitnessState + 1 :=
  ⟨⟨by decide, by decide, by decide, by decide⟩,
    (ao_routing_splices_multiply hostModern defaultProps 0 (1, "Alpha") "R"
      aoWitnessState ⟨1, "Color", 0, "Base Color"⟩ (by decide) (by decide)
      (by decide) (by decide)).1⟩

/-- Witness for C6: routing a Metallic channel with the invert flag set on
the concrete two-node graph places the invert node (id 2) between the raw
alpha output of node 1 and the router's destination. -/
theorem invert_strictly_between_witness :
    (Usage.metallic ≠ Usage.none ∧
      (1 : Nat) < aoWitnessState.nodes.length ∧
      (0 : Nat) < aoWitnessState.nodes.length ∧
      ∀ l ∈ aoWitnessState.links, ¬(l.fromNode = 1 ∧ l.fromSocket = "Alpha")) ∧
    (routeChannel hostModern defaultProps 0 "R" (1, "Alpha")
        ⟨Usage.metallic, true⟩ aoWitnessState).kindAt
        aoWitnessState.nodes.length = some NodeKind.invert ∧
    (Link.mk 1 "Alpha" aoWitnessState.nodes.length "Color") ∈
      (routeChannel hostModern defaultProps 0 "R" (1, "Alpha")
        ⟨Usage.metallic, true⟩ aoWitnessState).links :=
  ⟨⟨by decide, by decide, by decide, by decide⟩,
    ((invert_strictly_between hostModern defaultProps 0 "R" (1, "Alpha")
      ⟨Usage.metallic, true⟩ aoWitnessState (by decide) (by decide) (by decide)
      (by decide)).1 rfl).1,
    ((invert_strictly_between hostModern defaultProps 0 "R" (1, "Alpha")
      ⟨Usage.metallic, true⟩ aoWitnessState (by decide) (by decide) (by decide)
      (by decide)).1 rfl).2.1⟩

/-- Counterexample for C1 as originally stated: with a packed R slot tagged
displacement and the dedicated displacement path enabled at the same time,
the built graph holds two displacement nodes. -/
theorem execute_displacement_node_count_cx :
    dispCount (execute hostModern propsBothDisp) = 2 ∧
    ¬(dispCount (execute hostModern propsBothDisp) ≤ 1) := by
  decide

/-- Counterexample for C3 as originally stated: with two packed slots tagged
ambient occlusion and a colour image wired to Base Color, the built graph
holds two multiply-mix nodes. -/
theorem execute_ao_mix_count_cx :
    mixCount (execute hostModern propsTwoAO) = 2 ∧
    ¬(mixCount (execute hostModern propsTwoAO) ≤ 1) := by
  decide

/-- Counterexample for C9 as originally stated: in UV mode with a named UV
map the graph holds a generic texture-coordinate node (node 2) alongside the
UV-map node, and no link leaves node 2 — an unused generic coordinate node
is left behind. -/
theorem execute_uv_coordinate_nodes_cx :
    (execute hostModern propsNamedUV).kindAt 2 = some NodeKind.texCoord ∧
    (execute hostModern propsNamedUV).countKind NodeKind.texCoord = 1 ∧
    (execute hostModern propsNamedUV).countKind NodeKind.uvMap = 1 ∧
    ∀ l ∈ (execute hostModern propsNamedUV).links, l.fromNode ≠ 2 := by
  decide

/-- Witness for C9 (amended): on the concrete named-UV configuration the
UV-map node (id 4) is wired into the mapping node (id 3). -/
theorem execute_uv_coordinate_nodes_witness :
    (⟨4, "UV", 3, "Vector"⟩ : Link) ∈
      (execute hostModern propsNamedUV).links :=
  (((execute_uv_coordinate_nodes hostModern propsNamedUV rfl).1
    (by decide))).2.2.2.1

/-- Witness for C7: on a one-node base state the separator's green output
(node 3) is wired into the invert node (node 4). -/
theorem normal_green_flip_chain_witness :
    (⟨3, "Green", 4, "Color"⟩ : Link) ∈
      (normalStage hostModern propsFlipNormal 0 Option.none
        flipBaseState).links :=
  ((normal_green_flip_chain hostModern propsFlipNormal 0 Option.none
    flipBaseState 1 rfl (by decide) (by decide)).1 rfl).2.2.2.2.1

end PackedMaterial
